import Mathlib

/-!
Verification development for the RL-HPA-Axis repository.

The repository contains two Python variants of an HPA-axis simulation
environment:
* the extended 27-dimensional model (`HPAEnvironment` in
  `src/Python Implementation/hpa.py`), and
* the simple 12-dimensional model with a developmental-stage curriculum
  (`HPAEnvironment` in `src/hpa.py`).

Both are shallowly embedded here.  Python floats are idealised as real
numbers; the random draws consumed by `reset`/`step` (normal noise,
uniform event draws, the discrete magnitude draw) are modelled as an
explicit input stream `σ : ℕ → ℝ` consumed in the order the source
consumes its RNG, with the discrete `np.random.choice([2,5,8],
p=[0.6,0.3,0.1])` draw modelled by inverse-CDF lookup of a uniform draw.
`np.clip(x, lo, hi)` is modelled by `clip`, and the 50-sample
`deque(maxlen=50)` cortisol history by a bounded list append.
-/

open scoped Classical

noncomputable section

namespace HPA

/-- `np.clip(x, lo, hi)` for `lo ≤ hi`. -/
def clip (x lo hi : ℝ) : ℝ := max lo (min x hi)

theorem clip_mem_bounds {x lo hi : ℝ} (h : lo ≤ hi) :
    lo ≤ clip x lo hi ∧ clip x lo hi ≤ hi :=
  ⟨le_max_left lo _, max_le h (min_le_right x hi)⟩

theorem clip_of_le_lo {x lo hi : ℝ} (hx : x ≤ lo) : clip x lo hi = lo :=
  max_eq_left (min_le_of_left_le hx)

theorem clip_of_hi_le {x lo hi : ℝ} (hx : hi ≤ x) (h : lo ≤ hi) : clip x lo hi = hi := by
  rw [clip, min_eq_right hx, max_eq_right h]

theorem clip_of_mem {x lo hi : ℝ} (h1 : lo ≤ x) (h2 : x ≤ hi) : clip x lo hi = x := by
  rw [clip, min_eq_left h2, max_eq_right h1]

/-- `deque(maxlen=50).append`: append on the right, evict from the left
when the length would exceed 50. -/
def dequeAppend (h : List ℝ) (x : ℝ) : List ℝ :=
  let h2 := h ++ [x]
  if 50 < h2.length then h2.drop (h2.length - 50) else h2

/-- `np.var` (population variance) of a list of samples. -/
def listVar (l : List ℝ) : ℝ :=
  let m := l.sum / l.length
  ((l.map fun x => (x - m) ^ 2).sum) / l.length

/-- `list(history)[-10:]`: the last `n` entries of a list. -/
def lastN (n : ℕ) (l : List ℝ) : List ℝ := l.drop (l.length - n)

-- ------------------------------------------------------------------
-- Physiological constants (class attributes of the extended model;
-- the simple model sets the same numeric values in
-- `_setup_physiological_parameters`).
-- ------------------------------------------------------------------

def HALFLIFE_CORTISOL : ℝ := 1.25
def HALFLIFE_ACTH : ℝ := 0.17
def HALFLIFE_CRH : ℝ := 0.25
def HALFLIFE_AVP : ℝ := 0.33
def HALFLIFE_BETAEP : ℝ := 0.5
def HALFLIFE_UCN1 : ℝ := 0.5
def HALFLIFE_UCN23 : ℝ := 1.0

def MR_KD : ℝ := 0.5
def GR_KD : ℝ := 5.0
def CORTISOL_TO_NM : ℝ := 27.6

def OPT_CORTISOL : ℝ := 15.0
def OPT_ACTH : ℝ := 25.0
def OPT_CRH : ℝ := 100.0
def OPT_AVP : ℝ := 4.0

def TOL_CORTISOL : ℝ := 7.0
def TOL_ACTH : ℝ := 15.0
def TOL_CRH : ℝ := 50.0

def CRH_BASAL : ℝ := 50.0
def ACTH_BASAL : ℝ := 15.0
def CORT_BASAL : ℝ := 8.0
def AVP_BASAL : ℝ := 2.0
def BETAEP_BASAL : ℝ := 5.0

def GLAND_GROWTH : ℝ := 0.001
def GLAND_ATROPHY : ℝ := 0.0008

def k_cort : ℝ := Real.log 2 / HALFLIFE_CORTISOL
def k_acth : ℝ := Real.log 2 / HALFLIFE_ACTH
def k_crh : ℝ := Real.log 2 / HALFLIFE_CRH
def k_avp : ℝ := Real.log 2 / HALFLIFE_AVP
def k_betaep : ℝ := Real.log 2 / HALFLIFE_BETAEP
def k_ucn1 : ℝ := Real.log 2 / HALFLIFE_UCN1
def k_ucn23 : ℝ := Real.log 2 / HALFLIFE_UCN23

def ultradian_period : ℝ := 1.5

-- ------------------------------------------------------------------
-- Action decoding (identical formula in both models; Python `%` and
-- `//` on a positive modulus agree with `Int.emod` / `Int.ediv`).
-- ------------------------------------------------------------------

def crh_mod_of (action : ℤ) : ℝ := ((action % 3 - 1 : ℤ) : ℝ) * 0.3
def acth_mod_of (action : ℤ) : ℝ := ((action / 3 % 3 - 1 : ℤ) : ℝ) * 0.5
def cortisol_mod_of (action : ℤ) : ℝ := ((action / 9 % 3 - 1 : ℤ) : ℝ) * 0.8

/-- Inverse-CDF model of `np.random.choice([2, 5, 8], p=[0.6, 0.3, 0.1])`. -/
def magnitudeOf (u : ℝ) : ℝ := if u < 0.6 then 2 else if u < 0.9 then 5 else 8

-- ------------------------------------------------------------------
-- Receptor occupancy (shared by both models).
-- ------------------------------------------------------------------

def cortisol_to_nmol (c : ℝ) : ℝ := c * CORTISOL_TO_NM

def mr_occupancy (cnm : ℝ) : ℝ := cnm / (MR_KD + cnm)
def gr_occupancy (cnm : ℝ) : ℝ := cnm / (GR_KD + cnm)

-- ------------------------------------------------------------------
-- Extended model state (`src/Python Implementation/hpa.py`).
-- ------------------------------------------------------------------

structure ExtState where
  crh : ℝ
  acth : ℝ
  cortisol : ℝ
  avp : ℝ
  beta_endorphin : ℝ
  melanocortin_tone : ℝ
  ucn1 : ℝ
  ucn23 : ℝ
  mr_receptors : ℝ
  gr_receptors : ℝ
  crfr1_density : ℝ
  crfr2_density : ℝ
  pituitary_mass : ℝ
  adrenal_mass : ℝ
  nts_drive : ℝ
  gaba_inhibition : ℝ
  sfo_drive : ℝ
  cea_activity : ℝ
  mea_activity : ℝ
  cea_sensitisation : ℝ
  pfc_inhibition : ℝ
  lc_activity : ℝ
  hippocampal_damage : ℝ
  arcuate_metabolic_drive : ℝ
  stress_physical : ℝ
  stress_emotional : ℝ
  chronic_stress_index : ℝ
  time_hours : ℝ
  day : ℕ
  ultradian_phase : ℝ
  prev_cortisol : ℝ
  fast_feedback_signal : ℝ
  current_step : ℕ
  cumulative_load : ℝ
  cortisol_history : List ℝ

/-- Constructor parameters of the extended environment. -/
structure ExtParams where
  dt : ℝ
  max_steps : ℕ

/-- `stress_level` property: total stress. -/
def stress_level (s : ExtState) : ℝ := s.stress_physical + s.stress_emotional

-- ------------------------------------------------------------------
-- Extended model: feedback mechanisms.
-- ------------------------------------------------------------------

/-- `_fast_nongenomic_feedback`: the updated EMA signal. -/
def fast_feedback_value (dt cortisol prev old : ℝ) : ℝ :=
  let rate := (cortisol - prev) / dt
  let pos_rate := max 0.0 rate
  let signal := pos_rate / (pos_rate + 5.0)
  0.7 * signal + 0.3 * old

/-- `_slow_genomic_feedback`. -/
def slow_genomic_feedback (s : ExtState) (mr_occ gr_occ : ℝ) : ℝ :=
  0.3 * mr_occ * s.mr_receptors + 0.7 * gr_occ * s.gr_receptors
    + 0.1 * gr_occ * s.gr_receptors * s.pfc_inhibition

/-- `_hippocampal_feedback`. -/
def hippocampal_feedback (s : ExtState) (mr_occ gr_occ : ℝ) : ℝ :=
  let hip_signal := 0.4 * mr_occ * s.mr_receptors + 0.6 * gr_occ * s.gr_receptors
  let damage_factor := max 0.1
    (1.0 - 0.5 * s.hippocampal_damage - 0.3 * Real.tanh s.chronic_stress_index)
  hip_signal * damage_factor

-- ------------------------------------------------------------------
-- Extended model: per-subsystem update rules (one per source method;
-- each writes exactly the fields the Python method mutates).
-- ------------------------------------------------------------------

/-- `_update_amygdala`. -/
def update_amygdala (dt mr_occ gr_occ : ℝ) (s : ExtState) : ExtState :=
  let cea_target0 := 0.1 + 0.4 * Real.tanh (s.stress_physical / 3.0)
  let cea_gluco_boost := 0.1 * gr_occ * s.gr_receptors * (1.0 + s.cea_sensitisation)
  let cea_target := min 1.0 (cea_target0 + cea_gluco_boost)
  let cea1 := s.cea_activity + 0.08 * (cea_target - s.cea_activity) * dt
  let sens := clip (s.cea_sensitisation
      + 0.001 * gr_occ * s.chronic_stress_index * dt - 0.0005 * dt) 0.0 2.0
  let mea_target := 0.1 + 0.4 * Real.tanh (s.stress_emotional / 3.0)
  let mea1 := s.mea_activity + 0.06 * (mea_target - s.mea_activity) * dt
  { s with cea_activity := clip cea1 0.0 1.0,
           cea_sensitisation := sens,
           mea_activity := clip mea1 0.0 1.0 }

/-- `_update_pfc`. -/
def update_pfc (dt : ℝ) (s : ExtState) : ExtState :=
  let pfc_target0 := 0.5 * (1.0 - 0.3 * Real.tanh s.chronic_stress_index)
  let acute_suppression := 0.1 * Real.tanh (stress_level s / 5.0)
  let pfc_target := max 0.05 (pfc_target0 - acute_suppression)
  let pfc := clip (s.pfc_inhibition + 0.04 * (pfc_target - s.pfc_inhibition) * dt) 0.0 1.0
  { s with pfc_inhibition := pfc }

/-- `_update_lc`. -/
def update_lc (dt : ℝ) (s : ExtState) : ExtState :=
  let lc_target0 := 0.1 + 0.2 * Real.tanh (stress_level s / 5.0)
    + 0.1 * (s.crh / OPT_CRH) + 0.05 * (s.ucn23 - 1.0)
  let lc_target := lc_target0 * max 0.4 (1.0 - 0.15 * Real.tanh s.chronic_stress_index)
  let lc := clip (s.lc_activity + 0.05 * (lc_target - s.lc_activity) * dt) 0.0 1.0
  { s with lc_activity := lc }

/-- `_update_sfo`. -/
def update_sfo (dt : ℝ) (s : ExtState) : ExtState :=
  let sfo_target := 0.1 + 0.15 * Real.tanh (s.stress_physical / 4.0)
    + 0.1 * (s.avp / OPT_AVP - 1.0)
  let sfo := clip (s.sfo_drive + 0.04 * (sfo_target - s.sfo_drive) * dt) 0.0 1.0
  { s with sfo_drive := sfo }

/-- `_update_arcuate`. -/
def update_arcuate (dt : ℝ) (s : ExtState) : ExtState :=
  let npy_agrp_drive := 0.1 * Real.tanh s.chronic_stress_index
    + 0.05 * Real.tanh (s.stress_physical / 3.0)
  let msh_cart_drive := -0.05 * s.melanocortin_tone
    - 0.03 * Real.tanh (s.stress_emotional / 3.0)
  let target := npy_agrp_drive + msh_cart_drive
  let drive := clip (s.arcuate_metabolic_drive
    + 0.02 * (target - s.arcuate_metabolic_drive) * dt) (-1.0) 1.0
  { s with arcuate_metabolic_drive := drive }

/-- `_update_upstream_signals` (NTS and GABA; reads the already-updated
CeA and PFC values). -/
def update_upstream_signals (dt : ℝ) (s : ExtState) : ExtState :=
  let nts_target := (0.1 + 0.2 * Real.tanh (stress_level s / 5.0)
      + 0.3 * s.cea_activity) * max 0.3 (1.0 - 0.3 * s.pfc_inhibition)
  let gaba_target := 0.15 + 0.2 * Real.tanh (stress_level s / 4.0)
    + 0.1 * s.pfc_inhibition
  let nts := clip (s.nts_drive + 0.05 * (nts_target - s.nts_drive) * dt) 0.0 1.0
  let gaba := clip (s.gaba_inhibition + 0.03 * (gaba_target - s.gaba_inhibition) * dt) 0.0 1.0
  { s with nts_drive := nts, gaba_inhibition := gaba }

/-- `_update_urocortins`. -/
def update_urocortins (dt : ℝ) (s : ExtState) : ExtState :=
  let ucn1_prod := 0.5 + 0.1 * stress_level s
  let ucn23_prod := 0.5 + 0.2 * s.stress_emotional + 0.05 * s.lc_activity
  let u1 := clip (s.ucn1 + (ucn1_prod - k_ucn1 * s.ucn1) * dt) 0.1 5.0
  let u23 := clip (s.ucn23 + (ucn23_prod - k_ucn23 * s.ucn23) * dt) 0.1 8.0
  { s with ucn1 := u1, ucn23 := u23 }

/-- `_update_hippocampal_damage`. -/
def update_hippocampal_damage (dt gr_occ : ℝ) (s : ExtState) : ExtState :=
  let damage_rate := 0.0002 * max 0.0 (gr_occ - 0.4) * s.chronic_stress_index
  let repair_rate := 0.00002
  let dmg := clip (s.hippocampal_damage + (damage_rate - repair_rate) * dt) 0.0 1.0
  { s with hippocampal_damage := dmg }

/-- Arcuate CRF drive boost used in `step` (both polarities excitatory). -/
def arcuate_crh_boost (d : ℝ) : ℝ := 10.0 * |d|

/-- Arcuate ACTH drive boost used in `step`. -/
def arcuate_acth_boost (d : ℝ) : ℝ := 5.0 * |d|

/-- CRH dynamics block of `step` (reads the already-updated limbic values). -/
def update_crh (dt crh_mod total_feedback : ℝ) (s : ExtState) : ExtState :=
  let crh_production :=
    CRH_BASAL
    + 10.0 * stress_level s
    + 30.0 * s.nts_drive
    + 15.0 * s.sfo_drive
    + 10.0 * s.mea_activity
    + arcuate_crh_boost s.arcuate_metabolic_drive
    - CRH_BASAL * total_feedback * 0.8
    - 20.0 * s.gaba_inhibition
    + crh_mod * 20.0
  let c := clip (s.crh + (crh_production - k_crh * s.crh) * dt) 0.0 400.0
  { s with crh := c }

/-- ACTH dynamics block of `step` (reads the already-updated CRH). -/
def update_acth (dt acth_mod total_feedback : ℝ) (s : ExtState) : ExtState :=
  let avp_synergy := 1.0 + 0.15 * (s.avp / OPT_AVP - 1.0)
    * (1.0 + 0.2 * s.chronic_stress_index)
  let crfr2_brake := max 0.5 (1.0 - 0.2 * (s.crfr2_density - 1.0))
  let crh_to_acth_efficiency := s.crfr1_density * crfr2_brake
  let crh_stimulation := 0.2 * (s.crh - 100.0) * crh_to_acth_efficiency
  let avp_contribution := 0.1 * (s.avp - OPT_AVP) * avp_synergy
  let acth_production :=
    ACTH_BASAL * s.pituitary_mass
    + crh_stimulation
    + avp_contribution
    + 3.0 * s.lc_activity
    + arcuate_acth_boost s.arcuate_metabolic_drive
    - ACTH_BASAL * total_feedback * 0.5
    + acth_mod * 10.0
  let a := clip (s.acth + (acth_production - k_acth * s.acth) * dt) 0.0 200.0
  { s with acth := a }

/-- `_circadian_amplitude`. -/
def circadian_amplitude (s : ExtState) : ℝ :=
  let phase := 2 * Real.pi * (s.time_hours - 8) / 24
  let base_amplitude := 9.0 + 9.0 * Real.cos phase
  let avp_mod := 1.0 + 0.05 * (s.avp - OPT_AVP)
  let circadian_disruption := max 0.5 (1.0 - 0.1 * s.chronic_stress_index)
  base_amplitude * clip avp_mod 0.5 1.5 * circadian_disruption

/-- Cortisol dynamics block of `step` (advances the ultradian phase as
`_ultradian_pulse` does, reads the already-updated ACTH, and appends to
the history deque). -/
def update_cortisol (dt cort_mod noise : ℝ) (s : ExtState) : ExtState :=
  let circadian_drive := circadian_amplitude s
  let phase := s.ultradian_phase + 2 * Real.pi * dt / ultradian_period
  let ultradian := 3.0 * Real.sin phase + noise
  let acth_stim := 0.15 * (s.acth - OPT_ACTH) * s.adrenal_mass
  let stress_direct := 2.0 * stress_level s
  let cort_production :=
    (circadian_drive / 12.0) * CORT_BASAL
    + acth_stim
    + stress_direct
    + ultradian * 0.3
    + cort_mod * 2.0
  let c := clip (s.cortisol + (cort_production - k_cort * s.cortisol) * dt) 0.0 60.0
  { s with cortisol := c,
           ultradian_phase := phase,
           cortisol_history := dequeAppend s.cortisol_history c }

/-- `_update_pomc_products` (reads the already-updated ACTH). -/
def update_pomc_products (dt : ℝ) (s : ExtState) : ExtState :=
  let betaep_prod := BETAEP_BASAL + 0.15 * (s.acth - OPT_ACTH) * s.pituitary_mass
  let mcr_target := 0.5 + 0.5 * (s.acth / OPT_ACTH)
  let be := clip (s.beta_endorphin + (betaep_prod - k_betaep * s.beta_endorphin) * dt) 0.0 40.0
  let mel := clip (s.melanocortin_tone + 0.05 * (mcr_target - s.melanocortin_tone) * dt) 0.1 3.0
  { s with beta_endorphin := be, melanocortin_tone := mel }

/-- `_update_avp` (reads the already-updated SFO drive and cortisol). -/
def update_avp (dt : ℝ) (s : ExtState) : ExtState :=
  let chronic_boost := 1.0 + 0.3 * Real.tanh s.chronic_stress_index
  let stress_drive_avp := 0.4 * stress_level s
  let sfo_avp_link := 0.2 * s.sfo_drive
  let avp_production :=
    AVP_BASAL * chronic_boost
    + stress_drive_avp
    + sfo_avp_link
    - AVP_BASAL * 0.3 * (s.cortisol / OPT_CORTISOL)
  let v := clip (s.avp + (avp_production - k_avp * s.avp) * dt) 0.5 30.0
  { s with avp := v }

/-- `_update_glands` (reads the already-updated ACTH and cortisol). -/
def update_glands (dt : ℝ) (s : ExtState) : ExtState :=
  let adrenal1 := if s.acth > 40 then s.adrenal_mass + GLAND_GROWTH * dt
    else if s.acth < 15 then s.adrenal_mass - GLAND_ATROPHY * dt
    else s.adrenal_mass
  let pituitary1 := if s.cortisol > 25 then s.pituitary_mass - GLAND_ATROPHY * dt
    else if s.cortisol < 10 then s.pituitary_mass + GLAND_GROWTH * dt
    else s.pituitary_mass
  let cnm := cortisol_to_nmol s.cortisol
  let gr1 := if cnm > 100 then s.gr_receptors * (1 - 0.0001 * dt)
    else s.gr_receptors + 0.0001 * dt * (1.0 - s.gr_receptors)
  let mr1 := if cnm > 100 then s.mr_receptors * (1 - 0.00005 * dt)
    else s.mr_receptors + 0.00005 * dt * (1.0 - s.mr_receptors)
  let am := clip adrenal1 0.5 2.0
  let pm := clip pituitary1 0.5 2.0
  let grr := clip gr1 0.3 1.5
  let mrr := clip mr1 0.5 1.2
  { s with adrenal_mass := am, pituitary_mass := pm, gr_receptors := grr, mr_receptors := mrr }

/-- `_ucn_crfr_modulation`. -/
def ucn_crfr_modulation (s : ExtState) : ℝ × ℝ :=
  (0.05 * (s.ucn1 - 1.0), 0.04 * (s.ucn1 - 1.0) + 0.06 * (s.ucn23 - 1.0))

/-- `_update_crf_receptors` (reads the already-updated CRH and urocortins). -/
def update_crf_receptors (dt : ℝ) (s : ExtState) : ExtState :=
  let ucn_crfr1 := (ucn_crfr_modulation s).1
  let ucn_crfr2 := (ucn_crfr_modulation s).2
  let crfr1a := if s.crh > 150 then s.crfr1_density - 0.00015 * dt
    else s.crfr1_density + 0.0001 * dt * (1.0 - s.crfr1_density)
  let crfr2a := s.crfr2_density
    + 0.00005 * s.chronic_stress_index * dt * (1.2 - s.crfr2_density)
  let crfr2b := crfr2a + 0.00005 * dt * (1.0 - crfr2a)
  let r1 := clip (crfr1a + ucn_crfr1 * dt) 0.2 1.5
  let r2 := clip (crfr2b + ucn_crfr2 * dt) 0.5 1.8
  { s with crfr1_density := r1, crfr2_density := r2 }

/-- Time advance block of `step` (wrap at 24 h, increment day). -/
def update_time (dt : ℝ) (s : ExtState) : ExtState :=
  let th := s.time_hours + dt
  let t2 := if th ≥ 24.0 then th - 24.0 else th
  let d2 := if th ≥ 24.0 then s.day + 1 else s.day
  { s with time_hours := t2, day := d2 }

/-- Stress decay and stochastic stress-event injection block of `step`.
`u_event` models the `np.random.random()` event draw, `u_mag` the
magnitude draw, `u_type` the physical/emotional draw. -/
def update_stress (u_event u_mag u_type : ℝ) (s : ExtState) : ExtState :=
  let sp := max 0.0 (s.stress_physical * 0.97 - 0.03)
  let se := max 0.0 (s.stress_emotional * 0.97 - 0.03)
  let sp2 := if u_event < 0.02 ∧ u_type < 0.4 then min 10.0 (sp + magnitudeOf u_mag) else sp
  let se2 := if u_event < 0.02 ∧ ¬ (u_type < 0.4) then min 10.0 (se + magnitudeOf u_mag) else se
  { s with stress_physical := sp2, stress_emotional := se2 }

/-- Chronic stress index update block of `step` (reads the already-updated
stress pools). -/
def update_chronic (dt : ℝ) (s : ExtState) : ExtState :=
  let csi := clip (s.chronic_stress_index * (1 - 0.001 * dt)
    + 0.001 * stress_level s * dt) 0.0 5.0
  { s with chronic_stress_index := csi }

-- ------------------------------------------------------------------
-- Extended model: allostatic load (`_allostatic_load`), a read-only
-- function of the (post-update) state and the occupancy arguments the
-- caller passes in.
-- ------------------------------------------------------------------

def allostatic_load (s : ExtState) (mr_occ gr_occ : ℝ) : ℝ :=
  let load0 : ℝ := 0.05
  let dev := s.cortisol - OPT_CORTISOL
  let load1 := load0 +
    (if |dev| ≤ TOL_CORTISOL then 0.01 * (dev / TOL_CORTISOL) ^ 2
     else 0.5 * ((|dev| - TOL_CORTISOL) / TOL_CORTISOL) ^ 2)
  let load2 := load1 +
    (if s.cortisol > 25 then
       (s.cortisol - 25) * 0.3
         + (if s.cortisol > 35 then ((s.cortisol - 35) / 10) ^ 2 * 2.0 else 0)
     else if s.cortisol < 5 then
       (5 - s.cortisol) * 0.7
         + (if s.cortisol < 2 then ((2 - s.cortisol) / 2) ^ 2 * 5.0 else 0)
     else 0)
  let acth_dev := |s.acth - OPT_ACTH|
  let load3 := load2 +
    (if acth_dev > TOL_ACTH then 0.02 * ((acth_dev - TOL_ACTH) / TOL_ACTH) ^ 2 else 0)
  let crh_dev := |s.crh - OPT_CRH|
  let load4 := load3 +
    (if crh_dev > TOL_CRH then 0.01 * ((crh_dev - TOL_CRH) / TOL_CRH) ^ 2 else 0)
  let mr_cost := 0.5 * (mr_occ - 0.8) ^ 2
  let gr_optimal : ℝ := if stress_level s > 5 then 0.7 else 0.3
  let gr_cost := 0.3 * (gr_occ - gr_optimal) ^ 2
  let load5 := load4 + mr_cost + gr_cost
  let load6 := load5 + 0.5 * ((1.0 - s.gr_receptors) ^ 2 + (1.0 - s.mr_receptors) ^ 2)
  let adrenal_path0 := (s.adrenal_mass - 1.0) ^ 2
  let pituitary_path0 := (s.pituitary_mass - 1.0) ^ 2
  let adrenal_path :=
    if s.adrenal_mass < 0.5 ∨ s.adrenal_mass > 1.5 then adrenal_path0 * 3.0
    else adrenal_path0
  let pituitary_path :=
    if s.pituitary_mass < 0.5 ∨ s.pituitary_mass > 1.5 then pituitary_path0 * 3.0
    else pituitary_path0
  let load7 := load6 + (adrenal_path + pituitary_path) * 0.3
  let load8 := load7 +
    (if 10 ≤ s.cortisol_history.length then
       (if listVar (lastN 10 s.cortisol_history) > 25 then
          (listVar (lastN 10 s.cortisol_history) - 25) / 100 else 0)
     else 0)
  let sl := stress_level s
  let load9 := load8 +
    (if sl > 6 then
       (if |s.cortisol - (20 + sl * 2)| > 10 then
          0.5 * (|s.cortisol - (20 + sl * 2)| / 10) ^ 2 else 0)
     else if sl < 2 ∧ s.cortisol > 25 then 0.3 * ((s.cortisol - 25) / 10) ^ 2
     else 0)
  let load10 := load9 - 0.02 * min (s.beta_endorphin / 10.0) 1.0
  let load11 := load10 + 0.05 * (|s.crfr1_density - 1.0| + |s.crfr2_density - 1.0|)
  let load12 := load11 + 0.02 * s.chronic_stress_index
  let load13 := load12 + 0.03 * s.cea_sensitisation
  let load14 := load13 + 0.1 * s.hippocampal_damage ^ 2
  let load15 := load14 + 0.05 * (s.lc_activity - 0.3) ^ 2
  let load16 := load15 +
    (if s.pfc_inhibition < 0.2 then 0.1 * (0.2 - s.pfc_inhibition) ^ 2 else 0)
  max 0.0 load16

-- ------------------------------------------------------------------
-- Extended model: reset and step.
-- ------------------------------------------------------------------

/-- `reset` of the extended model.  The nine random draws (centred
normal perturbations for the five hormones, the two uniform stress
draws, the uniform time-of-day and the uniform ultradian phase) enter as
the stream values `r 0 .. r 8`. -/
def resetExt (r : ℕ → ℝ) : ExtState where
  crh := 100.0 + r 0
  acth := 25.0 + r 1
  cortisol := 12.0 + r 2
  avp := 4.0 + r 3
  beta_endorphin := 5.0 + r 4
  melanocortin_tone := 1.0
  ucn1 := 1.0
  ucn23 := 1.0
  mr_receptors := 1.0
  gr_receptors := 1.0
  crfr1_density := 1.0
  crfr2_density := 1.0
  pituitary_mass := 1.0
  adrenal_mass := 1.0
  nts_drive := 0.2
  gaba_inhibition := 0.3
  sfo_drive := 0.2
  cea_activity := 0.2
  mea_activity := 0.2
  cea_sensitisation := 0.0
  pfc_inhibition := 0.4
  lc_activity := 0.2
  hippocampal_damage := 0.0
  arcuate_metabolic_drive := 0.0
  stress_physical := r 5
  stress_emotional := r 6
  chronic_stress_index := 0.0
  time_hours := r 7
  day := 0
  ultradian_phase := r 8
  prev_cortisol := 12.0 + r 2
  fast_feedback_signal := 0.0
  current_step := 0
  cumulative_load := 0.0
  cortisol_history := List.replicate 50 (12.0 + r 2)

/-- Occupancies computed by `_receptor_occupancy` from the pre-update
cortisol at the top of `step`. -/
def ext_mr_occ (s : ExtState) : ℝ := mr_occupancy (cortisol_to_nmol s.cortisol)

def ext_gr_occ (s : ExtState) : ℝ := gr_occupancy (cortisol_to_nmol s.cortisol)

/-- `self._prev_cortisol = self.cortisol` at the top of `step`. -/
def stage0 (s : ExtState) : ExtState := { s with prev_cortisol := s.cortisol }

/-- The EMA value computed (and stored) by `_fast_nongenomic_feedback`. -/
def ext_fast_sig (dt : ℝ) (s : ExtState) : ℝ :=
  fast_feedback_value dt s.cortisol s.prev_cortisol s.fast_feedback_signal

/-- `_total_negative_feedback`: slow genomic + 0.3 fast + 0.4 hippocampal. -/
def ext_total_feedback (dt : ℝ) (s : ExtState) : ℝ :=
  slow_genomic_feedback s (ext_mr_occ s) (ext_gr_occ s)
    + 0.3 * ext_fast_sig dt s
    + 0.4 * hippocampal_feedback s (ext_mr_occ s) (ext_gr_occ s)

/-- The state mutation performed by `_fast_nongenomic_feedback` (the EMA
signal is stored back on `self`). -/
def stage1 (dt : ℝ) (s : ExtState) : ExtState :=
  { s with fast_feedback_signal := ext_fast_sig dt s }

/-- The update-rule chain of the extended `step` with the decoded action
modifiers and random draws passed as scalars. -/
def stepCore (P : ExtParams) (s : ExtState) (cm am om n0 ue um ut : ℝ) : ExtState :=
  update_chronic P.dt
    (update_stress ue um ut
      (update_time P.dt
        (update_crf_receptors P.dt
          (update_glands P.dt
            (update_avp P.dt
              (update_pomc_products P.dt
                (update_cortisol P.dt om n0
                  (update_acth P.dt am (ext_total_feedback P.dt (stage0 s))
                    (update_crh P.dt cm (ext_total_feedback P.dt (stage0 s))
                      (update_hippocampal_damage P.dt (ext_gr_occ s)
                        (update_urocortins P.dt
                          (update_upstream_signals P.dt
                            (update_arcuate P.dt
                              (update_sfo P.dt
                                (update_lc P.dt
                                  (update_pfc P.dt
                                    (update_amygdala P.dt (ext_mr_occ s) (ext_gr_occ s)
                                      (stage1 P.dt (stage0 s)))))))))))))))))))

/-- The physiological part of the extended `step`: all update rules in
source order, before the reward/done bookkeeping.  The per-step random
draws enter as `σ 0` (ultradian Gaussian noise), `σ 1` (stress-event
uniform), `σ 2` (magnitude draw) and `σ 3` (physical/emotional uniform),
in the order the source consumes its RNG. -/
def stepPost (P : ExtParams) (s : ExtState) (action : ℤ) (σ : ℕ → ℝ) : ExtState :=
  stepCore P s (crh_mod_of action) (acth_mod_of action) (cortisol_mod_of action)
    (σ 0) (σ 1) (σ 2) (σ 3)

/-- The allostatic load computed at the end of `step`: the load function
applied to the post-update state and the occupancies derived from the
pre-update cortisol. -/
def stepLoadVal (P : ExtParams) (s : ExtState) (action : ℤ) (σ : ℕ → ℝ) : ℝ :=
  allostatic_load (stepPost P s action σ) (ext_mr_occ s) (ext_gr_occ s)

/-- `step` of the extended model: post state with load/step bookkeeping,
the reward `5.0 - load`, and the done flag. -/
def stepExt (P : ExtParams) (s : ExtState) (action : ℤ) (σ : ℕ → ℝ) :
    ExtState × ℝ × Bool :=
  ({ stepPost P s action σ with
      cumulative_load := (stepPost P s action σ).cumulative_load + stepLoadVal P s action σ,
      current_step := (stepPost P s action σ).current_step + 1 },
   5.0 - stepLoadVal P s action σ,
   decide (P.max_steps ≤ (stepPost P s action σ).current_step + 1))

/-- `_get_state`: the normalised 27-dimensional observation vector. -/
def get_state_ext (s : ExtState) : List ℝ :=
  let mr_occ := mr_occupancy (cortisol_to_nmol s.cortisol)
  let gr_occ := gr_occupancy (cortisol_to_nmol s.cortisol)
  let cortisol_avg := s.cortisol_history.sum / s.cortisol_history.length
  let cortisol_trend := (s.cortisol - cortisol_avg) / 10.0
  let hip_feedback := hippocampal_feedback s mr_occ gr_occ
  let ucn_tone := (s.ucn1 + s.ucn23) / 2.0
  [s.stress_emotional / 5.0, s.stress_physical / 5.0, s.crh / 300.0,
   s.acth / 100.0, s.cortisol / 40.0, s.avp / 20.0, s.beta_endorphin / 30.0,
   s.melanocortin_tone / 3.0, s.crfr1_density / 1.5, s.crfr2_density / 1.8,
   ucn_tone / 5.0, s.time_hours / 24.0, cortisol_trend,
   circadian_amplitude s / 20.0, mr_occ, gr_occ, hip_feedback,
   s.hippocampal_damage, s.nts_drive, s.gaba_inhibition, s.sfo_drive,
   s.cea_activity, s.mea_activity, s.pfc_inhibition, s.lc_activity,
   s.pituitary_mass / 2.0, s.adrenal_mass / 2.0]

/-- Load incurred by one extended-model step, recovered from the
cumulative-load bookkeeping of `step`. -/
def stepLoadExt (P : ExtParams) (s : ExtState) (action : ℤ) (σ : ℕ → ℝ) : ℝ :=
  (stepExt P s action σ).1.cumulative_load - s.cumulative_load

/-- Episode trajectory of the extended model: `reset` followed by
repeated `step` with an arbitrary action sequence `acts` and per-step
random streams `rnds`. -/
def iterExt (P : ExtParams) (r : ℕ → ℝ) (acts : ℕ → ℤ) (rnds : ℕ → ℕ → ℝ) : ℕ → ExtState
  | 0 => resetExt r
  | k + 1 => (stepExt P (iterExt P r acts rnds k) (acts k) (rnds k)).1

-- ------------------------------------------------------------------
-- Simple model (`src/hpa.py`): developmental-stage parameters.
-- ------------------------------------------------------------------

/-- `_set_developmental_parameters`: episode horizon per stage. -/
def stage_max_steps (stage : String) : ℕ :=
  if stage = "infant" then 240
  else if stage = "child" then 720
  else if stage = "adolescent" then 1440
  else 2400

/-- `_set_developmental_parameters`: feedback maturity per stage. -/
def stage_feedback_maturity (stage : String) : ℝ :=
  if stage = "infant" then 0.4
  else if stage = "child" then 0.7
  else if stage = "adolescent" then 0.9
  else 1.0

/-- `_set_developmental_parameters`: receptor sensitivity per stage. -/
def stage_receptor_sensitivity (stage : String) : ℝ :=
  if stage = "infant" then 0.6
  else if stage = "child" then 0.8
  else if stage = "adolescent" then 0.95
  else 1.0

/-- `_set_developmental_parameters`: stress resilience per stage. -/
def stage_stress_resilience (stage : String) : ℝ :=
  if stage = "infant" then 0.5
  else if stage = "child" then 0.7
  else if stage = "adolescent" then 0.85
  else 1.0

-- ------------------------------------------------------------------
-- Simple model: state and parameters.
-- ------------------------------------------------------------------

@[ext]
structure SState where
  cortisol : ℝ
  acth : ℝ
  crh : ℝ
  pituitary_mass : ℝ
  adrenal_mass : ℝ
  mr_receptors : ℝ
  gr_receptors : ℝ
  stress_level : ℝ
  time_hours : ℝ
  day : ℕ
  ultradian_phase : ℝ
  current_step : ℕ
  cumulative_load : ℝ
  cortisol_history : List ℝ

/-- Constructor parameters of the simple environment. -/
structure SParams where
  dt : ℝ
  stage : String

/-- `_calculate_total_feedback` of the simple model. -/
def total_feedback_simple (P : SParams) (s : SState) : ℝ :=
  let cnm := cortisol_to_nmol s.cortisol
  (0.3 * stage_feedback_maturity P.stage * mr_occupancy cnm * s.mr_receptors
    + 0.7 * stage_feedback_maturity P.stage * gr_occupancy cnm * s.gr_receptors)
    * stage_receptor_sensitivity P.stage

-- ------------------------------------------------------------------
-- Simple model: allostatic load components
-- (`_calculate_allostatic_load`).
-- ------------------------------------------------------------------

def deviation_cost (cortisol : ℝ) : ℝ :=
  if |cortisol - 15.0| ≤ 7.0 then 0.01 * ((cortisol - 15.0) / 7.0) ^ 2
  else 0.5 * ((|cortisol - 15.0| - 7.0) / 7.0) ^ 2

def tissue_damage (cortisol : ℝ) : ℝ :=
  if cortisol > 25 then
    (cortisol - 25) * 0.3 + (if cortisol > 35 then ((cortisol - 35) / 10) ^ 2 * 2.0 else 0)
  else if cortisol < 5 then
    (5 - cortisol) * 0.7 + (if cortisol < 2 then ((2 - cortisol) / 2) ^ 2 * 5.0 else 0)
  else 0

def acth_cost (acth : ℝ) : ℝ :=
  if |acth - 25.0| > 15.0 then 0.02 * ((|acth - 25.0| - 15.0) / 15.0) ^ 2 else 0

def crh_cost (crh : ℝ) : ℝ :=
  if |crh - 100.0| > 50.0 then 0.01 * ((|crh - 100.0| - 50.0) / 50.0) ^ 2 else 0

def mr_cost (mr_occ : ℝ) : ℝ := 0.5 * |mr_occ - 0.8| ^ 2

def gr_cost (sl gr_occ : ℝ) : ℝ :=
  0.3 * |gr_occ - (if sl > 5 then (0.7 : ℝ) else 0.3)| ^ 2

def receptor_cost (mr_receptors gr_receptors : ℝ) : ℝ :=
  ((1.0 - gr_receptors) ^ 2 + (1.0 - mr_receptors) ^ 2) * 0.5

def gland_cost (adrenal pituitary : ℝ) : ℝ :=
  ((if adrenal < 0.5 ∨ adrenal > 1.5 then (adrenal - 1.0) ^ 2 * 3.0 else (adrenal - 1.0) ^ 2)
    + (if pituitary < 0.5 ∨ pituitary > 1.5 then (pituitary - 1.0) ^ 2 * 3.0
       else (pituitary - 1.0) ^ 2)) * 0.3

def instability_cost (hist : List ℝ) : ℝ :=
  if 10 ≤ hist.length then
    (if listVar (lastN 10 hist) > 25 then (listVar (lastN 10 hist) - 25) / 100 else 0)
  else 0

def stress_response_cost (sl cortisol : ℝ) : ℝ :=
  if sl > 6 then
    (if |cortisol - (20 + sl * 2)| > 10 then 0.5 * (|cortisol - (20 + sl * 2)| / 10) ^ 2
     else 0)
  else if sl < 2 then
    (if cortisol > 25 then 0.3 * ((cortisol - 25) / 10) ^ 2 else 0)
  else 0

/-- `_calculate_allostatic_load`: sum of the named components, scaled by
the vulnerability factor `2 - stress_resilience`.  (The simple model
applies no flooring; every component is non-negative.) -/
def allostatic_load_simple (P : SParams) (s : SState) (mr_occ gr_occ : ℝ) : ℝ :=
  (0.05
    + deviation_cost s.cortisol
    + tissue_damage s.cortisol
    + acth_cost s.acth
    + crh_cost s.crh
    + mr_cost mr_occ
    + gr_cost s.stress_level gr_occ
    + receptor_cost s.mr_receptors s.gr_receptors
    + gland_cost s.adrenal_mass s.pituitary_mass
    + instability_cost s.cortisol_history
    + stress_response_cost s.stress_level s.cortisol)
    * (2.0 - stage_stress_resilience P.stage)

-- ------------------------------------------------------------------
-- Simple model: reset and step.
-- ------------------------------------------------------------------

/-- `reset` of the simple model; the six random draws enter as
`r 0 .. r 5`. -/
def resetS (r : ℕ → ℝ) : SState where
  cortisol := 12.0 + r 0
  acth := 25.0 + r 1
  crh := 100.0 + r 2
  pituitary_mass := 1.0
  adrenal_mass := 1.0
  mr_receptors := 1.0
  gr_receptors := 1.0
  stress_level := r 3
  time_hours := r 4
  day := 0
  ultradian_phase := r 5
  current_step := 0
  cumulative_load := 0.0
  cortisol_history := List.replicate 50 (12.0 + r 0)

/-- CRH dynamics block of the simple `step`. -/
def s_update_crh (dt crh_mod fb : ℝ) (s : SState) : SState :=
  let crh_production := 50.0 + 10.0 * s.stress_level - 50.0 * fb + crh_mod * 20
  let c := clip (s.crh + (crh_production - k_crh * s.crh) * dt) 0 400
  { s with crh := c }

/-- ACTH dynamics block of the simple `step` (reads the updated CRH). -/
def s_update_acth (dt acth_mod fb : ℝ) (s : SState) : SState :=
  let crh_stimulation := 0.2 * (s.crh - 100)
  let acth_production := 15.0 * s.pituitary_mass + crh_stimulation
    - 15.0 * fb * 0.5 + acth_mod * 10
  let a := clip (s.acth + (acth_production - k_acth * s.acth) * dt) 0 200
  { s with acth := a }

/-- Cortisol dynamics block of the simple `step` (advances the ultradian
phase as `_get_ultradian_pulse` does, reads the updated ACTH, and
appends to the history deque). -/
def s_update_cortisol (dt cortisol_mod noise : ℝ) (s : SState) : SState :=
  let circadian_drive := 9.0 + 9.0 * Real.cos (2 * Real.pi * (s.time_hours - 8) / 24)
  let phase := s.ultradian_phase + 2 * Real.pi * dt / ultradian_period
  let ultradian_pulse := 3.0 * Real.sin phase + noise
  let acth_stimulation := 0.15 * (s.acth - 25)
  let cortisol_production := (circadian_drive / 12.0) * 8.0
    + acth_stimulation * s.adrenal_mass + 2.0 * s.stress_level
    + ultradian_pulse * 0.3 + cortisol_mod * 2
  let c := clip (s.cortisol + (cortisol_production - k_cort * s.cortisol) * dt) 0 60
  { s with cortisol := c, ultradian_phase := phase,
           cortisol_history := dequeAppend s.cortisol_history c }

/-- `_update_gland_masses` of the simple model (reads the updated ACTH
and cortisol). -/
def s_update_glands (dt : ℝ) (s : SState) : SState :=
  let adrenal1 := if s.acth > 40 then s.adrenal_mass + 0.001 * dt
    else if s.acth < 15 then s.adrenal_mass - 0.0008 * dt else s.adrenal_mass
  let pituitary1 := if s.cortisol > 25 then s.pituitary_mass - 0.0008 * dt
    else if s.cortisol < 10 then s.pituitary_mass + 0.001 * dt else s.pituitary_mass
  let cnm := cortisol_to_nmol s.cortisol
  let gr1 := if cnm > 100 then s.gr_receptors * (1 - 0.0001 * dt)
    else s.gr_receptors + 0.0001 * dt * (1.0 - s.gr_receptors)
  let mr1 := if cnm > 100 then s.mr_receptors * (1 - 0.00005 * dt)
    else s.mr_receptors + 0.00005 * dt * (1.0 - s.mr_receptors)
  let am := clip adrenal1 0.5 2.0
  let pm := clip pituitary1 0.5 2.0
  let grr := clip gr1 0.3 1.5
  let mrr := clip mr1 0.5 1.2
  { s with adrenal_mass := am, pituitary_mass := pm,
           gr_receptors := grr, mr_receptors := mrr }

/-- Time advance block of the simple `step`. -/
def s_update_time (dt : ℝ) (s : SState) : SState :=
  let th := s.time_hours + dt
  let t2 := if th ≥ 24 then th - 24 else th
  let d2 := if th ≥ 24 then s.day + 1 else s.day
  { s with time_hours := t2, day := d2 }

/-- Stress decay and stochastic stress-event injection block of the
simple `step`. -/
def s_update_stress (u_event u_mag : ℝ) (s : SState) : SState :=
  let stress1 := max 0 (s.stress_level * 0.98 - 0.05)
  let s2 := if u_event < 0.02 then min 10 (stress1 + magnitudeOf u_mag) else stress1
  { s with stress_level := s2 }

/-- The update-rule chain of the simple `step` with the decoded action
modifiers and random draws passed as scalars. -/
def sCore (P : SParams) (s : SState) (cm am om n0 ue um : ℝ) : SState :=
  s_update_stress ue um
    (s_update_time P.dt
      (s_update_glands P.dt
        (s_update_cortisol P.dt om n0
          (s_update_acth P.dt am (total_feedback_simple P s)
            (s_update_crh P.dt cm (total_feedback_simple P s) s)))))

/-- The physiological part of the simple `step`, in source order.
Per-step draws: `σ 0` ultradian noise, `σ 1` stress-event uniform,
`σ 2` magnitude draw. -/
def sPost (P : SParams) (s : SState) (action : ℤ) (σ : ℕ → ℝ) : SState :=
  sCore P s (crh_mod_of action) (acth_mod_of action) (cortisol_mod_of action)
    (σ 0) (σ 1) (σ 2)

/-- The allostatic load computed by the simple `step`: load function on
the post-update state with the occupancies derived from the pre-update
cortisol. -/
def sLoadVal (P : SParams) (s : SState) (action : ℤ) (σ : ℕ → ℝ) : ℝ :=
  allostatic_load_simple P (sPost P s action σ)
    (mr_occupancy (cortisol_to_nmol s.cortisol))
    (gr_occupancy (cortisol_to_nmol s.cortisol))

/-- `step` of the simple model. -/
def stepS (P : SParams) (s : SState) (action : ℤ) (σ : ℕ → ℝ) :
    SState × ℝ × Bool :=
  ({ sPost P s action σ with
      current_step := s.current_step + 1,
      cumulative_load := s.cumulative_load + sLoadVal P s action σ },
   -(sLoadVal P s action σ) + 5.0,
   decide (stage_max_steps P.stage ≤ s.current_step + 1))

-- ------------------------------------------------------------------
-- Frame lemmas: each update rule leaves every other field unchanged.
-- ------------------------------------------------------------------

theorem stage0_frame (s : ExtState) :
    (stage0 s).crh = s.crh ∧
    (stage0 s).acth = s.acth ∧
    (stage0 s).cortisol = s.cortisol ∧
    (stage0 s).avp = s.avp ∧
    (stage0 s).beta_endorphin = s.beta_endorphin ∧
    (stage0 s).melanocortin_tone = s.melanocortin_tone ∧
    (stage0 s).ucn1 = s.ucn1 ∧
    (stage0 s).ucn23 = s.ucn23 ∧
    (stage0 s).mr_receptors = s.mr_receptors ∧
    (stage0 s).gr_receptors = s.gr_receptors ∧
    (stage0 s).crfr1_density = s.crfr1_density ∧
    (stage0 s).crfr2_density = s.crfr2_density ∧
    (stage0 s).pituitary_mass = s.pituitary_mass ∧
    (stage0 s).adrenal_mass = s.adrenal_mass ∧
    (stage0 s).nts_drive = s.nts_drive ∧
    (stage0 s).gaba_inhibition = s.gaba_inhibition ∧
    (stage0 s).sfo_drive = s.sfo_drive ∧
    (stage0 s).cea_activity = s.cea_activity ∧
    (stage0 s).mea_activity = s.mea_activity ∧
    (stage0 s).cea_sensitisation = s.cea_sensitisation ∧
    (stage0 s).pfc_inhibition = s.pfc_inhibition ∧
    (stage0 s).lc_activity = s.lc_activity ∧
    (stage0 s).hippocampal_damage = s.hippocampal_damage ∧
    (stage0 s).arcuate_metabolic_drive = s.arcuate_metabolic_drive ∧
    (stage0 s).stress_physical = s.stress_physical ∧
    (stage0 s).stress_emotional = s.stress_emotional ∧
    (stage0 s).chronic_stress_index = s.chronic_stress_index ∧
    (stage0 s).time_hours = s.time_hours ∧
    (stage0 s).day = s.day ∧
    (stage0 s).ultradian_phase = s.ultradian_phase ∧
    (stage0 s).fast_feedback_signal = s.fast_feedback_signal ∧
    (stage0 s).current_step = s.current_step ∧
    (stage0 s).cumulative_load = s.cumulative_load ∧
    (stage0 s).cortisol_history = s.cortisol_history :=
  ⟨rfl, rfl, rfl, rfl, rfl, rfl, rfl, rfl, rfl, rfl, rfl, rfl, rfl, rfl, rfl, rfl, rfl, rfl, rfl, rfl, rfl, rfl, rfl, rfl, rfl, rfl, rfl, rfl, rfl, rfl, rfl, rfl, rfl, rfl⟩

theorem stage1_frame (dt : ℝ) (s : ExtState) :
    (stage1 dt s).crh = s.crh ∧
    (stage1 dt s).acth = s.acth ∧
    (stage1 dt s).cortisol = s.cortisol ∧
    (stage1 dt s).avp = s.avp ∧
    (stage1 dt s).beta_endorphin = s.beta_endorphin ∧
    (stage1 dt s).melanocortin_tone = s.melanocortin_tone ∧
    (stage1 dt s).ucn1 = s.ucn1 ∧
    (stage1 dt s).ucn23 = s.ucn23 ∧
    (stage1 dt s).mr_receptors = s.mr_receptors ∧
    (stage1 dt s).gr_receptors = s.gr_receptors ∧
    (stage1 dt s).crfr1_density = s.crfr1_density ∧
    (stage1 dt s).crfr2_density = s.crfr2_density ∧
    (stage1 dt s).pituitary_mass = s.pituitary_mass ∧
    (stage1 dt s).adrenal_mass = s.adrenal_mass ∧
    (stage1 dt s).nts_drive = s.nts_drive ∧
    (stage1 dt s).gaba_inhibition = s.gaba_inhibition ∧
    (stage1 dt s).sfo_drive = s.sfo_drive ∧
    (stage1 dt s).cea_activity = s.cea_activity ∧
    (stage1 dt s).mea_activity = s.mea_activity ∧
    (stage1 dt s).cea_sensitisation = s.cea_sensitisation ∧
    (stage1 dt s).pfc_inhibition = s.pfc_inhibition ∧
    (stage1 dt s).lc_activity = s.lc_activity ∧
    (stage1 dt s).hippocampal_damage = s.hippocampal_damage ∧
    (stage1 dt s).arcuate_metabolic_drive = s.arcuate_metabolic_drive ∧
    (stage1 dt s).stress_physical = s.stress_physical ∧
    (stage1 dt s).stress_emotional = s.stress_emotional ∧
    (stage1 dt s).chronic_stress_index = s.chronic_stress_index ∧
    (stage1 dt s).time_hours = s.time_hours ∧
    (stage1 dt s).day = s.day ∧
    (stage1 dt s).ultradian_phase = s.ultradian_phase ∧
    (stage1 dt s).prev_cortisol = s.prev_cortisol ∧
    (stage1 dt s).current_step = s.current_step ∧
    (stage1 dt s).cumulative_load = s.cumulative_load ∧
    (stage1 dt s).cortisol_history = s.cortisol_history :=
  ⟨rfl, rfl, rfl, rfl, rfl, rfl, rfl, rfl, rfl, rfl, rfl, rfl, rfl, rfl, rfl, rfl, rfl, rfl, rfl, rfl, rfl, rfl, rfl, rfl, rfl, rfl, rfl, rfl, rfl, rfl, rfl, rfl, rfl, rfl⟩

theorem update_amygdala_frame (dt mo go : ℝ) (s : ExtState) :
    (update_amygdala dt mo go s).crh = s.crh ∧
    (update_amygdala dt mo go s).acth = s.acth ∧
    (update_amygdala dt mo go s).cortisol = s.cortisol ∧
    (update_amygdala dt mo go s).avp = s.avp ∧
    (update_amygdala dt mo go s).beta_endorphin = s.beta_endorphin ∧
    (update_amygdala dt mo go s).melanocortin_tone = s.melanocortin_tone ∧
    (update_amygdala dt mo go s).ucn1 = s.ucn1 ∧
    (update_amygdala dt mo go s).ucn23 = s.ucn23 ∧
    (update_amygdala dt mo go s).mr_receptors = s.mr_receptors ∧
    (update_amygdala dt mo go s).gr_receptors = s.gr_receptors ∧
    (update_amygdala dt mo go s).crfr1_density = s.crfr1_density ∧
    (update_amygdala dt mo go s).crfr2_density = s.crfr2_density ∧
    (update_amygdala dt mo go s).pituitary_mass = s.pituitary_mass ∧
    (update_amygdala dt mo go s).adrenal_mass = s.adrenal_mass ∧
    (update_amygdala dt mo go s).nts_drive = s.nts_drive ∧
    (update_amygdala dt mo go s).gaba_inhibition = s.gaba_inhibition ∧
    (update_amygdala dt mo go s).sfo_drive = s.sfo_drive ∧
    (update_amygdala dt mo go s).pfc_inhibition = s.pfc_inhibition ∧
    (update_amygdala dt mo go s).lc_activity = s.lc_activity ∧
    (update_amygdala dt mo go s).hippocampal_damage = s.hippocampal_damage ∧
    (update_amygdala dt mo go s).arcuate_metabolic_drive = s.arcuate_metabolic_drive ∧
    (update_amygdala dt mo go s).stress_physical = s.stress_physical ∧
    (update_amygdala dt mo go s).stress_emotional = s.stress_emotional ∧
    (update_amygdala dt mo go s).chronic_stress_index = s.chronic_stress_index ∧
    (update_amygdala dt mo go s).time_hours = s.time_hours ∧
    (update_amygdala dt mo go s).day = s.day ∧
    (update_amygdala dt mo go s).ultradian_phase = s.ultradian_phase ∧
    (update_amygdala dt mo go s).prev_cortisol = s.prev_cortisol ∧
    (update_amygdala dt mo go s).fast_feedback_signal = s.fast_feedback_signal ∧
    (update_amygdala dt mo go s).current_step = s.current_step ∧
    (update_amygdala dt mo go s).cumulative_load = s.cumulative_load ∧
    (update_amygdala dt mo go s).cortisol_history = s.cortisol_history :=
  ⟨rfl, rfl, rfl, rfl, rfl, rfl, rfl, rfl, rfl, rfl, rfl, rfl, rfl, rfl, rfl, rfl, rfl, rfl, rfl, rfl, rfl, rfl, rfl, rfl, rfl, rfl, rfl, rfl, rfl, rfl, rfl, rfl⟩

theorem update_pfc_frame (dt : ℝ) (s : ExtState) :
    (update_pfc dt s).crh = s.crh ∧
    (update_pfc dt s).acth = s.acth ∧
    (update_pfc dt s).cortisol = s.cortisol ∧
    (update_pfc dt s).avp = s.avp ∧
    (update_pfc dt s).beta_endorphin = s.beta_endorphin ∧
    (update_pfc dt s).melanocortin_tone = s.melanocortin_tone ∧
    (update_pfc dt s).ucn1 = s.ucn1 ∧
    (update_pfc dt s).ucn23 = s.ucn23 ∧
    (update_pfc dt s).mr_receptors = s.mr_receptors ∧
    (update_pfc dt s).gr_receptors = s.gr_receptors ∧
    (update_pfc dt s).crfr1_density = s.crfr1_density ∧
    (update_pfc dt s).crfr2_density = s.crfr2_density ∧
    (update_pfc dt s).pituitary_mass = s.pituitary_mass ∧
    (update_pfc dt s).adrenal_mass = s.adrenal_mass ∧
    (update_pfc dt s).nts_drive = s.nts_drive ∧
    (update_pfc dt s).gaba_inhibition = s.gaba_inhibition ∧
    (update_pfc dt s).sfo_drive = s.sfo_drive ∧
    (update_pfc dt s).cea_activity = s.cea_activity ∧
    (update_pfc dt s).mea_activity = s.mea_activity ∧
    (update_pfc dt s).cea_sensitisation = s.cea_sensitisation ∧
    (update_pfc dt s).lc_activity = s.lc_activity ∧
    (update_pfc dt s).hippocampal_damage = s.hippocampal_damage ∧
    (update_pfc dt s).arcuate_metabolic_drive = s.arcuate_metabolic_drive ∧
    (update_pfc dt s).stress_physical = s.stress_physical ∧
    (update_pfc dt s).stress_emotional = s.stress_emotional ∧
    (update_pfc dt s).chronic_stress_index = s.chronic_stress_index ∧
    (update_pfc dt s).time_hours = s.time_hours ∧
    (update_pfc dt s).day = s.day ∧
    (update_pfc dt s).ultradian_phase = s.ultradian_phase ∧
    (update_pfc dt s).prev_cortisol = s.prev_cortisol ∧
    (update_pfc dt s).fast_feedback_signal = s.fast_feedback_signal ∧
    (update_pfc dt s).current_step = s.current_step ∧
    (update_pfc dt s).cumulative_load = s.cumulative_load ∧
    (update_pfc dt s).cortisol_history = s.cortisol_history :=
  ⟨rfl, rfl, rfl, rfl, rfl, rfl, rfl, rfl, rfl, rfl, rfl, rfl, rfl, rfl, rfl, rfl, rfl, rfl, rfl, rfl, rfl, rfl, rfl, rfl, rfl, rfl, rfl, rfl, rfl, rfl, rfl, rfl, rfl, rfl⟩

theorem update_lc_frame (dt : ℝ) (s : ExtState) :
    (update_lc dt s).crh = s.crh ∧
    (update_lc dt s).acth = s.acth ∧
    (update_lc dt s).cortisol = s.cortisol ∧
    (update_lc dt s).avp = s.avp ∧
    (update_lc dt s).beta_endorphin = s.beta_endorphin ∧
    (update_lc dt s).melanocortin_tone = s.melanocortin_tone ∧
    (update_lc dt s).ucn1 = s.ucn1 ∧
    (update_lc dt s).ucn23 = s.ucn23 ∧
    (update_lc dt s).mr_receptors = s.mr_receptors ∧
    (update_lc dt s).gr_receptors = s.gr_receptors ∧
    (update_lc dt s).crfr1_density = s.crfr1_density ∧
    (update_lc dt s).crfr2_density = s.crfr2_density ∧
    (update_lc dt s).pituitary_mass = s.pituitary_mass ∧
    (update_lc dt s).adrenal_mass = s.adrenal_mass ∧
    (update_lc dt s).nts_drive = s.nts_drive ∧
    (update_lc dt s).gaba_inhibition = s.gaba_inhibition ∧
    (update_lc dt s).sfo_drive = s.sfo_drive ∧
    (update_lc dt s).cea_activity = s.cea_activity ∧
    (update_lc dt s).mea_activity = s.mea_activity ∧
    (update_lc dt s).cea_sensitisation = s.cea_sensitisation ∧
    (update_lc dt s).pfc_inhibition = s.pfc_inhibition ∧
    (update_lc dt s).hippocampal_damage = s.hippocampal_damage ∧
    (update_lc dt s).arcuate_metabolic_drive = s.arcuate_metabolic_drive ∧
    (update_lc dt s).stress_physical = s.stress_physical ∧
    (update_lc dt s).stress_emotional = s.stress_emotional ∧
    (update_lc dt s).chronic_stress_index = s.chronic_stress_index ∧
    (update_lc dt s).time_hours = s.time_hours ∧
    (update_lc dt s).day = s.day ∧
    (update_lc dt s).ultradian_phase = s.ultradian_phase ∧
    (update_lc dt s).prev_cortisol = s.prev_cortisol ∧
    (update_lc dt s).fast_feedback_signal = s.fast_feedback_signal ∧
    (update_lc dt s).current_step = s.current_step ∧
    (update_lc dt s).cumulative_load = s.cumulative_load ∧
    (update_lc dt s).cortisol_history = s.cortisol_history :=
  ⟨rfl, rfl, rfl, rfl, rfl, rfl, rfl, rfl, rfl, rfl, rfl, rfl, rfl, rfl, rfl, rfl, rfl, rfl, rfl, rfl, rfl, rfl, rfl, rfl, rfl, rfl, rfl, rfl, rfl, rfl, rfl, rfl, rfl, rfl⟩

theorem update_sfo_frame (dt : ℝ) (s : ExtState) :
    (update_sfo dt s).crh = s.crh ∧
    (update_sfo dt s).acth = s.acth ∧
    (update_sfo dt s).cortisol = s.cortisol ∧
    (update_sfo dt s).avp = s.avp ∧
    (update_sfo dt s).beta_endorphin = s.beta_endorphin ∧
    (update_sfo dt s).melanocortin_tone = s.melanocortin_tone ∧
    (update_sfo dt s).ucn1 = s.ucn1 ∧
    (update_sfo dt s).ucn23 = s.ucn23 ∧
    (update_sfo dt s).mr_receptors = s.mr_receptors ∧
    (update_sfo dt s).gr_receptors = s.gr_receptors ∧
    (update_sfo dt s).crfr1_density = s.crfr1_density ∧
    (update_sfo dt s).crfr2_density = s.crfr2_density ∧
    (update_sfo dt s).pituitary_mass = s.pituitary_mass ∧
    (update_sfo dt s).adrenal_mass = s.adrenal_mass ∧
    (update_sfo dt s).nts_drive = s.nts_drive ∧
    (update_sfo dt s).gaba_inhibition = s.gaba_inhibition ∧
    (update_sfo dt s).cea_activity = s.cea_activity ∧
    (update_sfo dt s).mea_activity = s.mea_activity ∧
    (update_sfo dt s).cea_sensitisation = s.cea_sensitisation ∧
    (update_sfo dt s).pfc_inhibition = s.pfc_inhibition ∧
    (update_sfo dt s).lc_activity = s.lc_activity ∧
    (update_sfo dt s).hippocampal_damage = s.hippocampal_damage ∧
    (update_sfo dt s).arcuate_metabolic_drive = s.arcuate_metabolic_drive ∧
    (update_sfo dt s).stress_physical = s.stress_physical ∧
    (update_sfo dt s).stress_emotional = s.stress_emotional ∧
    (update_sfo dt s).chronic_stress_index = s.chronic_stress_index ∧
    (update_sfo dt s).time_hours = s.time_hours ∧
    (update_sfo dt s).day = s.day ∧
    (update_sfo dt s).ultradian_phase = s.ultradian_phase ∧
    (update_sfo dt s).prev_cortisol = s.prev_cortisol ∧
    (update_sfo dt s).fast_feedback_signal = s.fast_feedback_signal ∧
    (update_sfo dt s).current_step = s.current_step ∧
    (update_sfo dt s).cumulative_load = s.cumulative_load ∧
    (update_sfo dt s).cortisol_history = s.cortisol_history :=
  ⟨rfl, rfl, rfl, rfl, rfl, rfl, rfl, rfl, rfl, rfl, rfl, rfl, rfl, rfl, rfl, rfl, rfl, rfl, rfl, rfl, rfl, rfl, rfl, rfl, rfl, rfl, rfl, rfl, rfl, rfl, rfl, rfl, rfl, rfl⟩

theorem update_arcuate_frame (dt : ℝ) (s : ExtState) :
    (update_arcuate dt s).crh = s.crh ∧
    (update_arcuate dt s).acth = s.acth ∧
    (update_arcuate dt s).cortisol = s.cortisol ∧
    (update_arcuate dt s).avp = s.avp ∧
    (update_arcuate dt s).beta_endorphin = s.beta_endorphin ∧
    (update_arcuate dt s).melanocortin_tone = s.melanocortin_tone ∧
    (update_arcuate dt s).ucn1 = s.ucn1 ∧
    (update_arcuate dt s).ucn23 = s.ucn23 ∧
    (update_arcuate dt s).mr_receptors = s.mr_receptors ∧
    (update_arcuate dt s).gr_receptors = s.gr_receptors ∧
    (update_arcuate dt s).crfr1_density = s.crfr1_density ∧
    (update_arcuate dt s).crfr2_density = s.crfr2_density ∧
    (update_arcuate dt s).pituitary_mass = s.pituitary_mass ∧
    (update_arcuate dt s).adrenal_mass = s.adrenal_mass ∧
    (update_arcuate dt s).nts_drive = s.nts_drive ∧
    (update_arcuate dt s).gaba_inhibition = s.gaba_inhibition ∧
    (update_arcuate dt s).sfo_drive = s.sfo_drive ∧
    (update_arcuate dt s).cea_activity = s.cea_activity ∧
    (update_arcuate dt s).mea_activity = s.mea_activity ∧
    (update_arcuate dt s).cea_sensitisation = s.cea_sensitisation ∧
    (update_arcuate dt s).pfc_inhibition = s.pfc_inhibition ∧
    (update_arcuate dt s).lc_activity = s.lc_activity ∧
    (update_arcuate dt s).hippocampal_damage = s.hippocampal_damage ∧
    (update_arcuate dt s).stress_physical = s.stress_physical ∧
    (update_arcuate dt s).stress_emotional = s.stress_emotional ∧
    (update_arcuate dt s).chronic_stress_index = s.chronic_stress_index ∧
    (update_arcuate dt s).time_hours = s.time_hours ∧
    (update_arcuate dt s).day = s.day ∧
    (update_arcuate dt s).ultradian_phase = s.ultradian_phase ∧
    (update_arcuate dt s).prev_cortisol = s.prev_cortisol ∧
    (update_arcuate dt s).fast_feedback_signal = s.fast_feedback_signal ∧
    (update_arcuate dt s).current_step = s.current_step ∧
    (update_arcuate dt s).cumulative_load = s.cumulative_load ∧
    (update_arcuate dt s).cortisol_history = s.cortisol_history :=
  ⟨rfl, rfl, rfl, rfl, rfl, rfl, rfl, rfl, rfl, rfl, rfl, rfl, rfl, rfl, rfl, rfl, rfl, rfl, rfl, rfl, rfl, rfl, rfl, rfl, rfl, rfl, rfl, rfl, rfl, rfl, rfl, rfl, rfl, rfl⟩

theorem update_upstream_signals_frame (dt : ℝ) (s : ExtState) :
    (update_upstream_signals dt s).crh = s.crh ∧
    (update_upstream_signals dt s).acth = s.acth ∧
    (update_upstream_signals dt s).cortisol = s.cortisol ∧
    (update_upstream_signals dt s).avp = s.avp ∧
    (update_upstream_signals dt s).beta_endorphin = s.beta_endorphin ∧
    (update_upstream_signals dt s).melanocortin_tone = s.melanocortin_tone ∧
    (update_upstream_signals dt s).ucn1 = s.ucn1 ∧
    (update_upstream_signals dt s).ucn23 = s.ucn23 ∧
    (update_upstream_signals dt s).mr_receptors = s.mr_receptors ∧
    (update_upstream_signals dt s).gr_receptors = s.gr_receptors ∧
    (update_upstream_signals dt s).crfr1_density = s.crfr1_density ∧
    (update_upstream_signals dt s).crfr2_density = s.crfr2_density ∧
    (update_upstream_signals dt s).pituitary_mass = s.pituitary_mass ∧
    (update_upstream_signals dt s).adrenal_mass = s.adrenal_mass ∧
    (update_upstream_signals dt s).sfo_drive = s.sfo_drive ∧
    (update_upstream_signals dt s).cea_activity = s.cea_activity ∧
    (update_upstream_signals dt s).mea_activity = s.mea_activity ∧
    (update_upstream_signals dt s).cea_sensitisation = s.cea_sensitisation ∧
    (update_upstream_signals dt s).pfc_inhibition = s.pfc_inhibition ∧
    (update_upstream_signals dt s).lc_activity = s.lc_activity ∧
    (update_upstream_signals dt s).hippocampal_damage = s.hippocampal_damage ∧
    (update_upstream_signals dt s).arcuate_metabolic_drive = s.arcuate_metabolic_drive ∧
    (update_upstream_signals dt s).stress_physical = s.stress_physical ∧
    (update_upstream_signals dt s).stress_emotional = s.stress_emotional ∧
    (update_upstream_signals dt s).chronic_stress_index = s.chronic_stress_index ∧
    (update_upstream_signals dt s).time_hours = s.time_hours ∧
    (update_upstream_signals dt s).day = s.day ∧
    (update_upstream_signals dt s).ultradian_phase = s.ultradian_phase ∧
    (update_upstream_signals dt s).prev_cortisol = s.prev_cortisol ∧
    (update_upstream_signals dt s).fast_feedback_signal = s.fast_feedback_signal ∧
    (update_upstream_signals dt s).current_step = s.current_step ∧
    (update_upstream_signals dt s).cumulative_load = s.cumulative_load ∧
    (update_upstream_signals dt s).cortisol_history = s.cortisol_history :=
  ⟨rfl, rfl, rfl, rfl, rfl, rfl, rfl, rfl, rfl, rfl, rfl, rfl, rfl, rfl, rfl, rfl, rfl, rfl, rfl, rfl, rfl, rfl, rfl, rfl, rfl, rfl, rfl, rfl, rfl, rfl, rfl, rfl, rfl⟩

theorem update_urocortins_frame (dt : ℝ) (s : ExtState) :
    (update_urocortins dt s).crh = s.crh ∧
    (update_urocortins dt s).acth = s.acth ∧
    (update_urocortins dt s).cortisol = s.cortisol ∧
    (update_urocortins dt s).avp = s.avp ∧
    (update_urocortins dt s).beta_endorphin = s.beta_endorphin ∧
    (update_urocortins dt s).melanocortin_tone = s.melanocortin_tone ∧
    (update_urocortins dt s).mr_receptors = s.mr_receptors ∧
    (update_urocortins dt s).gr_receptors = s.gr_receptors ∧
    (update_urocortins dt s).crfr1_density = s.crfr1_density ∧
    (update_urocortins dt s).crfr2_density = s.crfr2_density ∧
    (update_urocortins dt s).pituitary_mass = s.pituitary_mass ∧
    (update_urocortins dt s).adrenal_mass = s.adrenal_mass ∧
    (update_urocortins dt s).nts_drive = s.nts_drive ∧
    (update_urocortins dt s).gaba_inhibition = s.gaba_inhibition ∧
    (update_urocortins dt s).sfo_drive = s.sfo_drive ∧
    (update_urocortins dt s).cea_activity = s.cea_activity ∧
    (update_urocortins dt s).mea_activity = s.mea_activity ∧
    (update_urocortins dt s).cea_sensitisation = s.cea_sensitisation ∧
    (update_urocortins dt s).pfc_inhibition = s.pfc_inhibition ∧
    (update_urocortins dt s).lc_activity = s.lc_activity ∧
    (update_urocortins dt s).hippocampal_damage = s.hippocampal_damage ∧
    (update_urocortins dt s).arcuate_metabolic_drive = s.arcuate_metabolic_drive ∧
    (update_urocortins dt s).stress_physical = s.stress_physical ∧
    (update_urocortins dt s).stress_emotional = s.stress_emotional ∧
    (update_urocortins dt s).chronic_stress_index = s.chronic_stress_index ∧
    (update_urocortins dt s).time_hours = s.time_hours ∧
    (update_urocortins dt s).day = s.day ∧
    (update_urocortins dt s).ultradian_phase = s.ultradian_phase ∧
    (update_urocortins dt s).prev_cortisol = s.prev_cortisol ∧
    (update_urocortins dt s).fast_feedback_signal = s.fast_feedback_signal ∧
    (update_urocortins dt s).current_step = s.current_step ∧
    (update_urocortins dt s).cumulative_load = s.cumulative_load ∧
    (update_urocortins dt s).cortisol_history = s.cortisol_history :=
  ⟨rfl, rfl, rfl, rfl, rfl, rfl, rfl, rfl, rfl, rfl, rfl, rfl, rfl, rfl, rfl, rfl, rfl, rfl, rfl, rfl, rfl, rfl, rfl, rfl, rfl, rfl, rfl, rfl, rfl, rfl, rfl, rfl, rfl⟩

theorem update_hippocampal_damage_frame (dt go : ℝ) (s : ExtState) :
    (update_hippocampal_damage dt go s).crh = s.crh ∧
    (update_hippocampal_damage dt go s).acth = s.acth ∧
    (update_hippocampal_damage dt go s).cortisol = s.cortisol ∧
    (update_hippocampal_damage dt go s).avp = s.avp ∧
    (update_hippocampal_damage dt go s).beta_endorphin = s.beta_endorphin ∧
    (update_hippocampal_damage dt go s).melanocortin_tone = s.melanocortin_tone ∧
    (update_hippocampal_damage dt go s).ucn1 = s.ucn1 ∧
    (update_hippocampal_damage dt go s).ucn23 = s.ucn23 ∧
    (update_hippocampal_damage dt go s).mr_receptors = s.mr_receptors ∧
    (update_hippocampal_damage dt go s).gr_receptors = s.gr_receptors ∧
    (update_hippocampal_damage dt go s).crfr1_density = s.crfr1_density ∧
    (update_hippocampal_damage dt go s).crfr2_density = s.crfr2_density ∧
    (update_hippocampal_damage dt go s).pituitary_mass = s.pituitary_mass ∧
    (update_hippocampal_damage dt go s).adrenal_mass = s.adrenal_mass ∧
    (update_hippocampal_damage dt go s).nts_drive = s.nts_drive ∧
    (update_hippocampal_damage dt go s).gaba_inhibition = s.gaba_inhibition ∧
    (update_hippocampal_damage dt go s).sfo_drive = s.sfo_drive ∧
    (update_hippocampal_damage dt go s).cea_activity = s.cea_activity ∧
    (update_hippocampal_damage dt go s).mea_activity = s.mea_activity ∧
    (update_hippocampal_damage dt go s).cea_sensitisation = s.cea_sensitisation ∧
    (update_hippocampal_damage dt go s).pfc_inhibition = s.pfc_inhibition ∧
    (update_hippocampal_damage dt go s).lc_activity = s.lc_activity ∧
    (update_hippocampal_damage dt go s).arcuate_metabolic_drive = s.arcuate_metabolic_drive ∧
    (update_hippocampal_damage dt go s).stress_physical = s.stress_physical ∧
    (update_hippocampal_damage dt go s).stress_emotional = s.stress_emotional ∧
    (update_hippocampal_damage dt go s).chronic_stress_index = s.chronic_stress_index ∧
    (update_hippocampal_damage dt go s).time_hours = s.time_hours ∧
    (update_hippocampal_damage dt go s).day = s.day ∧
    (update_hippocampal_damage dt go s).ultradian_phase = s.ultradian_phase ∧
    (update_hippocampal_damage dt go s).prev_cortisol = s.prev_cortisol ∧
    (update_hippocampal_damage dt go s).fast_feedback_signal = s.fast_feedback_signal ∧
    (update_hippocampal_damage dt go s).current_step = s.current_step ∧
    (update_hippocampal_damage dt go s).cumulative_load = s.cumulative_load ∧
    (update_hippocampal_damage dt go s).cortisol_history = s.cortisol_history :=
  ⟨rfl, rfl, rfl, rfl, rfl, rfl, rfl, rfl, rfl, rfl, rfl, rfl, rfl, rfl, rfl, rfl, rfl, rfl, rfl, rfl, rfl, rfl, rfl, rfl, rfl, rfl, rfl, rfl, rfl, rfl, rfl, rfl, rfl, rfl⟩

theorem update_crh_frame (dt m fb : ℝ) (s : ExtState) :
    (update_crh dt m fb s).acth = s.acth ∧
    (update_crh dt m fb s).cortisol = s.cortisol ∧
    (update_crh dt m fb s).avp = s.avp ∧
    (update_crh dt m fb s).beta_endorphin = s.beta_endorphin ∧
    (update_crh dt m fb s).melanocortin_tone = s.melanocortin_tone ∧
    (update_crh dt m fb s).ucn1 = s.ucn1 ∧
    (update_crh dt m fb s).ucn23 = s.ucn23 ∧
    (update_crh dt m fb s).mr_receptors = s.mr_receptors ∧
    (update_crh dt m fb s).gr_receptors = s.gr_receptors ∧
    (update_crh dt m fb s).crfr1_density = s.crfr1_density ∧
    (update_crh dt m fb s).crfr2_density = s.crfr2_density ∧
    (update_crh dt m fb s).pituitary_mass = s.pituitary_mass ∧
    (update_crh dt m fb s).adrenal_mass = s.adrenal_mass ∧
    (update_crh dt m fb s).nts_drive = s.nts_drive ∧
    (update_crh dt m fb s).gaba_inhibition = s.gaba_inhibition ∧
    (update_crh dt m fb s).sfo_drive = s.sfo_drive ∧
    (update_crh dt m fb s).cea_activity = s.cea_activity ∧
    (update_crh dt m fb s).mea_activity = s.mea_activity ∧
    (update_crh dt m fb s).cea_sensitisation = s.cea_sensitisation ∧
    (update_crh dt m fb s).pfc_inhibition = s.pfc_inhibition ∧
    (update_crh dt m fb s).lc_activity = s.lc_activity ∧
    (update_crh dt m fb s).hippocampal_damage = s.hippocampal_damage ∧
    (update_crh dt m fb s).arcuate_metabolic_drive = s.arcuate_metabolic_drive ∧
    (update_crh dt m fb s).stress_physical = s.stress_physical ∧
    (update_crh dt m fb s).stress_emotional = s.stress_emotional ∧
    (update_crh dt m fb s).chronic_stress_index = s.chronic_stress_index ∧
    (update_crh dt m fb s).time_hours = s.time_hours ∧
    (update_crh dt m fb s).day = s.day ∧
    (update_crh dt m fb s).ultradian_phase = s.ultradian_phase ∧
    (update_crh dt m fb s).prev_cortisol = s.prev_cortisol ∧
    (update_crh dt m fb s).fast_feedback_signal = s.fast_feedback_signal ∧
    (update_crh dt m fb s).current_step = s.current_step ∧
    (update_crh dt m fb s).cumulative_load = s.cumulative_load ∧
    (update_crh dt m fb s).cortisol_history = s.cortisol_history :=
  ⟨rfl, rfl, rfl, rfl, rfl, rfl, rfl, rfl, rfl, rfl, rfl, rfl, rfl, rfl, rfl, rfl, rfl, rfl, rfl, rfl, rfl, rfl, rfl, rfl, rfl, rfl, rfl, rfl, rfl, rfl, rfl, rfl, rfl, rfl⟩

theorem update_acth_frame (dt m fb : ℝ) (s : ExtState) :
    (update_acth dt m fb s).crh = s.crh ∧
    (update_acth dt m fb s).cortisol = s.cortisol ∧
    (update_acth dt m fb s).avp = s.avp ∧
    (update_acth dt m fb s).beta_endorphin = s.beta_endorphin ∧
    (update_acth dt m fb s).melanocortin_tone = s.melanocortin_tone ∧
    (update_acth dt m fb s).ucn1 = s.ucn1 ∧
    (update_acth dt m fb s).ucn23 = s.ucn23 ∧
    (update_acth dt m fb s).mr_receptors = s.mr_receptors ∧
    (update_acth dt m fb s).gr_receptors = s.gr_receptors ∧
    (update_acth dt m fb s).crfr1_density = s.crfr1_density ∧
    (update_acth dt m fb s).crfr2_density = s.crfr2_density ∧
    (update_acth dt m fb s).pituitary_mass = s.pituitary_mass ∧
    (update_acth dt m fb s).adrenal_mass = s.adrenal_mass ∧
    (update_acth dt m fb s).nts_drive = s.nts_drive ∧
    (update_acth dt m fb s).gaba_inhibition = s.gaba_inhibition ∧
    (update_acth dt m fb s).sfo_drive = s.sfo_drive ∧
    (update_acth dt m fb s).cea_activity = s.cea_activity ∧
    (update_acth dt m fb s).mea_activity = s.mea_activity ∧
    (update_acth dt m fb s).cea_sensitisation = s.cea_sensitisation ∧
    (update_acth dt m fb s).pfc_inhibition = s.pfc_inhibition ∧
    (update_acth dt m fb s).lc_activity = s.lc_activity ∧
    (update_acth dt m fb s).hippocampal_damage = s.hippocampal_damage ∧
    (update_acth dt m fb s).arcuate_metabolic_drive = s.arcuate_metabolic_drive ∧
    (update_acth dt m fb s).stress_physical = s.stress_physical ∧
    (update_acth dt m fb s).stress_emotional = s.stress_emotional ∧
    (update_acth dt m fb s).chronic_stress_index = s.chronic_stress_index ∧
    (update_acth dt m fb s).time_hours = s.time_hours ∧
    (update_acth dt m fb s).day = s.day ∧
    (update_acth dt m fb s).ultradian_phase = s.ultradian_phase ∧
    (update_acth dt m fb s).prev_cortisol = s.prev_cortisol ∧
    (update_acth dt m fb s).fast_feedback_signal = s.fast_feedback_signal ∧
    (update_acth dt m fb s).current_step = s.current_step ∧
    (update_acth dt m fb s).cumulative_load = s.cumulative_load ∧
    (update_acth dt m fb s).cortisol_history = s.cortisol_history :=
  ⟨rfl, rfl, rfl, rfl, rfl, rfl, rfl, rfl, rfl, rfl, rfl, rfl, rfl, rfl, rfl, rfl, rfl, rfl, rfl, rfl, rfl, rfl, rfl, rfl, rfl, rfl, rfl, rfl, rfl, rfl, rfl, rfl, rfl, rfl⟩

theorem update_cortisol_frame (dt m n : ℝ) (s : ExtState) :
    (update_cortisol dt m n s).crh = s.crh ∧
    (update_cortisol dt m n s).acth = s.acth ∧
    (update_cortisol dt m n s).avp = s.avp ∧
    (update_cortisol dt m n s).beta_endorphin = s.beta_endorphin ∧
    (update_cortisol dt m n s).melanocortin_tone = s.melanocortin_tone ∧
    (update_cortisol dt m n s).ucn1 = s.ucn1 ∧
    (update_cortisol dt m n s).ucn23 = s.ucn23 ∧
    (update_cortisol dt m n s).mr_receptors = s.mr_receptors ∧
    (update_cortisol dt m n s).gr_receptors = s.gr_receptors ∧
    (update_cortisol dt m n s).crfr1_density = s.crfr1_density ∧
    (update_cortisol dt m n s).crfr2_density = s.crfr2_density ∧
    (update_cortisol dt m n s).pituitary_mass = s.pituitary_mass ∧
    (update_cortisol dt m n s).adrenal_mass = s.adrenal_mass ∧
    (update_cortisol dt m n s).nts_drive = s.nts_drive ∧
    (update_cortisol dt m n s).gaba_inhibition = s.gaba_inhibition ∧
    (update_cortisol dt m n s).sfo_drive = s.sfo_drive ∧
    (update_cortisol dt m n s).cea_activity = s.cea_activity ∧
    (update_cortisol dt m n s).mea_activity = s.mea_activity ∧
    (update_cortisol dt m n s).cea_sensitisation = s.cea_sensitisation ∧
    (update_cortisol dt m n s).pfc_inhibition = s.pfc_inhibition ∧
    (update_cortisol dt m n s).lc_activity = s.lc_activity ∧
    (update_cortisol dt m n s).hippocampal_damage = s.hippocampal_damage ∧
    (update_cortisol dt m n s).arcuate_metabolic_drive = s.arcuate_metabolic_drive ∧
    (update_cortisol dt m n s).stress_physical = s.stress_physical ∧
    (update_cortisol dt m n s).stress_emotional = s.stress_emotional ∧
    (update_cortisol dt m n s).chronic_stress_index = s.chronic_stress_index ∧
    (update_cortisol dt m n s).time_hours = s.time_hours ∧
    (update_cortisol dt m n s).day = s.day ∧
    (update_cortisol dt m n s).prev_cortisol = s.prev_cortisol ∧
    (update_cortisol dt m n s).fast_feedback_signal = s.fast_feedback_signal ∧
    (update_cortisol dt m n s).current_step = s.current_step ∧
    (update_cortisol dt m n s).cumulative_load = s.cumulative_load :=
  ⟨rfl, rfl, rfl, rfl, rfl, rfl, rfl, rfl, rfl, rfl, rfl, rfl, rfl, rfl, rfl, rfl, rfl, rfl, rfl, rfl, rfl, rfl, rfl, rfl, rfl, rfl, rfl, rfl, rfl, rfl, rfl, rfl⟩

theorem update_pomc_products_frame (dt : ℝ) (s : ExtState) :
    (update_pomc_products dt s).crh = s.crh ∧
    (update_pomc_products dt s).acth = s.acth ∧
    (update_pomc_products dt s).cortisol = s.cortisol ∧
    (update_pomc_products dt s).avp = s.avp ∧
    (update_pomc_products dt s).ucn1 = s.ucn1 ∧
    (update_pomc_products dt s).ucn23 = s.ucn23 ∧
    (update_pomc_products dt s).mr_receptors = s.mr_receptors ∧
    (update_pomc_products dt s).gr_receptors = s.gr_receptors ∧
    (update_pomc_products dt s).crfr1_density = s.crfr1_density ∧
    (update_pomc_products dt s).crfr2_density = s.crfr2_density ∧
    (update_pomc_products dt s).pituitary_mass = s.pituitary_mass ∧
    (update_pomc_products dt s).adrenal_mass = s.adrenal_mass ∧
    (update_pomc_products dt s).nts_drive = s.nts_drive ∧
    (update_pomc_products dt s).gaba_inhibition = s.gaba_inhibition ∧
    (update_pomc_products dt s).sfo_drive = s.sfo_drive ∧
    (update_pomc_products dt s).cea_activity = s.cea_activity ∧
    (update_pomc_products dt s).mea_activity = s.mea_activity ∧
    (update_pomc_products dt s).cea_sensitisation = s.cea_sensitisation ∧
    (update_pomc_products dt s).pfc_inhibition = s.pfc_inhibition ∧
    (update_pomc_products dt s).lc_activity = s.lc_activity ∧
    (update_pomc_products dt s).hippocampal_damage = s.hippocampal_damage ∧
    (update_pomc_products dt s).arcuate_metabolic_drive = s.arcuate_metabolic_drive ∧
    (update_pomc_products dt s).stress_physical = s.stress_physical ∧
    (update_pomc_products dt s).stress_emotional = s.stress_emotional ∧
    (update_pomc_products dt s).chronic_stress_index = s.chronic_stress_index ∧
    (update_pomc_products dt s).time_hours = s.time_hours ∧
    (update_pomc_products dt s).day = s.day ∧
    (update_pomc_products dt s).ultradian_phase = s.ultradian_phase ∧
    (update_pomc_products dt s).prev_cortisol = s.prev_cortisol ∧
    (update_pomc_products dt s).fast_feedback_signal = s.fast_feedback_signal ∧
    (update_pomc_products dt s).current_step = s.current_step ∧
    (update_pomc_products dt s).cumulative_load = s.cumulative_load ∧
    (update_pomc_products dt s).cortisol_history = s.cortisol_history :=
  ⟨rfl, rfl, rfl, rfl, rfl, rfl, rfl, rfl, rfl, rfl, rfl, rfl, rfl, rfl, rfl, rfl, rfl, rfl, rfl, rfl, rfl, rfl, rfl, rfl, rfl, rfl, rfl, rfl, rfl, rfl, rfl, rfl, rfl⟩

theorem update_avp_frame (dt : ℝ) (s : ExtState) :
    (update_avp dt s).crh = s.crh ∧
    (update_avp dt s).acth = s.acth ∧
    (update_avp dt s).cortisol = s.cortisol ∧
    (update_avp dt s).beta_endorphin = s.beta_endorphin ∧
    (update_avp dt s).melanocortin_tone = s.melanocortin_tone ∧
    (update_avp dt s).ucn1 = s.ucn1 ∧
    (update_avp dt s).ucn23 = s.ucn23 ∧
    (update_avp dt s).mr_receptors = s.mr_receptors ∧
    (update_avp dt s).gr_receptors = s.gr_receptors ∧
    (update_avp dt s).crfr1_density = s.crfr1_density ∧
    (update_avp dt s).crfr2_density = s.crfr2_density ∧
    (update_avp dt s).pituitary_mass = s.pituitary_mass ∧
    (update_avp dt s).adrenal_mass = s.adrenal_mass ∧
    (update_avp dt s).nts_drive = s.nts_drive ∧
    (update_avp dt s).gaba_inhibition = s.gaba_inhibition ∧
    (update_avp dt s).sfo_drive = s.sfo_drive ∧
    (update_avp dt s).cea_activity = s.cea_activity ∧
    (update_avp dt s).mea_activity = s.mea_activity ∧
    (update_avp dt s).cea_sensitisation = s.cea_sensitisation ∧
    (update_avp dt s).pfc_inhibition = s.pfc_inhibition ∧
    (update_avp dt s).lc_activity = s.lc_activity ∧
    (update_avp dt s).hippocampal_damage = s.hippocampal_damage ∧
    (update_avp dt s).arcuate_metabolic_drive = s.arcuate_metabolic_drive ∧
    (update_avp dt s).stress_physical = s.stress_physical ∧
    (update_avp dt s).stress_emotional = s.stress_emotional ∧
    (update_avp dt s).chronic_stress_index = s.chronic_stress_index ∧
    (update_avp dt s).time_hours = s.time_hours ∧
    (update_avp dt s).day = s.day ∧
    (update_avp dt s).ultradian_phase = s.ultradian_phase ∧
    (update_avp dt s).prev_cortisol = s.prev_cortisol ∧
    (update_avp dt s).fast_feedback_signal = s.fast_feedback_signal ∧
    (update_avp dt s).current_step = s.current_step ∧
    (update_avp dt s).cumulative_load = s.cumulative_load ∧
    (update_avp dt s).cortisol_history = s.cortisol_history :=
  ⟨rfl, rfl, rfl, rfl, rfl, rfl, rfl, rfl, rfl, rfl, rfl, rfl, rfl, rfl, rfl, rfl, rfl, rfl, rfl, rfl, rfl, rfl, rfl, rfl, rfl, rfl, rfl, rfl, rfl, rfl, rfl, rfl, rfl, rfl⟩

theorem update_glands_frame (dt : ℝ) (s : ExtState) :
    (update_glands dt s).crh = s.crh ∧
    (update_glands dt s).acth = s.acth ∧
    (update_glands dt s).cortisol = s.cortisol ∧
    (update_glands dt s).avp = s.avp ∧
    (update_glands dt s).beta_endorphin = s.beta_endorphin ∧
    (update_glands dt s).melanocortin_tone = s.melanocortin_tone ∧
    (update_glands dt s).ucn1 = s.ucn1 ∧
    (update_glands dt s).ucn23 = s.ucn23 ∧
    (update_glands dt s).crfr1_density = s.crfr1_density ∧
    (update_glands dt s).crfr2_density = s.crfr2_density ∧
    (update_glands dt s).nts_drive = s.nts_drive ∧
    (update_glands dt s).gaba_inhibition = s.gaba_inhibition ∧
    (update_glands dt s).sfo_drive = s.sfo_drive ∧
    (update_glands dt s).cea_activity = s.cea_activity ∧
    (update_glands dt s).mea_activity = s.mea_activity ∧
    (update_glands dt s).cea_sensitisation = s.cea_sensitisation ∧
    (update_glands dt s).pfc_inhibition = s.pfc_inhibition ∧
    (update_glands dt s).lc_activity = s.lc_activity ∧
    (update_glands dt s).hippocampal_damage = s.hippocampal_damage ∧
    (update_glands dt s).arcuate_metabolic_drive = s.arcuate_metabolic_drive ∧
    (update_glands dt s).stress_physical = s.stress_physical ∧
    (update_glands dt s).stress_emotional = s.stress_emotional ∧
    (update_glands dt s).chronic_stress_index = s.chronic_stress_index ∧
    (update_glands dt s).time_hours = s.time_hours ∧
    (update_glands dt s).day = s.day ∧
    (update_glands dt s).ultradian_phase = s.ultradian_phase ∧
    (update_glands dt s).prev_cortisol = s.prev_cortisol ∧
    (update_glands dt s).fast_feedback_signal = s.fast_feedback_signal ∧
    (update_glands dt s).current_step = s.current_step ∧
    (update_glands dt s).cumulative_load = s.cumulative_load ∧
    (update_glands dt s).cortisol_history = s.cortisol_history :=
  ⟨rfl, rfl, rfl, rfl, rfl, rfl, rfl, rfl, rfl, rfl, rfl, rfl, rfl, rfl, rfl, rfl, rfl, rfl, rfl, rfl, rfl, rfl, rfl, rfl, rfl, rfl, rfl, rfl, rfl, rfl, rfl⟩

theorem update_crf_receptors_frame (dt : ℝ) (s : ExtState) :
    (update_crf_receptors dt s).crh = s.crh ∧
    (update_crf_receptors dt s).acth = s.acth ∧
    (update_crf_receptors dt s).cortisol = s.cortisol ∧
    (update_crf_receptors dt s).avp = s.avp ∧
    (update_crf_receptors dt s).beta_endorphin = s.beta_endorphin ∧
    (update_crf_receptors dt s).melanocortin_tone = s.melanocortin_tone ∧
    (update_crf_receptors dt s).ucn1 = s.ucn1 ∧
    (update_crf_receptors dt s).ucn23 = s.ucn23 ∧
    (update_crf_receptors dt s).mr_receptors = s.mr_receptors ∧
    (update_crf_receptors dt s).gr_receptors = s.gr_receptors ∧
    (update_crf_receptors dt s).pituitary_mass = s.pituitary_mass ∧
    (update_crf_receptors dt s).adrenal_mass = s.adrenal_mass ∧
    (update_crf_receptors dt s).nts_drive = s.nts_drive ∧
    (update_crf_receptors dt s).gaba_inhibition = s.gaba_inhibition ∧
    (update_crf_receptors dt s).sfo_drive = s.sfo_drive ∧
    (update_crf_receptors dt s).cea_activity = s.cea_activity ∧
    (update_crf_receptors dt s).mea_activity = s.mea_activity ∧
    (update_crf_receptors dt s).cea_sensitisation = s.cea_sensitisation ∧
    (update_crf_receptors dt s).pfc_inhibition = s.pfc_inhibition ∧
    (update_crf_receptors dt s).lc_activity = s.lc_activity ∧
    (update_crf_receptors dt s).hippocampal_damage = s.hippocampal_damage ∧
    (update_crf_receptors dt s).arcuate_metabolic_drive = s.arcuate_metabolic_drive ∧
    (update_crf_receptors dt s).stress_physical = s.stress_physical ∧
    (update_crf_receptors dt s).stress_emotional = s.stress_emotional ∧
    (update_crf_receptors dt s).chronic_stress_index = s.chronic_stress_index ∧
    (update_crf_receptors dt s).time_hours = s.time_hours ∧
    (update_crf_receptors dt s).day = s.day ∧
    (update_crf_receptors dt s).ultradian_phase = s.ultradian_phase ∧
    (update_crf_receptors dt s).prev_cortisol = s.prev_cortisol ∧
    (update_crf_receptors dt s).fast_feedback_signal = s.fast_feedback_signal ∧
    (update_crf_receptors dt s).current_step = s.current_step ∧
    (update_crf_receptors dt s).cumulative_load = s.cumulative_load ∧
    (update_crf_receptors dt s).cortisol_history = s.cortisol_history :=
  ⟨rfl, rfl, rfl, rfl, rfl, rfl, rfl, rfl, rfl, rfl, rfl, rfl, rfl, rfl, rfl, rfl, rfl, rfl, rfl, rfl, rfl, rfl, rfl, rfl, rfl, rfl, rfl, rfl, rfl, rfl, rfl, rfl, rfl⟩

theorem update_time_frame (dt : ℝ) (s : ExtState) :
    (update_time dt s).crh = s.crh ∧
    (update_time dt s).acth = s.acth ∧
    (update_time dt s).cortisol = s.cortisol ∧
    (update_time dt s).avp = s.avp ∧
    (update_time dt s).beta_endorphin = s.beta_endorphin ∧
    (update_time dt s).melanocortin_tone = s.melanocortin_tone ∧
    (update_time dt s).ucn1 = s.ucn1 ∧
    (update_time dt s).ucn23 = s.ucn23 ∧
    (update_time dt s).mr_receptors = s.mr_receptors ∧
    (update_time dt s).gr_receptors = s.gr_receptors ∧
    (update_time dt s).crfr1_density = s.crfr1_density ∧
    (update_time dt s).crfr2_density = s.crfr2_density ∧
    (update_time dt s).pituitary_mass = s.pituitary_mass ∧
    (update_time dt s).adrenal_mass = s.adrenal_mass ∧
    (update_time dt s).nts_drive = s.nts_drive ∧
    (update_time dt s).gaba_inhibition = s.gaba_inhibition ∧
    (update_time dt s).sfo_drive = s.sfo_drive ∧
    (update_time dt s).cea_activity = s.cea_activity ∧
    (update_time dt s).mea_activity = s.mea_activity ∧
    (update_time dt s).cea_sensitisation = s.cea_sensitisation ∧
    (update_time dt s).pfc_inhibition = s.pfc_inhibition ∧
    (update_time dt s).lc_activity = s.lc_activity ∧
    (update_time dt s).hippocampal_damage = s.hippocampal_damage ∧
    (update_time dt s).arcuate_metabolic_drive = s.arcuate_metabolic_drive ∧
    (update_time dt s).stress_physical = s.stress_physical ∧
    (update_time dt s).stress_emotional = s.stress_emotional ∧
    (update_time dt s).chronic_stress_index = s.chronic_stress_index ∧
    (update_time dt s).ultradian_phase = s.ultradian_phase ∧
    (update_time dt s).prev_cortisol = s.prev_cortisol ∧
    (update_time dt s).fast_feedback_signal = s.fast_feedback_signal ∧
    (update_time dt s).current_step = s.current_step ∧
    (update_time dt s).cumulative_load = s.cumulative_load ∧
    (update_time dt s).cortisol_history = s.cortisol_history :=
  ⟨rfl, rfl, rfl, rfl, rfl, rfl, rfl, rfl, rfl, rfl, rfl, rfl, rfl, rfl, rfl, rfl, rfl, rfl, rfl, rfl, rfl, rfl, rfl, rfl, rfl, rfl, rfl, rfl, rfl, rfl, rfl, rfl, rfl⟩

theorem update_stress_frame (ue um ut : ℝ) (s : ExtState) :
    (update_stress ue um ut s).crh = s.crh ∧
    (update_stress ue um ut s).acth = s.acth ∧
    (update_stress ue um ut s).cortisol = s.cortisol ∧
    (update_stress ue um ut s).avp = s.avp ∧
    (update_stress ue um ut s).beta_endorphin = s.beta_endorphin ∧
    (update_stress ue um ut s).melanocortin_tone = s.melanocortin_tone ∧
    (update_stress ue um ut s).ucn1 = s.ucn1 ∧
    (update_stress ue um ut s).ucn23 = s.ucn23 ∧
    (update_stress ue um ut s).mr_receptors = s.mr_receptors ∧
    (update_stress ue um ut s).gr_receptors = s.gr_receptors ∧
    (update_stress ue um ut s).crfr1_density = s.crfr1_density ∧
    (update_stress ue um ut s).crfr2_density = s.crfr2_density ∧
    (update_stress ue um ut s).pituitary_mass = s.pituitary_mass ∧
    (update_stress ue um ut s).adrenal_mass = s.adrenal_mass ∧
    (update_stress ue um ut s).nts_drive = s.nts_drive ∧
    (update_stress ue um ut s).gaba_inhibition = s.gaba_inhibition ∧
    (update_stress ue um ut s).sfo_drive = s.sfo_drive ∧
    (update_stress ue um ut s).cea_activity = s.cea_activity ∧
    (update_stress ue um ut s).mea_activity = s.mea_activity ∧
    (update_stress ue um ut s).cea_sensitisation = s.cea_sensitisation ∧
    (update_stress ue um ut s).pfc_inhibition = s.pfc_inhibition ∧
    (update_stress ue um ut s).lc_activity = s.lc_activity ∧
    (update_stress ue um ut s).hippocampal_damage = s.hippocampal_damage ∧
    (update_stress ue um ut s).arcuate_metabolic_drive = s.arcuate_metabolic_drive ∧
    (update_stress ue um ut s).chronic_stress_index = s.chronic_stress_index ∧
    (update_stress ue um ut s).time_hours = s.time_hours ∧
    (update_stress ue um ut s).day = s.day ∧
    (update_stress ue um ut s).ultradian_phase = s.ultradian_phase ∧
    (update_stress ue um ut s).prev_cortisol = s.prev_cortisol ∧
    (update_stress ue um ut s).fast_feedback_signal = s.fast_feedback_signal ∧
    (update_stress ue um ut s).current_step = s.current_step ∧
    (update_stress ue um ut s).cumulative_load = s.cumulative_load ∧
    (update_stress ue um ut s).cortisol_history = s.cortisol_history :=
  ⟨rfl, rfl, rfl, rfl, rfl, rfl, rfl, rfl, rfl, rfl, rfl, rfl, rfl, rfl, rfl, rfl, rfl, rfl, rfl, rfl, rfl, rfl, rfl, rfl, rfl, rfl, rfl, rfl, rfl, rfl, rfl, rfl, rfl⟩

theorem update_chronic_frame (dt : ℝ) (s : ExtState) :
    (update_chronic dt s).crh = s.crh ∧
    (update_chronic dt s).acth = s.acth ∧
    (update_chronic dt s).cortisol = s.cortisol ∧
    (update_chronic dt s).avp = s.avp ∧
    (update_chronic dt s).beta_endorphin = s.beta_endorphin ∧
    (update_chronic dt s).melanocortin_tone = s.melanocortin_tone ∧
    (update_chronic dt s).ucn1 = s.ucn1 ∧
    (update_chronic dt s).ucn23 = s.ucn23 ∧
    (update_chronic dt s).mr_receptors = s.mr_receptors ∧
    (update_chronic dt s).gr_receptors = s.gr_receptors ∧
    (update_chronic dt s).crfr1_density = s.crfr1_density ∧
    (update_chronic dt s).crfr2_density = s.crfr2_density ∧
    (update_chronic dt s).pituitary_mass = s.pituitary_mass ∧
    (update_chronic dt s).adrenal_mass = s.adrenal_mass ∧
    (update_chronic dt s).nts_drive = s.nts_drive ∧
    (update_chronic dt s).gaba_inhibition = s.gaba_inhibition ∧
    (update_chronic dt s).sfo_drive = s.sfo_drive ∧
    (update_chronic dt s).cea_activity = s.cea_activity ∧
    (update_chronic dt s).mea_activity = s.mea_activity ∧
    (update_chronic dt s).cea_sensitisation = s.cea_sensitisation ∧
    (update_chronic dt s).pfc_inhibition = s.pfc_inhibition ∧
    (update_chronic dt s).lc_activity = s.lc_activity ∧
    (update_chronic dt s).hippocampal_damage = s.hippocampal_damage ∧
    (update_chronic dt s).arcuate_metabolic_drive = s.arcuate_metabolic_drive ∧
    (update_chronic dt s).stress_physical = s.stress_physical ∧
    (update_chronic dt s).stress_emotional = s.stress_emotional ∧
    (update_chronic dt s).time_hours = s.time_hours ∧
    (update_chronic dt s).day = s.day ∧
    (update_chronic dt s).ultradian_phase = s.ultradian_phase ∧
    (update_chronic dt s).prev_cortisol = s.prev_cortisol ∧
    (update_chronic dt s).fast_feedback_signal = s.fast_feedback_signal ∧
    (update_chronic dt s).current_step = s.current_step ∧
    (update_chronic dt s).cumulative_load = s.cumulative_load ∧
    (update_chronic dt s).cortisol_history = s.cortisol_history :=
  ⟨rfl, rfl, rfl, rfl, rfl, rfl, rfl, rfl, rfl, rfl, rfl, rfl, rfl, rfl, rfl, rfl, rfl, rfl, rfl, rfl, rfl, rfl, rfl, rfl, rfl, rfl, rfl, rfl, rfl, rfl, rfl, rfl, rfl, rfl⟩

theorem s_update_crh_frame (dt m fb : ℝ) (s : SState) :
    (s_update_crh dt m fb s).cortisol = s.cortisol ∧
    (s_update_crh dt m fb s).acth = s.acth ∧
    (s_update_crh dt m fb s).pituitary_mass = s.pituitary_mass ∧
    (s_update_crh dt m fb s).adrenal_mass = s.adrenal_mass ∧
    (s_update_crh dt m fb s).mr_receptors = s.mr_receptors ∧
    (s_update_crh dt m fb s).gr_receptors = s.gr_receptors ∧
    (s_update_crh dt m fb s).stress_level = s.stress_level ∧
    (s_update_crh dt m fb s).time_hours = s.time_hours ∧
    (s_update_crh dt m fb s).day = s.day ∧
    (s_update_crh dt m fb s).ultradian_phase = s.ultradian_phase ∧
    (s_update_crh dt m fb s).current_step = s.current_step ∧
    (s_update_crh dt m fb s).cumulative_load = s.cumulative_load ∧
    (s_update_crh dt m fb s).cortisol_history = s.cortisol_history :=
  ⟨rfl, rfl, rfl, rfl, rfl, rfl, rfl, rfl, rfl, rfl, rfl, rfl, rfl⟩

theorem s_update_acth_frame (dt m fb : ℝ) (s : SState) :
    (s_update_acth dt m fb s).cortisol = s.cortisol ∧
    (s_update_acth dt m fb s).crh = s.crh ∧
    (s_update_acth dt m fb s).pituitary_mass = s.pituitary_mass ∧
    (s_update_acth dt m fb s).adrenal_mass = s.adrenal_mass ∧
    (s_update_acth dt m fb s).mr_receptors = s.mr_receptors ∧
    (s_update_acth dt m fb s).gr_receptors = s.gr_receptors ∧
    (s_update_acth dt m fb s).stress_level = s.stress_level ∧
    (s_update_acth dt m fb s).time_hours = s.time_hours ∧
    (s_update_acth dt m fb s).day = s.day ∧
    (s_update_acth dt m fb s).ultradian_phase = s.ultradian_phase ∧
    (s_update_acth dt m fb s).current_step = s.current_step ∧
    (s_update_acth dt m fb s).cumulative_load = s.cumulative_load ∧
    (s_update_acth dt m fb s).cortisol_history = s.cortisol_history :=
  ⟨rfl, rfl, rfl, rfl, rfl, rfl, rfl, rfl, rfl, rfl, rfl, rfl, rfl⟩

theorem s_update_cortisol_frame (dt m n : ℝ) (s : SState) :
    (s_update_cortisol dt m n s).acth = s.acth ∧
    (s_update_cortisol dt m n s).crh = s.crh ∧
    (s_update_cortisol dt m n s).pituitary_mass = s.pituitary_mass ∧
    (s_update_cortisol dt m n s).adrenal_mass = s.adrenal_mass ∧
    (s_update_cortisol dt m n s).mr_receptors = s.mr_receptors ∧
    (s_update_cortisol dt m n s).gr_receptors = s.gr_receptors ∧
    (s_update_cortisol dt m n s).stress_level = s.stress_level ∧
    (s_update_cortisol dt m n s).time_hours = s.time_hours ∧
    (s_update_cortisol dt m n s).day = s.day ∧
    (s_update_cortisol dt m n s).current_step = s.current_step ∧
    (s_update_cortisol dt m n s).cumulative_load = s.cumulative_load :=
  ⟨rfl, rfl, rfl, rfl, rfl, rfl, rfl, rfl, rfl, rfl, rfl⟩

theorem s_update_glands_frame (dt : ℝ) (s : SState) :
    (s_update_glands dt s).cortisol = s.cortisol ∧
    (s_update_glands dt s).acth = s.acth ∧
    (s_update_glands dt s).crh = s.crh ∧
    (s_update_glands dt s).stress_level = s.stress_level ∧
    (s_update_glands dt s).time_hours = s.time_hours ∧
    (s_update_glands dt s).day = s.day ∧
    (s_update_glands dt s).ultradian_phase = s.ultradian_phase ∧
    (s_update_glands dt s).current_step = s.current_step ∧
    (s_update_glands dt s).cumulative_load = s.cumulative_load ∧
    (s_update_glands dt s).cortisol_history = s.cortisol_history :=
  ⟨rfl, rfl, rfl, rfl, rfl, rfl, rfl, rfl, rfl, rfl⟩

theorem s_update_time_frame (dt : ℝ) (s : SState) :
    (s_update_time dt s).cortisol = s.cortisol ∧
    (s_update_time dt s).acth = s.acth ∧
    (s_update_time dt s).crh = s.crh ∧
    (s_update_time dt s).pituitary_mass = s.pituitary_mass ∧
    (s_update_time dt s).adrenal_mass = s.adrenal_mass ∧
    (s_update_time dt s).mr_receptors = s.mr_receptors ∧
    (s_update_time dt s).gr_receptors = s.gr_receptors ∧
    (s_update_time dt s).stress_level = s.stress_level ∧
    (s_update_time dt s).ultradian_phase = s.ultradian_phase ∧
    (s_update_time dt s).current_step = s.current_step ∧
    (s_update_time dt s).cumulative_load = s.cumulative_load ∧
    (s_update_time dt s).cortisol_history = s.cortisol_history :=
  ⟨rfl, rfl, rfl, rfl, rfl, rfl, rfl, rfl, rfl, rfl, rfl, rfl⟩

theorem s_update_stress_frame (ue um : ℝ) (s : SState) :
    (s_update_stress ue um s).cortisol = s.cortisol ∧
    (s_update_stress ue um s).acth = s.acth ∧
    (s_update_stress ue um s).crh = s.crh ∧
    (s_update_stress ue um s).pituitary_mass = s.pituitary_mass ∧
    (s_update_stress ue um s).adrenal_mass = s.adrenal_mass ∧
    (s_update_stress ue um s).mr_receptors = s.mr_receptors ∧
    (s_update_stress ue um s).gr_receptors = s.gr_receptors ∧
    (s_update_stress ue um s).time_hours = s.time_hours ∧
    (s_update_stress ue um s).day = s.day ∧
    (s_update_stress ue um s).ultradian_phase = s.ultradian_phase ∧
    (s_update_stress ue um s).current_step = s.current_step ∧
    (s_update_stress ue um s).cumulative_load = s.cumulative_load ∧
    (s_update_stress ue um s).cortisol_history = s.cortisol_history :=
  ⟨rfl, rfl, rfl, rfl, rfl, rfl, rfl, rfl, rfl, rfl, rfl, rfl, rfl⟩

-- ------------------------------------------------------------------
-- Projection lemmas for the step bookkeeping wrappers.
-- ------------------------------------------------------------------

theorem stepExt_state_proj (P : ExtParams) (s : ExtState) (a : ℤ) (σ : ℕ → ℝ) :
    (stepExt P s a σ).1.crh = (stepPost P s a σ).crh ∧
    (stepExt P s a σ).1.acth = (stepPost P s a σ).acth ∧
    (stepExt P s a σ).1.cortisol = (stepPost P s a σ).cortisol ∧
    (stepExt P s a σ).1.avp = (stepPost P s a σ).avp ∧
    (stepExt P s a σ).1.beta_endorphin = (stepPost P s a σ).beta_endorphin ∧
    (stepExt P s a σ).1.melanocortin_tone = (stepPost P s a σ).melanocortin_tone ∧
    (stepExt P s a σ).1.ucn1 = (stepPost P s a σ).ucn1 ∧
    (stepExt P s a σ).1.ucn23 = (stepPost P s a σ).ucn23 ∧
    (stepExt P s a σ).1.mr_receptors = (stepPost P s a σ).mr_receptors ∧
    (stepExt P s a σ).1.gr_receptors = (stepPost P s a σ).gr_receptors ∧
    (stepExt P s a σ).1.crfr1_density = (stepPost P s a σ).crfr1_density ∧
    (stepExt P s a σ).1.crfr2_density = (stepPost P s a σ).crfr2_density ∧
    (stepExt P s a σ).1.pituitary_mass = (stepPost P s a σ).pituitary_mass ∧
    (stepExt P s a σ).1.adrenal_mass = (stepPost P s a σ).adrenal_mass ∧
    (stepExt P s a σ).1.nts_drive = (stepPost P s a σ).nts_drive ∧
    (stepExt P s a σ).1.gaba_inhibition = (stepPost P s a σ).gaba_inhibition ∧
    (stepExt P s a σ).1.sfo_drive = (stepPost P s a σ).sfo_drive ∧
    (stepExt P s a σ).1.cea_activity = (stepPost P s a σ).cea_activity ∧
    (stepExt P s a σ).1.mea_activity = (stepPost P s a σ).mea_activity ∧
    (stepExt P s a σ).1.cea_sensitisation = (stepPost P s a σ).cea_sensitisation ∧
    (stepExt P s a σ).1.pfc_inhibition = (stepPost P s a σ).pfc_inhibition ∧
    (stepExt P s a σ).1.lc_activity = (stepPost P s a σ).lc_activity ∧
    (stepExt P s a σ).1.hippocampal_damage = (stepPost P s a σ).hippocampal_damage ∧
    (stepExt P s a σ).1.arcuate_metabolic_drive = (stepPost P s a σ).arcuate_metabolic_drive ∧
    (stepExt P s a σ).1.stress_physical = (stepPost P s a σ).stress_physical ∧
    (stepExt P s a σ).1.stress_emotional = (stepPost P s a σ).stress_emotional ∧
    (stepExt P s a σ).1.chronic_stress_index = (stepPost P s a σ).chronic_stress_index ∧
    (stepExt P s a σ).1.time_hours = (stepPost P s a σ).time_hours ∧
    (stepExt P s a σ).1.day = (stepPost P s a σ).day ∧
    (stepExt P s a σ).1.ultradian_phase = (stepPost P s a σ).ultradian_phase ∧
    (stepExt P s a σ).1.prev_cortisol = (stepPost P s a σ).prev_cortisol ∧
    (stepExt P s a σ).1.fast_feedback_signal = (stepPost P s a σ).fast_feedback_signal ∧
    (stepExt P s a σ).1.cortisol_history = (stepPost P s a σ).cortisol_history ∧
    (stepExt P s a σ).1.current_step = (stepPost P s a σ).current_step + 1 ∧
    (stepExt P s a σ).1.cumulative_load = (stepPost P s a σ).cumulative_load + stepLoadVal P s a σ :=
  ⟨rfl, rfl, rfl, rfl, rfl, rfl, rfl, rfl, rfl, rfl, rfl, rfl, rfl, rfl, rfl, rfl, rfl, rfl, rfl, rfl, rfl, rfl, rfl, rfl, rfl, rfl, rfl, rfl, rfl, rfl, rfl, rfl, rfl, rfl, rfl⟩

theorem stepExt_reward_proj (P : ExtParams) (s : ExtState) (a : ℤ) (σ : ℕ → ℝ) :
    (stepExt P s a σ).2.1 = 5.0 - stepLoadVal P s a σ := rfl

theorem stepExt_done_proj (P : ExtParams) (s : ExtState) (a : ℤ) (σ : ℕ → ℝ) :
    (stepExt P s a σ).2.2 = decide (P.max_steps ≤ (stepPost P s a σ).current_step + 1) := rfl

theorem stepS_state_proj (Q : SParams) (t : SState) (b : ℤ) (τ : ℕ → ℝ) :
    (stepS Q t b τ).1.cortisol = (sPost Q t b τ).cortisol ∧
    (stepS Q t b τ).1.acth = (sPost Q t b τ).acth ∧
    (stepS Q t b τ).1.crh = (sPost Q t b τ).crh ∧
    (stepS Q t b τ).1.pituitary_mass = (sPost Q t b τ).pituitary_mass ∧
    (stepS Q t b τ).1.adrenal_mass = (sPost Q t b τ).adrenal_mass ∧
    (stepS Q t b τ).1.mr_receptors = (sPost Q t b τ).mr_receptors ∧
    (stepS Q t b τ).1.gr_receptors = (sPost Q t b τ).gr_receptors ∧
    (stepS Q t b τ).1.stress_level = (sPost Q t b τ).stress_level ∧
    (stepS Q t b τ).1.time_hours = (sPost Q t b τ).time_hours ∧
    (stepS Q t b τ).1.day = (sPost Q t b τ).day ∧
    (stepS Q t b τ).1.ultradian_phase = (sPost Q t b τ).ultradian_phase ∧
    (stepS Q t b τ).1.cortisol_history = (sPost Q t b τ).cortisol_history ∧
    (stepS Q t b τ).1.current_step = t.current_step + 1 ∧
    (stepS Q t b τ).1.cumulative_load = t.cumulative_load + sLoadVal Q t b τ :=
  ⟨rfl, rfl, rfl, rfl, rfl, rfl, rfl, rfl, rfl, rfl, rfl, rfl, rfl, rfl⟩

theorem stepS_reward_proj (Q : SParams) (t : SState) (b : ℤ) (τ : ℕ → ℝ) :
    (stepS Q t b τ).2.1 = -(sLoadVal Q t b τ) + 5.0 := rfl

theorem stepS_done_proj (Q : SParams) (t : SState) (b : ℤ) (τ : ℕ → ℝ) :
    (stepS Q t b τ).2.2 = decide (stage_max_steps Q.stage ≤ t.current_step + 1) := rfl

-- ------------------------------------------------------------------
-- Range lemmas: each clipped field lands in its declared range.
-- ------------------------------------------------------------------

theorem update_amygdala_cea_activity_range (dt mo go : ℝ) (t : ExtState) :
    0 ≤ (update_amygdala dt mo go t).cea_activity ∧ (update_amygdala dt mo go t).cea_activity ≤ 1 := by
  obtain ⟨x, hx⟩ : ∃ y, (update_amygdala dt mo go t).cea_activity = clip y 0.0 1.0 := ⟨_, rfl⟩
  have h := @clip_mem_bounds x 0.0 1.0 (by norm_num)
  rw [hx]
  exact ⟨by linarith [h.1], by linarith [h.2]⟩

theorem update_amygdala_cea_sensitisation_range (dt mo go : ℝ) (t : ExtState) :
    0 ≤ (update_amygdala dt mo go t).cea_sensitisation ∧ (update_amygdala dt mo go t).cea_sensitisation ≤ 2 := by
  obtain ⟨x, hx⟩ : ∃ y, (update_amygdala dt mo go t).cea_sensitisation = clip y 0.0 2.0 := ⟨_, rfl⟩
  have h := @clip_mem_bounds x 0.0 2.0 (by norm_num)
  rw [hx]
  exact ⟨by linarith [h.1], by linarith [h.2]⟩

theorem update_amygdala_mea_activity_range (dt mo go : ℝ) (t : ExtState) :
    0 ≤ (update_amygdala dt mo go t).mea_activity ∧ (update_amygdala dt mo go t).mea_activity ≤ 1 := by
  obtain ⟨x, hx⟩ : ∃ y, (update_amygdala dt mo go t).mea_activity = clip y 0.0 1.0 := ⟨_, rfl⟩
  have h := @clip_mem_bounds x 0.0 1.0 (by norm_num)
  rw [hx]
  exact ⟨by linarith [h.1], by linarith [h.2]⟩

theorem update_pfc_pfc_inhibition_range (dt : ℝ) (t : ExtState) :
    0 ≤ (update_pfc dt t).pfc_inhibition ∧ (update_pfc dt t).pfc_inhibition ≤ 1 := by
  obtain ⟨x, hx⟩ : ∃ y, (update_pfc dt t).pfc_inhibition = clip y 0.0 1.0 := ⟨_, rfl⟩
  have h := @clip_mem_bounds x 0.0 1.0 (by norm_num)
  rw [hx]
  exact ⟨by linarith [h.1], by linarith [h.2]⟩

theorem update_lc_lc_activity_range (dt : ℝ) (t : ExtState) :
    0 ≤ (update_lc dt t).lc_activity ∧ (update_lc dt t).lc_activity ≤ 1 := by
  obtain ⟨x, hx⟩ : ∃ y, (update_lc dt t).lc_activity = clip y 0.0 1.0 := ⟨_, rfl⟩
  have h := @clip_mem_bounds x 0.0 1.0 (by norm_num)
  rw [hx]
  exact ⟨by linarith [h.1], by linarith [h.2]⟩

theorem update_sfo_sfo_drive_range (dt : ℝ) (t : ExtState) :
    0 ≤ (update_sfo dt t).sfo_drive ∧ (update_sfo dt t).sfo_drive ≤ 1 := by
  obtain ⟨x, hx⟩ : ∃ y, (update_sfo dt t).sfo_drive = clip y 0.0 1.0 := ⟨_, rfl⟩
  have h := @clip_mem_bounds x 0.0 1.0 (by norm_num)
  rw [hx]
  exact ⟨by linarith [h.1], by linarith [h.2]⟩

theorem update_arcuate_arcuate_metabolic_drive_range (dt : ℝ) (t : ExtState) :
    -1 ≤ (update_arcuate dt t).arcuate_metabolic_drive ∧ (update_arcuate dt t).arcuate_metabolic_drive ≤ 1 := by
  obtain ⟨x, hx⟩ : ∃ y, (update_arcuate dt t).arcuate_metabolic_drive = clip y (-1.0) 1.0 := ⟨_, rfl⟩
  have h := @clip_mem_bounds x (-1.0) 1.0 (by norm_num)
  rw [hx]
  exact ⟨by linarith [h.1], by linarith [h.2]⟩

theorem update_upstream_signals_nts_drive_range (dt : ℝ) (t : ExtState) :
    0 ≤ (update_upstream_signals dt t).nts_drive ∧ (update_upstream_signals dt t).nts_drive ≤ 1 := by
  obtain ⟨x, hx⟩ : ∃ y, (update_upstream_signals dt t).nts_drive = clip y 0.0 1.0 := ⟨_, rfl⟩
  have h := @clip_mem_bounds x 0.0 1.0 (by norm_num)
  rw [hx]
  exact ⟨by linarith [h.1], by linarith [h.2]⟩

theorem update_upstream_signals_gaba_inhibition_range (dt : ℝ) (t : ExtState) :
    0 ≤ (update_upstream_signals dt t).gaba_inhibition ∧ (update_upstream_signals dt t).gaba_inhibition ≤ 1 := by
  obtain ⟨x, hx⟩ : ∃ y, (update_upstream_signals dt t).gaba_inhibition = clip y 0.0 1.0 := ⟨_, rfl⟩
  have h := @clip_mem_bounds x 0.0 1.0 (by norm_num)
  rw [hx]
  exact ⟨by linarith [h.1], by linarith [h.2]⟩

theorem update_urocortins_ucn1_range (dt : ℝ) (t : ExtState) :
    0.1 ≤ (update_urocortins dt t).ucn1 ∧ (update_urocortins dt t).ucn1 ≤ 5 := by
  obtain ⟨x, hx⟩ : ∃ y, (update_urocortins dt t).ucn1 = clip y 0.1 5.0 := ⟨_, rfl⟩
  have h := @clip_mem_bounds x 0.1 5.0 (by norm_num)
  rw [hx]
  exact ⟨by linarith [h.1], by linarith [h.2]⟩

theorem update_urocortins_ucn23_range (dt : ℝ) (t : ExtState) :
    0.1 ≤ (update_urocortins dt t).ucn23 ∧ (update_urocortins dt t).ucn23 ≤ 8 := by
  obtain ⟨x, hx⟩ : ∃ y, (update_urocortins dt t).ucn23 = clip y 0.1 8.0 := ⟨_, rfl⟩
  have h := @clip_mem_bounds x 0.1 8.0 (by norm_num)
  rw [hx]
  exact ⟨by linarith [h.1], by linarith [h.2]⟩

theorem update_hippocampal_damage_hippocampal_damage_range (dt go : ℝ) (t : ExtState) :
    0 ≤ (update_hippocampal_damage dt go t).hippocampal_damage ∧ (update_hippocampal_damage dt go t).hippocampal_damage ≤ 1 := by
  obtain ⟨x, hx⟩ : ∃ y, (update_hippocampal_damage dt go t).hippocampal_damage = clip y 0.0 1.0 := ⟨_, rfl⟩
  have h := @clip_mem_bounds x 0.0 1.0 (by norm_num)
  rw [hx]
  exact ⟨by linarith [h.1], by linarith [h.2]⟩

theorem update_crh_crh_range (dt m fb : ℝ) (t : ExtState) :
    0 ≤ (update_crh dt m fb t).crh ∧ (update_crh dt m fb t).crh ≤ 400 := by
  obtain ⟨x, hx⟩ : ∃ y, (update_crh dt m fb t).crh = clip y 0.0 400.0 := ⟨_, rfl⟩
  have h := @clip_mem_bounds x 0.0 400.0 (by norm_num)
  rw [hx]
  exact ⟨by linarith [h.1], by linarith [h.2]⟩

theorem update_acth_acth_range (dt m fb : ℝ) (t : ExtState) :
    0 ≤ (update_acth dt m fb t).acth ∧ (update_acth dt m fb t).acth ≤ 200 := by
  obtain ⟨x, hx⟩ : ∃ y, (update_acth dt m fb t).acth = clip y 0.0 200.0 := ⟨_, rfl⟩
  have h := @clip_mem_bounds x 0.0 200.0 (by norm_num)
  rw [hx]
  exact ⟨by linarith [h.1], by linarith [h.2]⟩

theorem update_cortisol_cortisol_range (dt m n : ℝ) (t : ExtState) :
    0 ≤ (update_cortisol dt m n t).cortisol ∧ (update_cortisol dt m n t).cortisol ≤ 60 := by
  obtain ⟨x, hx⟩ : ∃ y, (update_cortisol dt m n t).cortisol = clip y 0.0 60.0 := ⟨_, rfl⟩
  have h := @clip_mem_bounds x 0.0 60.0 (by norm_num)
  rw [hx]
  exact ⟨by linarith [h.1], by linarith [h.2]⟩

theorem update_pomc_products_beta_endorphin_range (dt : ℝ) (t : ExtState) :
    0 ≤ (update_pomc_products dt t).beta_endorphin ∧ (update_pomc_products dt t).beta_endorphin ≤ 40 := by
  obtain ⟨x, hx⟩ : ∃ y, (update_pomc_products dt t).beta_endorphin = clip y 0.0 40.0 := ⟨_, rfl⟩
  have h := @clip_mem_bounds x 0.0 40.0 (by norm_num)
  rw [hx]
  exact ⟨by linarith [h.1], by linarith [h.2]⟩

theorem update_pomc_products_melanocortin_tone_range (dt : ℝ) (t : ExtState) :
    0.1 ≤ (update_pomc_products dt t).melanocortin_tone ∧ (update_pomc_products dt t).melanocortin_tone ≤ 3 := by
  obtain ⟨x, hx⟩ : ∃ y, (update_pomc_products dt t).melanocortin_tone = clip y 0.1 3.0 := ⟨_, rfl⟩
  have h := @clip_mem_bounds x 0.1 3.0 (by norm_num)
  rw [hx]
  exact ⟨by linarith [h.1], by linarith [h.2]⟩

theorem update_avp_avp_range (dt : ℝ) (t : ExtState) :
    0.5 ≤ (update_avp dt t).avp ∧ (update_avp dt t).avp ≤ 30 := by
  obtain ⟨x, hx⟩ : ∃ y, (update_avp dt t).avp = clip y 0.5 30.0 := ⟨_, rfl⟩
  have h := @clip_mem_bounds x 0.5 30.0 (by norm_num)
  rw [hx]
  exact ⟨by linarith [h.1], by linarith [h.2]⟩

theorem update_glands_adrenal_mass_range (dt : ℝ) (t : ExtState) :
    0.5 ≤ (update_glands dt t).adrenal_mass ∧ (update_glands dt t).adrenal_mass ≤ 2 := by
  obtain ⟨x, hx⟩ : ∃ y, (update_glands dt t).adrenal_mass = clip y 0.5 2.0 := ⟨_, rfl⟩
  have h := @clip_mem_bounds x 0.5 2.0 (by norm_num)
  rw [hx]
  exact ⟨by linarith [h.1], by linarith [h.2]⟩

theorem update_glands_pituitary_mass_range (dt : ℝ) (t : ExtState) :
    0.5 ≤ (update_glands dt t).pituitary_mass ∧ (update_glands dt t).pituitary_mass ≤ 2 := by
  obtain ⟨x, hx⟩ : ∃ y, (update_glands dt t).pituitary_mass = clip y 0.5 2.0 := ⟨_, rfl⟩
  have h := @clip_mem_bounds x 0.5 2.0 (by norm_num)
  rw [hx]
  exact ⟨by linarith [h.1], by linarith [h.2]⟩

theorem update_glands_gr_receptors_range (dt : ℝ) (t : ExtState) :
    0.3 ≤ (update_glands dt t).gr_receptors ∧ (update_glands dt t).gr_receptors ≤ 1.5 := by
  obtain ⟨x, hx⟩ : ∃ y, (update_glands dt t).gr_receptors = clip y 0.3 1.5 := ⟨_, rfl⟩
  have h := @clip_mem_bounds x 0.3 1.5 (by norm_num)
  rw [hx]
  exact ⟨by linarith [h.1], by linarith [h.2]⟩

theorem update_glands_mr_receptors_range (dt : ℝ) (t : ExtState) :
    0.5 ≤ (update_glands dt t).mr_receptors ∧ (update_glands dt t).mr_receptors ≤ 1.2 := by
  obtain ⟨x, hx⟩ : ∃ y, (update_glands dt t).mr_receptors = clip y 0.5 1.2 := ⟨_, rfl⟩
  have h := @clip_mem_bounds x 0.5 1.2 (by norm_num)
  rw [hx]
  exact ⟨by linarith [h.1], by linarith [h.2]⟩

theorem update_crf_receptors_crfr1_density_range (dt : ℝ) (t : ExtState) :
    0.2 ≤ (update_crf_receptors dt t).crfr1_density ∧ (update_crf_receptors dt t).crfr1_density ≤ 1.5 := by
  obtain ⟨x, hx⟩ : ∃ y, (update_crf_receptors dt t).crfr1_density = clip y 0.2 1.5 := ⟨_, rfl⟩
  have h := @clip_mem_bounds x 0.2 1.5 (by norm_num)
  rw [hx]
  exact ⟨by linarith [h.1], by linarith [h.2]⟩

theorem update_crf_receptors_crfr2_density_range (dt : ℝ) (t : ExtState) :
    0.5 ≤ (update_crf_receptors dt t).crfr2_density ∧ (update_crf_receptors dt t).crfr2_density ≤ 1.8 := by
  obtain ⟨x, hx⟩ : ∃ y, (update_crf_receptors dt t).crfr2_density = clip y 0.5 1.8 := ⟨_, rfl⟩
  have h := @clip_mem_bounds x 0.5 1.8 (by norm_num)
  rw [hx]
  exact ⟨by linarith [h.1], by linarith [h.2]⟩

theorem update_chronic_chronic_stress_index_range (dt : ℝ) (t : ExtState) :
    0 ≤ (update_chronic dt t).chronic_stress_index ∧ (update_chronic dt t).chronic_stress_index ≤ 5 := by
  obtain ⟨x, hx⟩ : ∃ y, (update_chronic dt t).chronic_stress_index = clip y 0.0 5.0 := ⟨_, rfl⟩
  have h := @clip_mem_bounds x 0.0 5.0 (by norm_num)
  rw [hx]
  exact ⟨by linarith [h.1], by linarith [h.2]⟩

theorem magnitudeOf_nonneg (u : ℝ) : 0 ≤ magnitudeOf u := by
  unfold magnitudeOf; split_ifs <;> norm_num

/-- Value of the post-decay, post-injection physical stress pool. -/
theorem update_stress_sp_value (ue um ut : ℝ) (t : ExtState) :
    (update_stress ue um ut t).stress_physical =
      if ue < 0.02 ∧ ut < 0.4 then
        min 10.0 (max 0.0 (t.stress_physical * 0.97 - 0.03) + magnitudeOf um)
      else max 0.0 (t.stress_physical * 0.97 - 0.03) := rfl

/-- Value of the post-decay, post-injection emotional stress pool. -/
theorem update_stress_se_value (ue um ut : ℝ) (t : ExtState) :
    (update_stress ue um ut t).stress_emotional =
      if ue < 0.02 ∧ ¬ (ut < 0.4) then
        min 10.0 (max 0.0 (t.stress_emotional * 0.97 - 0.03) + magnitudeOf um)
      else max 0.0 (t.stress_emotional * 0.97 - 0.03) := rfl

theorem update_stress_sp_range (ue um ut : ℝ) (t : ExtState)
    (h0 : 0 ≤ t.stress_physical) (h1 : t.stress_physical ≤ 10) :
    0 ≤ (update_stress ue um ut t).stress_physical ∧
      (update_stress ue um ut t).stress_physical ≤ 10 := by
  rw [update_stress_sp_value]
  have hm := magnitudeOf_nonneg um
  have hx := le_max_left (0.0:ℝ) (t.stress_physical * 0.97 - 0.03)
  split_ifs
  · exact ⟨le_min (by norm_num) (by linarith),
      le_trans (min_le_left _ _) (by norm_num)⟩
  · exact ⟨by linarith, max_le (by norm_num) (by nlinarith)⟩

theorem update_stress_se_range (ue um ut : ℝ) (t : ExtState)
    (h0 : 0 ≤ t.stress_emotional) (h1 : t.stress_emotional ≤ 10) :
    0 ≤ (update_stress ue um ut t).stress_emotional ∧
      (update_stress ue um ut t).stress_emotional ≤ 10 := by
  rw [update_stress_se_value]
  have hm := magnitudeOf_nonneg um
  have hx := le_max_left (0.0:ℝ) (t.stress_emotional * 0.97 - 0.03)
  split_ifs
  · exact ⟨le_min (by norm_num) (by linarith),
      le_trans (min_le_left _ _) (by norm_num)⟩
  · exact ⟨by linarith, max_le (by norm_num) (by nlinarith)⟩

/-- Time-of-day value after the time-advance block. -/
theorem update_time_th_value (dt : ℝ) (t : ExtState) :
    (update_time dt t).time_hours =
      if t.time_hours + dt ≥ 24.0 then t.time_hours + dt - 24.0
      else t.time_hours + dt := rfl

/-- Day-counter value after the time-advance block. -/
theorem update_time_day_value (dt : ℝ) (t : ExtState) :
    (update_time dt t).day =
      if t.time_hours + dt ≥ 24.0 then t.day + 1 else t.day := rfl

/-- Ultradian phase advance performed inside the cortisol block. -/
theorem update_cortisol_phase_value (dt m n : ℝ) (t : ExtState) :
    (update_cortisol dt m n t).ultradian_phase =
      t.ultradian_phase + 2 * Real.pi * dt / ultradian_period := rfl

/-- Load incurred by one simple-model step, recovered from the
cumulative-load bookkeeping of `step`. -/
def stepLoadS (P : SParams) (s : SState) (action : ℤ) (σ : ℕ → ℝ) : ℝ :=
  (stepS P s action σ).1.cumulative_load - s.cumulative_load

-- ------------------------------------------------------------------
-- The declared ranges of the bounded extended-model state variables
-- (spec section 3 and the clip calls in the source).
-- ------------------------------------------------------------------

def ExtInBounds (s : ExtState) : Prop :=
  (0 ≤ s.crh ∧ s.crh ≤ 400) ∧
  (0 ≤ s.acth ∧ s.acth ≤ 200) ∧
  (0 ≤ s.cortisol ∧ s.cortisol ≤ 60) ∧
  (0.5 ≤ s.avp ∧ s.avp ≤ 30) ∧
  (0 ≤ s.beta_endorphin ∧ s.beta_endorphin ≤ 40) ∧
  (0.1 ≤ s.melanocortin_tone ∧ s.melanocortin_tone ≤ 3) ∧
  (0.1 ≤ s.ucn1 ∧ s.ucn1 ≤ 5) ∧
  (0.1 ≤ s.ucn23 ∧ s.ucn23 ≤ 8) ∧
  (0.5 ≤ s.mr_receptors ∧ s.mr_receptors ≤ 1.2) ∧
  (0.3 ≤ s.gr_receptors ∧ s.gr_receptors ≤ 1.5) ∧
  (0.2 ≤ s.crfr1_density ∧ s.crfr1_density ≤ 1.5) ∧
  (0.5 ≤ s.crfr2_density ∧ s.crfr2_density ≤ 1.8) ∧
  (0.5 ≤ s.pituitary_mass ∧ s.pituitary_mass ≤ 2) ∧
  (0.5 ≤ s.adrenal_mass ∧ s.adrenal_mass ≤ 2) ∧
  (0 ≤ s.nts_drive ∧ s.nts_drive ≤ 1) ∧
  (0 ≤ s.gaba_inhibition ∧ s.gaba_inhibition ≤ 1) ∧
  (0 ≤ s.sfo_drive ∧ s.sfo_drive ≤ 1) ∧
  (0 ≤ s.cea_activity ∧ s.cea_activity ≤ 1) ∧
  (0 ≤ s.mea_activity ∧ s.mea_activity ≤ 1) ∧
  (0 ≤ s.cea_sensitisation ∧ s.cea_sensitisation ≤ 2) ∧
  (0 ≤ s.pfc_inhibition ∧ s.pfc_inhibition ≤ 1) ∧
  (0 ≤ s.lc_activity ∧ s.lc_activity ≤ 1) ∧
  (0 ≤ s.hippocampal_damage ∧ s.hippocampal_damage ≤ 1) ∧
  (-1 ≤ s.arcuate_metabolic_drive ∧ s.arcuate_metabolic_drive ≤ 1) ∧
  (0 ≤ s.stress_physical ∧ s.stress_physical ≤ 10) ∧
  (0 ≤ s.stress_emotional ∧ s.stress_emotional ≤ 10) ∧
  (0 ≤ s.chronic_stress_index ∧ s.chronic_stress_index ≤ 5)

/-- A concrete basal state of the extended model (the documented basal
set-point with mild stress). -/
def extBasal : ExtState where
  crh := 100
  acth := 25
  cortisol := 12
  avp := 4
  beta_endorphin := 5
  melanocortin_tone := 1
  ucn1 := 1
  ucn23 := 1
  mr_receptors := 1
  gr_receptors := 1
  crfr1_density := 1
  crfr2_density := 1
  pituitary_mass := 1
  adrenal_mass := 1
  nts_drive := 0.2
  gaba_inhibition := 0.3
  sfo_drive := 0.2
  cea_activity := 0.2
  mea_activity := 0.2
  cea_sensitisation := 0
  pfc_inhibition := 0.4
  lc_activity := 0.2
  hippocampal_damage := 0
  arcuate_metabolic_drive := 0
  stress_physical := 1
  stress_emotional := 1
  chronic_stress_index := 0
  time_hours := 8
  day := 0
  ultradian_phase := 6
  prev_cortisol := 12
  fast_feedback_signal := 0
  current_step := 0
  cumulative_load := 0
  cortisol_history := List.replicate 50 12

/-- Default constructor parameters of the extended environment. -/
def P0 : ExtParams := ⟨0.1, 2400⟩

/-- A fixed random stream. -/
def σ0 : ℕ → ℝ := fun _ => 0.5

/-- C1: for every valid action and every starting state whose bounded
fields lie in their declared ranges, after `step()` every bounded state
variable of the extended model again lies in its declared closed
interval (cortisol in [0,60], ACTH in [0,200], CRH in [0,400], AVP in
[0.5,30], beta-endorphin in [0,40], adrenal and pituitary mass in
[0.5,2], GR receptors in [0.3,1.5], MR receptors in [0.5,1.2], each
stress pool in [0,10], chronic stress index in [0,5], and every
normalized modulatory tone variable in its declared range), because each
variable is clamped immediately after its update. -/
theorem ext_step_preserves_bounds (P : ExtParams) (s : ExtState) (a : ℤ) (σ : ℕ → ℝ)
    (hs : ExtInBounds s) (ha0 : 0 ≤ a) (ha1 : a < 27) :
    ExtInBounds (stepExt P s a σ).1 := by
  have frS0 := stage0_frame
  have frS1 := stage1_frame
  have frProjE := stepExt_state_proj
  have frActh := update_acth_frame
  have frAmy := update_amygdala_frame
  have frArc := update_arcuate_frame
  have frAvp := update_avp_frame
  have frChronic := update_chronic_frame
  have frCortisol := update_cortisol_frame
  have frCrf := update_crf_receptors_frame
  have frCrh := update_crh_frame
  have frGlands := update_glands_frame
  have frHippo := update_hippocampal_damage_frame
  have frLc := update_lc_frame
  have frPfc := update_pfc_frame
  have frPomc := update_pomc_products_frame
  have frSfo := update_sfo_frame
  have frStress := update_stress_frame
  have frTime := update_time_frame
  have frUp := update_upstream_signals_frame
  have frUro := update_urocortins_frame
  obtain ⟨-, -, -, -, -, -, -, -, -, -, -, -, -, -, -, -, -, -, -, -, -, -, -, -,
    hsp, hse, -⟩ := hs
  unfold ExtInBounds
  simp only [frProjE, stepPost, stepCore, frChronic, frStress,
    frTime, frCrf, frGlands, frAvp,
    frPomc, frCortisol, frActh, frCrh,
    frHippo, frUro, frUp,
    frArc, frSfo, frLc, frPfc,
    frAmy, frS1, frS0]
  refine ⟨?_, ?_, ?_, ?_, ?_, ?_, ?_, ?_, ?_, ?_, ?_, ?_, ?_, ?_, ?_, ?_, ?_, ?_,
    ?_, ?_, ?_, ?_, ?_, ?_, ?_, ?_, ?_⟩
  · exact update_crh_crh_range _ _ _ _
  · exact update_acth_acth_range _ _ _ _
  · exact update_cortisol_cortisol_range _ _ _ _
  · exact update_avp_avp_range _ _
  · exact update_pomc_products_beta_endorphin_range _ _
  · exact update_pomc_products_melanocortin_tone_range _ _
  · exact update_urocortins_ucn1_range _ _
  · exact update_urocortins_ucn23_range _ _
  · exact update_glands_mr_receptors_range _ _
  · exact update_glands_gr_receptors_range _ _
  · exact update_crf_receptors_crfr1_density_range _ _
  · exact update_crf_receptors_crfr2_density_range _ _
  · exact update_glands_pituitary_mass_range _ _
  · exact update_glands_adrenal_mass_range _ _
  · exact update_upstream_signals_nts_drive_range _ _
  · exact update_upstream_signals_gaba_inhibition_range _ _
  · exact update_sfo_sfo_drive_range _ _
  · exact update_amygdala_cea_activity_range _ _ _ _
  · exact update_amygdala_mea_activity_range _ _ _ _
  · exact update_amygdala_cea_sensitisation_range _ _ _ _
  · exact update_pfc_pfc_inhibition_range _ _
  · exact update_lc_lc_activity_range _ _
  · exact update_hippocampal_damage_hippocampal_damage_range _ _ _
  · exact update_arcuate_arcuate_metabolic_drive_range _ _
  · refine update_stress_sp_range _ _ _ _ ?_ ?_ <;>
      simp only [frTime, frCrf, frGlands,
        frAvp, frPomc, frCortisol,
        frActh, frCrh, frHippo,
        frUro, frUp, frArc,
        frSfo, frLc, frPfc, frAmy,
        frS1, frS0]
    · exact hsp.1
    · exact hsp.2
  · refine update_stress_se_range _ _ _ _ ?_ ?_ <;>
      simp only [frTime, frCrf, frGlands,
        frAvp, frPomc, frCortisol,
        frActh, frCrh, frHippo,
        frUro, frUp, frArc,
        frSfo, frLc, frPfc, frAmy,
        frS1, frS0]
    · exact hse.1
    · exact hse.2
  · exact update_chronic_chronic_stress_index_range _ _

/-- Witness for C1 at the explicit basal state and the no-op action 13. -/
theorem ext_step_preserves_bounds_witness :
    ExtInBounds extBasal ∧ (0 : ℤ) ≤ 13 ∧ (13 : ℤ) < 27 ∧
      ExtInBounds (stepExt P0 extBasal 13 σ0).1 :=
  ⟨by unfold ExtInBounds extBasal; norm_num, by norm_num, by norm_num,
    ext_step_preserves_bounds P0 extBasal 13 σ0
      (by unfold ExtInBounds extBasal; norm_num) (by norm_num) (by norm_num)⟩

-- ------------------------------------------------------------------
-- Small bookkeeping lemmas shared by several results.
-- ------------------------------------------------------------------

/-- `stepPost` leaves the episode bookkeeping counters untouched. -/
theorem stepPost_untouched (P : ExtParams) (s : ExtState) (a : ℤ) (σ : ℕ → ℝ) :
    (stepPost P s a σ).current_step = s.current_step ∧
    (stepPost P s a σ).cumulative_load = s.cumulative_load := by
  have frS0 := stage0_frame
  have frS1 := stage1_frame
  have frActh := update_acth_frame
  have frAmy := update_amygdala_frame
  have frArc := update_arcuate_frame
  have frAvp := update_avp_frame
  have frChronic := update_chronic_frame
  have frCortisol := update_cortisol_frame
  have frCrf := update_crf_receptors_frame
  have frCrh := update_crh_frame
  have frGlands := update_glands_frame
  have frHippo := update_hippocampal_damage_frame
  have frLc := update_lc_frame
  have frPfc := update_pfc_frame
  have frPomc := update_pomc_products_frame
  have frSfo := update_sfo_frame
  have frStress := update_stress_frame
  have frTime := update_time_frame
  have frUp := update_upstream_signals_frame
  have frUro := update_urocortins_frame
  simp only [stepPost, stepCore, frChronic, frStress,
    frTime, frCrf, frGlands, frAvp,
    frPomc, frCortisol, frActh, frCrh,
    frHippo, frUro, frUp,
    frArc, frSfo, frLc, frPfc,
    frAmy, frS1, frS0]
  exact ⟨trivial, trivial⟩

theorem stepExt_counter (P : ExtParams) (s : ExtState) (a : ℤ) (σ : ℕ → ℝ) :
    (stepExt P s a σ).1.current_step = s.current_step + 1 := by
  have frProjE := stepExt_state_proj
  simp only [frProjE]
  rw [(stepPost_untouched P s a σ).1]

theorem stepExt_done_formula (P : ExtParams) (s : ExtState) (a : ℤ) (σ : ℕ → ℝ) :
    (stepExt P s a σ).2.2 = decide (P.max_steps ≤ s.current_step + 1) := by
  rw [stepExt_done_proj, (stepPost_untouched P s a σ).1]

theorem stepExt_cum (P : ExtParams) (s : ExtState) (a : ℤ) (σ : ℕ → ℝ) :
    (stepExt P s a σ).1.cumulative_load = s.cumulative_load + stepLoadVal P s a σ := by
  have frProjE := stepExt_state_proj
  simp only [frProjE]
  rw [(stepPost_untouched P s a σ).2]

theorem stepS_counter (Q : SParams) (t : SState) (b : ℤ) (τ : ℕ → ℝ) :
    (stepS Q t b τ).1.current_step = t.current_step + 1 := rfl

theorem stepS_cum (Q : SParams) (t : SState) (b : ℤ) (τ : ℕ → ℝ) :
    (stepS Q t b τ).1.cumulative_load = t.cumulative_load + sLoadVal Q t b τ := rfl

theorem stepLoadExt_eq_val (P : ExtParams) (s : ExtState) (a : ℤ) (σ : ℕ → ℝ) :
    stepLoadExt P s a σ = stepLoadVal P s a σ := by
  unfold stepLoadExt
  rw [stepExt_cum]
  ring

theorem stepLoadS_eq_val (Q : SParams) (t : SState) (b : ℤ) (τ : ℕ → ℝ) :
    stepLoadS Q t b τ = sLoadVal Q t b τ := by
  unfold stepLoadS
  rw [stepS_cum]
  ring

-- ------------------------------------------------------------------
-- C9: the arcuate contributions are even functions of the drive.
-- ------------------------------------------------------------------

/-- C9: in the extended model step, the arcuate contributions to hormone
production are even functions of the arcuate metabolic drive `d`: the
CRH production boost equals `10 * |d|` and the ACTH production boost
equals `5 * |d|`, so both boosts are non-negative and unchanged when `d`
is replaced by `-d` (both polarities are net excitatory). -/
theorem arcuate_boosts_even :
    (∀ d : ℝ, arcuate_crh_boost d = 10.0 * |d| ∧ arcuate_acth_boost d = 5.0 * |d|) ∧
    (∀ d : ℝ, arcuate_crh_boost (-d) = arcuate_crh_boost d ∧
      arcuate_acth_boost (-d) = arcuate_acth_boost d) ∧
    (∀ d : ℝ, 0 ≤ arcuate_crh_boost d ∧ 0 ≤ arcuate_acth_boost d) := by
  refine ⟨fun d => ⟨rfl, rfl⟩, fun d => ?_, fun d => ?_⟩
  · unfold arcuate_crh_boost arcuate_acth_boost
    rw [abs_neg]
    exact ⟨rfl, rfl⟩
  · unfold arcuate_crh_boost arcuate_acth_boost
    constructor
    · have := abs_nonneg d
      nlinarith
    · have := abs_nonneg d
      nlinarith

-- ------------------------------------------------------------------
-- C10: reset randomizes only hormones, stress, time and phase; the
-- structural and chronic variables are restored deterministically.
-- ------------------------------------------------------------------

/-- C10: `reset()` randomizes only the hormone concentrations, the
stress pools, the time-of-day and the ultradian phase; every structural
and chronic variable is deterministically restored to its exact basal
value regardless of prior state (gland masses, MR/GR receptor
densities, CRFR1/CRFR2 densities, melanocortin tone and urocortin pools
to 1.0; CeA sensitisation, hippocampal damage, chronic stress index,
day counter, step counter and cumulative load to 0), and the cortisol
history is refilled with exactly 50 copies of the freshly drawn initial
cortisol value.  (`resetExt` takes only the random draws, so the result
is independent of any prior state by construction; the simple model's
`reset` restores the same structural fields.) -/
theorem reset_restores_structural_state (r q : ℕ → ℝ) :
    (resetExt r).crh = 100.0 + r 0 ∧
    (resetExt r).acth = 25.0 + r 1 ∧
    (resetExt r).cortisol = 12.0 + r 2 ∧
    (resetExt r).avp = 4.0 + r 3 ∧
    (resetExt r).beta_endorphin = 5.0 + r 4 ∧
    (resetExt r).stress_physical = r 5 ∧
    (resetExt r).stress_emotional = r 6 ∧
    (resetExt r).time_hours = r 7 ∧
    (resetExt r).ultradian_phase = r 8 ∧
    (resetExt r).melanocortin_tone = 1.0 ∧
    (resetExt r).ucn1 = 1.0 ∧
    (resetExt r).ucn23 = 1.0 ∧
    (resetExt r).mr_receptors = 1.0 ∧
    (resetExt r).gr_receptors = 1.0 ∧
    (resetExt r).crfr1_density = 1.0 ∧
    (resetExt r).crfr2_density = 1.0 ∧
    (resetExt r).pituitary_mass = 1.0 ∧
    (resetExt r).adrenal_mass = 1.0 ∧
    (resetExt r).nts_drive = 0.2 ∧
    (resetExt r).gaba_inhibition = 0.3 ∧
    (resetExt r).sfo_drive = 0.2 ∧
    (resetExt r).cea_activity = 0.2 ∧
    (resetExt r).mea_activity = 0.2 ∧
    (resetExt r).pfc_inhibition = 0.4 ∧
    (resetExt r).lc_activity = 0.2 ∧
    (resetExt r).cea_sensitisation = 0.0 ∧
    (resetExt r).hippocampal_damage = 0.0 ∧
    (resetExt r).arcuate_metabolic_drive = 0.0 ∧
    (resetExt r).chronic_stress_index = 0.0 ∧
    (resetExt r).day = 0 ∧
    (resetExt r).current_step = 0 ∧
    (resetExt r).cumulative_load = 0.0 ∧
    (resetExt r).cortisol_history = List.replicate 50 ((resetExt r).cortisol) ∧
    (resetS q).pituitary_mass = 1.0 ∧
    (resetS q).adrenal_mass = 1.0 ∧
    (resetS q).mr_receptors = 1.0 ∧
    (resetS q).gr_receptors = 1.0 ∧
    (resetS q).day = 0 ∧
    (resetS q).current_step = 0 ∧
    (resetS q).cumulative_load = 0.0 ∧
    (resetS q).cortisol_history = List.replicate 50 ((resetS q).cortisol) :=
  ⟨rfl, rfl, rfl, rfl, rfl, rfl, rfl, rfl, rfl, rfl, rfl, rfl, rfl, rfl, rfl,
   rfl, rfl, rfl, rfl, rfl, rfl, rfl, rfl, rfl, rfl, rfl, rfl, rfl, rfl, rfl,
   rfl, rfl, rfl, rfl, rfl, rfl, rfl, rfl, rfl, rfl, rfl⟩

-- ------------------------------------------------------------------
-- C6: done flips exactly at the configured horizon.
-- ------------------------------------------------------------------

/-- C6: starting from `reset()` (step counter 0), for every action
sequence the k-th call to `step()` (k counted from 1) returns
`done = false` for all k < max_steps and `done = true` exactly from
k = max_steps on, where max_steps is the configured horizon (2400 by
default for the extended model; infant 240, child 720, adolescent 1440,
adult 2400 in the simple model). -/
theorem done_exactly_at_horizon (P : ExtParams) (r : ℕ → ℝ) (acts : ℕ → ℤ)
    (rnds : ℕ → ℕ → ℝ) :
    (∀ k, (iterExt P r acts rnds k).current_step = k) ∧
    (∀ k, ((stepExt P (iterExt P r acts rnds k) (acts k) (rnds k)).2.2 = true ↔
      P.max_steps ≤ k + 1)) ∧
    stage_max_steps "infant" = 240 ∧
    stage_max_steps "child" = 720 ∧
    stage_max_steps "adolescent" = 1440 ∧
    stage_max_steps "adult" = 2400 := by
  have hc : ∀ k, (iterExt P r acts rnds k).current_step = k := by
    intro k
    induction k with
    | zero => rfl
    | succ n ih => rw [iterExt, stepExt_counter, ih]
  refine ⟨hc, ?_, by decide, by decide, by decide, by decide⟩
  intro k
  rw [stepExt_done_formula, hc]
  exact decide_eq_true_iff

-- ------------------------------------------------------------------
-- C3: no action validation; any integer is silently decoded mod 27.
-- ------------------------------------------------------------------

/-- C3 (counterexample to the claim): `step(27)` does not fail and does
not leave the environment unchanged; it silently decodes the
out-of-range action 27 exactly like the in-range action 0, and mutates
the state (the step counter advances). -/
theorem invalid_action_silently_decoded :
    stepExt P0 extBasal 27 σ0 = stepExt P0 extBasal 0 σ0 ∧
    (stepExt P0 extBasal 27 σ0).1.current_step = extBasal.current_step + 1 := by
  have e1 : crh_mod_of 27 = crh_mod_of 0 := by norm_num [crh_mod_of]
  have e2 : acth_mod_of 27 = acth_mod_of 0 := by norm_num [acth_mod_of]
  have e3 : cortisol_mod_of 27 = cortisol_mod_of 0 := by norm_num [cortisol_mod_of]
  have hpost : stepPost P0 extBasal 27 σ0 = stepPost P0 extBasal 0 σ0 := by
    rw [stepPost, stepPost, e1, e2, e3]
  have hload : stepLoadVal P0 extBasal 27 σ0 = stepLoadVal P0 extBasal 0 σ0 := by
    rw [stepLoadVal, stepLoadVal, hpost]
  constructor
  · simp only [stepExt]
    rw [hpost, hload]
  · exact stepExt_counter P0 extBasal 27 σ0

/-- C3 (amended): `step()` performs no range validation in either model:
every integer action is accepted and silently decoded through the
base-3 modifiers, which only depend on the action modulo 27, and the
step always executes (the step counter advances). -/
theorem step_accepts_any_integer_action :
    (∀ (P : ExtParams) (s : ExtState) (a : ℤ) (σ : ℕ → ℝ),
      stepExt P s a σ = stepExt P s (a % 27) σ ∧
      (stepExt P s a σ).1.current_step = s.current_step + 1) ∧
    (∀ (Q : SParams) (t : SState) (a : ℤ) (τ : ℕ → ℝ),
      stepS Q t a τ = stepS Q t (a % 27) τ ∧
      (stepS Q t a τ).1.current_step = t.current_step + 1) := by
  have e1 : ∀ a : ℤ, crh_mod_of (a % 27) = crh_mod_of a := by
    intro a
    unfold crh_mod_of
    have h : a % 27 % 3 = a % 3 := by omega
    rw [h]
  have e2 : ∀ a : ℤ, acth_mod_of (a % 27) = acth_mod_of a := by
    intro a
    unfold acth_mod_of
    have h : a % 27 / 3 % 3 = a / 3 % 3 := by omega
    rw [h]
  have e3 : ∀ a : ℤ, cortisol_mod_of (a % 27) = cortisol_mod_of a := by
    intro a
    unfold cortisol_mod_of
    have h : a % 27 / 9 % 3 = a / 9 % 3 := by omega
    rw [h]
  constructor
  · intro P s a σ
    have hpost : stepPost P s (a % 27) σ = stepPost P s a σ := by
      rw [stepPost, stepPost, e1, e2, e3]
    have hload : stepLoadVal P s (a % 27) σ = stepLoadVal P s a σ := by
      rw [stepLoadVal, stepLoadVal, hpost]
    constructor
    · simp only [stepExt]
      rw [hpost, hload]
    · exact stepExt_counter P s a σ
  · intro Q t a τ
    have hpost : sPost Q t (a % 27) τ = sPost Q t a τ := by
      rw [sPost, sPost, e1, e2, e3]
    have hload : sLoadVal Q t (a % 27) τ = sLoadVal Q t a τ := by
      rw [sLoadVal, sLoadVal, hpost]
    constructor
    · simp only [stepS]
      rw [hpost, hload]
    · exact stepS_counter Q t a τ

-- ------------------------------------------------------------------
-- C8: step is deterministic given its random draws; only the
-- documented draws are consumed.
-- ------------------------------------------------------------------

/-- A concrete basal state of the simple model. -/
def sBasal : SState where
  cortisol := 12
  acth := 25
  crh := 100
  pituitary_mass := 1
  adrenal_mass := 1
  mr_receptors := 1
  gr_receptors := 1
  stress_level := 0
  time_hours := 8
  day := 0
  ultradian_phase := 0
  current_step := 0
  cumulative_load := 0
  cortisol_history := List.replicate 50 12

/-- Adult-stage parameters of the simple environment. -/
def Qadult : SParams := ⟨0.1, "adult"⟩

/-- C8: `step` is deterministic given its random source.  Runs from the
same full state and action whose random streams agree on the draws the
step consumes — the ultradian noise, the stress-event uniform, the
magnitude draw (and, in the extended model, the physical/emotional
draw) — produce identical post states, observation vectors, rewards and
done flags; no other randomness enters. -/
theorem step_deterministic (P : ExtParams) (Q : SParams) (s : ExtState) (t : SState)
    (a b : ℤ) (σ1 σ2 τ1 τ2 : ℕ → ℝ)
    (hσ : ∀ i, i < 4 → σ1 i = σ2 i) (hτ : ∀ i, i < 3 → τ1 i = τ2 i) :
    stepExt P s a σ1 = stepExt P s a σ2 ∧
    get_state_ext (stepExt P s a σ1).1 = get_state_ext (stepExt P s a σ2).1 ∧
    stepS Q t b τ1 = stepS Q t b τ2 := by
  have e0 := hσ 0 (by norm_num)
  have e1 := hσ 1 (by norm_num)
  have e2 := hσ 2 (by norm_num)
  have e3 := hσ 3 (by norm_num)
  have f0 := hτ 0 (by norm_num)
  have f1 := hτ 1 (by norm_num)
  have f2 := hτ 2 (by norm_num)
  have hpost : stepPost P s a σ1 = stepPost P s a σ2 := by
    rw [stepPost, stepPost, e0, e1, e2, e3]
  have hload : stepLoadVal P s a σ1 = stepLoadVal P s a σ2 := by
    rw [stepLoadVal, stepLoadVal, hpost]
  have hext : stepExt P s a σ1 = stepExt P s a σ2 := by
    simp only [stepExt]
    rw [hpost, hload]
  have hpost2 : sPost Q t b τ1 = sPost Q t b τ2 := by
    rw [sPost, sPost, f0, f1, f2]
  have hload2 : sLoadVal Q t b τ1 = sLoadVal Q t b τ2 := by
    rw [sLoadVal, sLoadVal, hpost2]
  refine ⟨hext, by rw [hext], ?_⟩
  simp only [stepS]
  rw [hpost2, hload2]

/-- Witness for C8 at concrete states and equal streams. -/
theorem step_deterministic_witness :
    stepExt P0 extBasal 0 σ0 = stepExt P0 extBasal 0 σ0 ∧
    get_state_ext (stepExt P0 extBasal 0 σ0).1 = get_state_ext (stepExt P0 extBasal 0 σ0).1 ∧
    stepS Qadult sBasal 0 σ0 = stepS Qadult sBasal 0 σ0 :=
  step_deterministic P0 Qadult extBasal sBasal 0 0 σ0 σ0 σ0 σ0
    (fun i h => rfl) (fun i h => rfl)

-- ------------------------------------------------------------------
-- C7: temporal state after step.
-- ------------------------------------------------------------------

/-- C7 (amended): after every call to `step()`, time-of-day lies in
[0, 24) with the day counter incremented by one exactly when the time
wraps past 24h; the ultradian oscillator phase, however, is only
advanced by `2·π·dt/period` and is never wrapped modulo 2π. -/
theorem time_wraps_phase_grows (P : ExtParams) (s : ExtState) (a : ℤ) (σ : ℕ → ℝ)
    (h1 : 0 ≤ s.time_hours) (h2 : s.time_hours < 24) (h3 : 0 < P.dt) (h4 : P.dt ≤ 24) :
    (0 ≤ (stepExt P s a σ).1.time_hours ∧ (stepExt P s a σ).1.time_hours < 24) ∧
    (stepExt P s a σ).1.day = (if s.time_hours + P.dt ≥ 24.0 then s.day + 1 else s.day) ∧
    (stepExt P s a σ).1.ultradian_phase =
      s.ultradian_phase + 2 * Real.pi * P.dt / ultradian_period := by
  have frS0 := stage0_frame
  have frS1 := stage1_frame
  have frProjE := stepExt_state_proj
  have frActh := update_acth_frame
  have frAmy := update_amygdala_frame
  have frArc := update_arcuate_frame
  have frAvp := update_avp_frame
  have frChronic := update_chronic_frame
  have frCortisol := update_cortisol_frame
  have frCrf := update_crf_receptors_frame
  have frCrh := update_crh_frame
  have frGlands := update_glands_frame
  have frHippo := update_hippocampal_damage_frame
  have frLc := update_lc_frame
  have frPfc := update_pfc_frame
  have frPomc := update_pomc_products_frame
  have frSfo := update_sfo_frame
  have frStress := update_stress_frame
  have frTime := update_time_frame
  have frUp := update_upstream_signals_frame
  have frUro := update_urocortins_frame
  have hth : (stepExt P s a σ).1.time_hours =
      (if s.time_hours + P.dt ≥ 24.0 then s.time_hours + P.dt - 24.0
       else s.time_hours + P.dt) := by
    simp only [frProjE, stepPost, stepCore, frChronic,
      frStress, update_time_th_value, frCrf,
      frGlands, frAvp, frPomc,
      frCortisol, frActh, frCrh,
      frHippo, frUro,
      frUp, frArc, frSfo,
      frLc, frPfc, frAmy, frS1, frS0]
  have hday : (stepExt P s a σ).1.day =
      (if s.time_hours + P.dt ≥ 24.0 then s.day + 1 else s.day) := by
    simp only [frProjE, stepPost, stepCore, frChronic,
      frStress, update_time_day_value, frCrf,
      frGlands, frAvp, frPomc,
      frCortisol, frActh, frCrh,
      frHippo, frUro,
      frUp, frArc, frSfo,
      frLc, frPfc, frAmy, frS1, frS0]
  have hph : (stepExt P s a σ).1.ultradian_phase =
      s.ultradian_phase + 2 * Real.pi * P.dt / ultradian_period := by
    simp only [frProjE, stepPost, stepCore, frChronic,
      frStress, frTime, frCrf,
      frGlands, frAvp, frPomc,
      update_cortisol_phase_value, frActh, frCrh,
      frHippo, frUro,
      frUp, frArc, frSfo,
      frLc, frPfc, frAmy, frS1, frS0]
  refine ⟨?_, hday, hph⟩
  rw [hth]
  split_ifs with h
  · constructor <;> linarith
  · push_neg at h
    constructor <;> linarith

/-- Witness for C7 (amended) at the basal state. -/
theorem time_wraps_phase_grows_witness :
    (0 ≤ extBasal.time_hours ∧ extBasal.time_hours < 24 ∧ 0 < P0.dt ∧ P0.dt ≤ 24) ∧
    ((0 ≤ (stepExt P0 extBasal 5 σ0).1.time_hours ∧
        (stepExt P0 extBasal 5 σ0).1.time_hours < 24) ∧
      (stepExt P0 extBasal 5 σ0).1.day =
        (if extBasal.time_hours + P0.dt ≥ 24.0 then extBasal.day + 1 else extBasal.day) ∧
      (stepExt P0 extBasal 5 σ0).1.ultradian_phase =
        extBasal.ultradian_phase + 2 * Real.pi * P0.dt / ultradian_period) :=
  ⟨⟨by simp only [extBasal]; norm_num, by simp only [extBasal]; norm_num,
    by simp only [P0]; norm_num, by simp only [P0]; norm_num⟩,
   time_wraps_phase_grows P0 extBasal 5 σ0
     (by simp only [extBasal]; norm_num) (by simp only [extBasal]; norm_num)
     (by simp only [P0]; norm_num) (by simp only [P0]; norm_num)⟩

/-- C7 (counterexample to the claim as stated): from a state whose
ultradian phase is inside [0, 2π), one step advances the phase past 2π;
the code never reduces the phase modulo 2π. -/
theorem ultradian_phase_exceeds_two_pi :
    (0 ≤ extBasal.ultradian_phase ∧ extBasal.ultradian_phase < 2 * Real.pi) ∧
    ¬ ((stepExt P0 extBasal 0 σ0).1.ultradian_phase < 2 * Real.pi) := by
  have frS0 := stage0_frame
  have frS1 := stage1_frame
  have frProjE := stepExt_state_proj
  have frActh := update_acth_frame
  have frAmy := update_amygdala_frame
  have frArc := update_arcuate_frame
  have frAvp := update_avp_frame
  have frChronic := update_chronic_frame
  have frCrf := update_crf_receptors_frame
  have frCrh := update_crh_frame
  have frGlands := update_glands_frame
  have frHippo := update_hippocampal_damage_frame
  have frLc := update_lc_frame
  have frPfc := update_pfc_frame
  have frPomc := update_pomc_products_frame
  have frSfo := update_sfo_frame
  have frStress := update_stress_frame
  have frTime := update_time_frame
  have frUp := update_upstream_signals_frame
  have frUro := update_urocortins_frame
  have hph : (stepExt P0 extBasal 0 σ0).1.ultradian_phase =
      extBasal.ultradian_phase + 2 * Real.pi * P0.dt / ultradian_period := by
    simp only [frProjE, stepPost, stepCore, frChronic,
      frStress, frTime, frCrf,
      frGlands, frAvp, frPomc,
      update_cortisol_phase_value, frActh, frCrh,
      frHippo, frUro,
      frUp, frArc, frSfo,
      frLc, frPfc, frAmy, frS1, frS0]
  have hpi1 := Real.pi_gt_three
  have hpi2 := Real.pi_lt_315
  refine ⟨⟨by simp only [extBasal]; norm_num, ?_⟩, ?_⟩
  · simp only [extBasal]
    nlinarith
  · rw [hph, not_lt]
    simp only [extBasal, P0, ultradian_period]
    have hdiv : 2 * Real.pi * (0.1 : ℝ) / 1.5 = Real.pi * (2 / 15) := by ring
    rw [hdiv]
    nlinarith

-- ------------------------------------------------------------------
-- C4: receptor occupancy.
-- ------------------------------------------------------------------

theorem occ_strictMono (k : ℝ) {x y : ℝ} (hk : 0 < k) (hx : 0 ≤ x) (hxy : x < y) :
    x / (k + x) < y / (k + y) := by
  rw [div_lt_div_iff (by linarith) (by linarith)]
  nlinarith

theorem occ_tendsto_one (k : ℝ) (hk : 0 < k) :
    Filter.Tendsto (fun c : ℝ => c / (k + c)) Filter.atTop (nhds 1) := by
  have h1 : Filter.Tendsto (fun c : ℝ => k + c) Filter.atTop Filter.atTop :=
    Filter.tendsto_atTop_add_const_left _ k Filter.tendsto_id
  have h2 : Filter.Tendsto (fun c : ℝ => k / (k + c)) Filter.atTop (nhds 0) :=
    Filter.Tendsto.div_atTop tendsto_const_nhds h1
  have h3 : Filter.Tendsto (fun c : ℝ => 1 - k / (k + c)) Filter.atTop (nhds 1) := by
    have h4 := h2.const_sub 1
    simpa using h4
  refine Filter.Tendsto.congr' ?_ h3
  filter_upwards [Filter.eventually_gt_atTop 0] with c hc
  have hne : k + c ≠ 0 := by linarith
  field_simp

/-- C4: for each receptor type, occupancy as a function of the cortisol
molar concentration `c ≥ 0` equals `c / (Kd + c)` with MR Kd = 0.5 and
GR Kd = 5.0; it is strictly monotonically increasing in `c`, equals
exactly 0 at `c = 0`, tends to 1 as `c → ∞`, and for every `c ≥ 0` the
MR occupancy is at least the GR occupancy (MR saturates first). -/
theorem receptor_occupancy_properties :
    MR_KD = 0.5 ∧ GR_KD = 5.0 ∧
    (∀ c : ℝ, mr_occupancy c = c / (0.5 + c) ∧ gr_occupancy c = c / (5.0 + c)) ∧
    (∀ x y : ℝ, 0 ≤ x → x < y →
      mr_occupancy x < mr_occupancy y ∧ gr_occupancy x < gr_occupancy y) ∧
    mr_occupancy 0 = 0 ∧ gr_occupancy 0 = 0 ∧
    Filter.Tendsto mr_occupancy Filter.atTop (nhds 1) ∧
    Filter.Tendsto gr_occupancy Filter.atTop (nhds 1) ∧
    (∀ c : ℝ, 0 ≤ c → gr_occupancy c ≤ mr_occupancy c) := by
  refine ⟨rfl, rfl, fun c => ⟨rfl, rfl⟩, ?_, ?_, ?_, ?_, ?_, ?_⟩
  · intro x y hx hxy
    exact ⟨occ_strictMono 0.5 (by norm_num) hx hxy, occ_strictMono 5.0 (by norm_num) hx hxy⟩
  · simp [mr_occupancy]
  · simp [gr_occupancy]
  · exact occ_tendsto_one 0.5 (by norm_num)
  · exact occ_tendsto_one 5.0 (by norm_num)
  · intro c hc
    simp only [mr_occupancy, gr_occupancy, MR_KD, GR_KD]
    rw [div_le_div_iff (by linarith) (by linarith)]
    nlinarith

/-- Witness for C4 at concrete concentrations. -/
theorem receptor_occupancy_witness :
    (0 : ℝ) ≤ 1 ∧ (1 : ℝ) < 2 ∧
    mr_occupancy 1 < mr_occupancy 2 ∧ gr_occupancy 1 < gr_occupancy 2 ∧
    gr_occupancy 1 ≤ mr_occupancy 1 :=
  ⟨by norm_num, by norm_num,
   (receptor_occupancy_properties.2.2.2.1 1 2 (by norm_num) (by norm_num)).1,
   (receptor_occupancy_properties.2.2.2.1 1 2 (by norm_num) (by norm_num)).2,
   receptor_occupancy_properties.2.2.2.2.2.2.2.2 1 (by norm_num)⟩

-- ------------------------------------------------------------------
-- C5: load non-negativity and the reward formula.
-- ------------------------------------------------------------------

theorem allostatic_load_nonneg (s : ExtState) (m g : ℝ) :
    0 ≤ allostatic_load s m g := by
  obtain ⟨x, hx⟩ : ∃ x, allostatic_load s m g = max 0.0 x := ⟨_, rfl⟩
  have h := le_max_left (0.0 : ℝ) x
  rw [hx]
  linarith

theorem deviation_cost_nonneg (c : ℝ) : 0 ≤ deviation_cost c := by
  unfold deviation_cost; split_ifs <;> positivity

theorem tissue_damage_nonneg (c : ℝ) : 0 ≤ tissue_damage c := by
  unfold tissue_damage
  split_ifs <;> nlinarith [sq_nonneg ((c - 35) / 10), sq_nonneg ((2 - c) / 2)]

theorem acth_cost_nonneg (a : ℝ) : 0 ≤ acth_cost a := by
  unfold acth_cost; split_ifs <;> positivity

theorem crh_cost_nonneg (c : ℝ) : 0 ≤ crh_cost c := by
  unfold crh_cost; split_ifs <;> positivity

theorem mr_cost_nonneg (m : ℝ) : 0 ≤ mr_cost m := by
  unfold mr_cost; positivity

theorem gr_cost_nonneg (sl g : ℝ) : 0 ≤ gr_cost sl g := by
  unfold gr_cost; positivity

theorem receptor_cost_nonneg (m g : ℝ) : 0 ≤ receptor_cost m g := by
  unfold receptor_cost; positivity

theorem gland_cost_nonneg (a p : ℝ) : 0 ≤ gland_cost a p := by
  unfold gland_cost
  split_ifs <;> nlinarith [sq_nonneg (a - 1.0), sq_nonneg (p - 1.0)]

theorem instability_cost_nonneg (h : List ℝ) : 0 ≤ instability_cost h := by
  unfold instability_cost
  split_ifs with h1 h2
  · linarith
  · norm_num
  · norm_num

theorem stress_response_cost_nonneg (sl c : ℝ) : 0 ≤ stress_response_cost sl c := by
  unfold stress_response_cost
  split_ifs <;> positivity

theorem vulnerability_factor_nonneg (stage : String) :
    0 ≤ 2.0 - stage_stress_resilience stage := by
  unfold stage_stress_resilience
  split_ifs <;> norm_num

theorem allostatic_load_simple_nonneg (Q : SParams) (t : SState) (m g : ℝ) :
    0 ≤ allostatic_load_simple Q t m g := by
  unfold allostatic_load_simple
  have h1 := deviation_cost_nonneg t.cortisol
  have h2 := tissue_damage_nonneg t.cortisol
  have h3 := acth_cost_nonneg t.acth
  have h4 := crh_cost_nonneg t.crh
  have h5 := mr_cost_nonneg m
  have h6 := gr_cost_nonneg t.stress_level g
  have h7 := receptor_cost_nonneg t.mr_receptors t.gr_receptors
  have h8 := gland_cost_nonneg t.adrenal_mass t.pituitary_mass
  have h9 := instability_cost_nonneg t.cortisol_history
  have h10 := stress_response_cost_nonneg t.stress_level t.cortisol
  have h11 := vulnerability_factor_nonneg Q.stage
  have hsum : (0:ℝ) ≤ 0.05
      + deviation_cost t.cortisol
      + tissue_damage t.cortisol
      + acth_cost t.acth
      + crh_cost t.crh
      + mr_cost m
      + gr_cost t.stress_level g
      + receptor_cost t.mr_receptors t.gr_receptors
      + gland_cost t.adrenal_mass t.pituitary_mass
      + instability_cost t.cortisol_history
      + stress_response_cost t.stress_level t.cortisol := by linarith
  exact mul_nonneg hsum h11

/-- C5: for every step, the allostatic load is non-negative, the
returned reward equals exactly `5.0` minus that load (hence the reward
is at most `5.0`), and in the simple model the load is the sum of the
named cost components multiplied by the vulnerability factor
`2 - stress_resilience` of the configured developmental stage. -/
theorem load_reward_properties :
    (∀ (P : ExtParams) (s : ExtState) (a : ℤ) (σ : ℕ → ℝ),
      0 ≤ stepLoadExt P s a σ ∧
      (stepExt P s a σ).2.1 = 5.0 - stepLoadExt P s a σ ∧
      (stepExt P s a σ).2.1 ≤ 5.0) ∧
    (∀ (Q : SParams) (t : SState) (b : ℤ) (τ : ℕ → ℝ),
      0 ≤ stepLoadS Q t b τ ∧
      (stepS Q t b τ).2.1 = 5.0 - stepLoadS Q t b τ ∧
      (stepS Q t b τ).2.1 ≤ 5.0 ∧
      stepLoadS Q t b τ =
        (0.05
          + deviation_cost (sPost Q t b τ).cortisol
          + tissue_damage (sPost Q t b τ).cortisol
          + acth_cost (sPost Q t b τ).acth
          + crh_cost (sPost Q t b τ).crh
          + mr_cost (mr_occupancy (cortisol_to_nmol t.cortisol))
          + gr_cost (sPost Q t b τ).stress_level (gr_occupancy (cortisol_to_nmol t.cortisol))
          + receptor_cost (sPost Q t b τ).mr_receptors (sPost Q t b τ).gr_receptors
          + gland_cost (sPost Q t b τ).adrenal_mass (sPost Q t b τ).pituitary_mass
          + instability_cost (sPost Q t b τ).cortisol_history
          + stress_response_cost (sPost Q t b τ).stress_level (sPost Q t b τ).cortisol)
        * (2.0 - stage_stress_resilience Q.stage)) := by
  constructor
  · intro P s a σ
    have hval := stepLoadExt_eq_val P s a σ
    have hnn : 0 ≤ stepLoadVal P s a σ := allostatic_load_nonneg _ _ _
    have hrw : (stepExt P s a σ).2.1 = 5.0 - stepLoadVal P s a σ := stepExt_reward_proj P s a σ
    refine ⟨by rw [hval]; exact hnn, by rw [hval, hrw], by rw [hrw]; linarith⟩
  · intro Q t b τ
    have hval := stepLoadS_eq_val Q t b τ
    have hnn : 0 ≤ sLoadVal Q t b τ := allostatic_load_simple_nonneg _ _ _ _
    have hrw : (stepS Q t b τ).2.1 = -(sLoadVal Q t b τ) + 5.0 := stepS_reward_proj Q t b τ
    refine ⟨by rw [hval]; exact hnn, by rw [hval, hrw]; ring, by rw [hrw]; linarith, ?_⟩
    rw [hval]
    rfl

-- ------------------------------------------------------------------
-- Value lemmas for the simple-model update rules.
-- ------------------------------------------------------------------

theorem s_update_crh_value (dt m fb : ℝ) (s : SState) :
    (s_update_crh dt m fb s).crh =
      clip (s.crh + ((50.0 + 10.0 * s.stress_level - 50.0 * fb + m * 20)
        - k_crh * s.crh) * dt) 0 400 := rfl

theorem s_update_acth_value (dt m fb : ℝ) (s : SState) :
    (s_update_acth dt m fb s).acth =
      clip (s.acth + ((15.0 * s.pituitary_mass + 0.2 * (s.crh - 100)
        - 15.0 * fb * 0.5 + m * 10) - k_acth * s.acth) * dt) 0 200 := rfl

theorem s_update_cortisol_value (dt m n : ℝ) (s : SState) :
    (s_update_cortisol dt m n s).cortisol =
      clip (s.cortisol + (((9.0 + 9.0 * Real.cos (2 * Real.pi * (s.time_hours - 8) / 24)) / 12.0) * 8.0
        + 0.15 * (s.acth - 25) * s.adrenal_mass + 2.0 * s.stress_level
        + (3.0 * Real.sin (s.ultradian_phase + 2 * Real.pi * dt / ultradian_period) + n) * 0.3
        + m * 2 - k_cort * s.cortisol) * dt) 0 60 := rfl

theorem s_update_cortisol_history_value (dt m n : ℝ) (s : SState) :
    (s_update_cortisol dt m n s).cortisol_history =
      dequeAppend s.cortisol_history ((s_update_cortisol dt m n s).cortisol) := rfl

theorem s_update_cortisol_phase_value (dt m n : ℝ) (s : SState) :
    (s_update_cortisol dt m n s).ultradian_phase =
      s.ultradian_phase + 2 * Real.pi * dt / ultradian_period := rfl

theorem s_update_glands_adrenal_value (dt : ℝ) (s : SState) :
    (s_update_glands dt s).adrenal_mass =
      clip (if s.acth > 40 then s.adrenal_mass + 0.001 * dt
        else if s.acth < 15 then s.adrenal_mass - 0.0008 * dt
        else s.adrenal_mass) 0.5 2.0 := rfl

theorem s_update_glands_pituitary_value (dt : ℝ) (s : SState) :
    (s_update_glands dt s).pituitary_mass =
      clip (if s.cortisol > 25 then s.pituitary_mass - 0.0008 * dt
        else if s.cortisol < 10 then s.pituitary_mass + 0.001 * dt
        else s.pituitary_mass) 0.5 2.0 := rfl

theorem s_update_glands_gr_value (dt : ℝ) (s : SState) :
    (s_update_glands dt s).gr_receptors =
      clip (if cortisol_to_nmol s.cortisol > 100 then s.gr_receptors * (1 - 0.0001 * dt)
        else s.gr_receptors + 0.0001 * dt * (1.0 - s.gr_receptors)) 0.3 1.5 := rfl

theorem s_update_glands_mr_value (dt : ℝ) (s : SState) :
    (s_update_glands dt s).mr_receptors =
      clip (if cortisol_to_nmol s.cortisol > 100 then s.mr_receptors * (1 - 0.00005 * dt)
        else s.mr_receptors + 0.00005 * dt * (1.0 - s.mr_receptors)) 0.5 1.2 := rfl

theorem s_update_time_th_value (dt : ℝ) (s : SState) :
    (s_update_time dt s).time_hours =
      if s.time_hours + dt ≥ 24 then s.time_hours + dt - 24 else s.time_hours + dt := rfl

theorem s_update_time_day_value (dt : ℝ) (s : SState) :
    (s_update_time dt s).day =
      if s.time_hours + dt ≥ 24 then s.day + 1 else s.day := rfl

theorem s_update_stress_value (ue um : ℝ) (s : SState) :
    (s_update_stress ue um s).stress_level =
      if ue < 0.02 then min 10 (max 0 (s.stress_level * 0.98 - 0.05) + magnitudeOf um)
      else max 0 (s.stress_level * 0.98 - 0.05) := rfl

-- ------------------------------------------------------------------
-- C2 (amended): the load factors through the post-update state and the
-- pre-update cortisol.
-- ------------------------------------------------------------------

theorem allostatic_load_simple_congr (Q : SParams) (u v : SState) (m g : ℝ)
    (h1 : u.cortisol = v.cortisol) (h2 : u.acth = v.acth) (h3 : u.crh = v.crh)
    (h4 : u.stress_level = v.stress_level) (h5 : u.mr_receptors = v.mr_receptors)
    (h6 : u.gr_receptors = v.gr_receptors) (h7 : u.adrenal_mass = v.adrenal_mass)
    (h8 : u.pituitary_mass = v.pituitary_mass)
    (h9 : u.cortisol_history = v.cortisol_history) :
    allostatic_load_simple Q u m g = allostatic_load_simple Q v m g := by
  unfold allostatic_load_simple
  rw [h1, h2, h3, h4, h5, h6, h7, h8, h9]

/-- C2 (amended): the allostatic load computed by the simple model's
`step()` is a pure function of the post-update state together with the
pre-update cortisol (from which the MR/GR occupancies used in the cost
are computed): any two executions that end in identical post-update
states and started from the same pre-update cortisol incur identical
loads, and computing the cost mutates no state (the load function is a
read-only function of its arguments). -/
theorem load_function_of_post_state_and_pre_cortisol (Q : SParams)
    (t1 t2 : SState) (b1 b2 : ℤ) (τ1 τ2 : ℕ → ℝ)
    (hpost : (stepS Q t1 b1 τ1).1 = (stepS Q t2 b2 τ2).1)
    (hcort : t1.cortisol = t2.cortisol) :
    stepLoadS Q t1 b1 τ1 = stepLoadS Q t2 b2 τ2 := by
  rw [stepLoadS_eq_val, stepLoadS_eq_val]
  unfold sLoadVal
  rw [hcort]
  have e1 : (stepS Q t1 b1 τ1).1.cortisol = (stepS Q t2 b2 τ2).1.cortisol :=
    congrArg SState.cortisol hpost
  have e2 : (stepS Q t1 b1 τ1).1.acth = (stepS Q t2 b2 τ2).1.acth :=
    congrArg SState.acth hpost
  have e3 : (stepS Q t1 b1 τ1).1.crh = (stepS Q t2 b2 τ2).1.crh :=
    congrArg SState.crh hpost
  have e4 : (stepS Q t1 b1 τ1).1.stress_level = (stepS Q t2 b2 τ2).1.stress_level :=
    congrArg SState.stress_level hpost
  have e5 : (stepS Q t1 b1 τ1).1.mr_receptors = (stepS Q t2 b2 τ2).1.mr_receptors :=
    congrArg SState.mr_receptors hpost
  have e6 : (stepS Q t1 b1 τ1).1.gr_receptors = (stepS Q t2 b2 τ2).1.gr_receptors :=
    congrArg SState.gr_receptors hpost
  have e7 : (stepS Q t1 b1 τ1).1.adrenal_mass = (stepS Q t2 b2 τ2).1.adrenal_mass :=
    congrArg SState.adrenal_mass hpost
  have e8 : (stepS Q t1 b1 τ1).1.pituitary_mass = (stepS Q t2 b2 τ2).1.pituitary_mass :=
    congrArg SState.pituitary_mass hpost
  have e9 : (stepS Q t1 b1 τ1).1.cortisol_history = (stepS Q t2 b2 τ2).1.cortisol_history :=
    congrArg SState.cortisol_history hpost
  exact allostatic_load_simple_congr Q _ _ _ _ e1 e2 e3 e4 e5 e6 e7 e8 e9

/-- Witness for C2 (amended) at identical executions. -/
theorem load_function_of_post_state_witness :
    (stepS Qadult sBasal 0 σ0).1 = (stepS Qadult sBasal 0 σ0).1 ∧
    sBasal.cortisol = sBasal.cortisol ∧
    stepLoadS Qadult sBasal 0 σ0 = stepLoadS Qadult sBasal 0 σ0 :=
  ⟨rfl, rfl,
   load_function_of_post_state_and_pre_cortisol Qadult sBasal sBasal 0 0 σ0 σ0 rfl rfl⟩

-- ------------------------------------------------------------------
-- C2 (counterexample): two executions with identical post-update
-- states but different loads.  The pre-states differ only in cortisol
-- (59 vs 60) and in the cumulative-load accumulator; every post-update
-- field coincides, yet the MR/GR occupancy cost terms are computed
-- from the pre-update cortisol, so the loads differ.
-- ------------------------------------------------------------------

/-- Pre-state of the counterexample: basal state with zero CRH/ACTH,
cortisol `c` and cumulative load `L`. -/
def cexState (c L : ℝ) : SState :=
  { sBasal with cortisol := c, crh := 0, acth := 0, cumulative_load := L }

/-- Random stream of the counterexample: huge ultradian noise, no
stress event. -/
def σcex : ℕ → ℝ := fun n => if n = 0 then 1000 else 0.5

/-- The load incurred by one step from `cexState c 0`. -/
def cexLoad (c : ℝ) : ℝ := sLoadVal Qadult (cexState c 0) 0 σcex

def cexF (c L : ℝ) : ℝ := total_feedback_simple Qadult (cexState c L)

def cexU1 (c L : ℝ) : SState :=
  s_update_crh Qadult.dt (crh_mod_of 0) (cexF c L) (cexState c L)

def cexU2 (c L : ℝ) : SState :=
  s_update_acth Qadult.dt (acth_mod_of 0) (cexF c L) (cexU1 c L)

def cexU3 (c L : ℝ) : SState :=
  s_update_cortisol Qadult.dt (cortisol_mod_of 0) (σcex 0) (cexU2 c L)

def cexU4 (c L : ℝ) : SState := s_update_glands Qadult.dt (cexU3 c L)

def cexU5 (c L : ℝ) : SState := s_update_time Qadult.dt (cexU4 c L)

def cexU6 (c L : ℝ) : SState := s_update_stress (σcex 1) (σcex 2) (cexU5 c L)

theorem cex_sPost_eq (c L : ℝ) : sPost Qadult (cexState c L) 0 σcex = cexU6 c L := rfl

theorem cex_occ (c : ℝ) (h1 : 59 ≤ c) (h2 : c ≤ 60) :
    0.999 ≤ mr_occupancy (cortisol_to_nmol c) ∧ mr_occupancy (cortisol_to_nmol c) ≤ 1 ∧
    0.99 ≤ gr_occupancy (cortisol_to_nmol c) ∧ gr_occupancy (cortisol_to_nmol c) ≤ 1 := by
  unfold mr_occupancy gr_occupancy cortisol_to_nmol MR_KD GR_KD CORTISOL_TO_NM
  have hx : (1628.4 : ℝ) ≤ c * 27.6 := by nlinarith
  have hp1 : (0 : ℝ) < 0.5 + c * 27.6 := by nlinarith
  have hp2 : (0 : ℝ) < 5.0 + c * 27.6 := by nlinarith
  refine ⟨?_, ?_, ?_, ?_⟩
  · rw [le_div_iff hp1]; nlinarith
  · rw [div_le_one hp1]; nlinarith
  · rw [le_div_iff hp2]; nlinarith
  · rw [div_le_one hp2]; nlinarith

theorem stage_adult_resilience : stage_stress_resilience "adult" = 1.0 := by
  unfold stage_stress_resilience
  rw [if_neg (by decide), if_neg (by decide), if_neg (by decide)]

theorem stage_adult_maturity : stage_feedback_maturity "adult" = 1.0 := by
  unfold stage_feedback_maturity
  rw [if_neg (by decide), if_neg (by decide), if_neg (by decide)]

theorem stage_adult_sensitivity : stage_receptor_sensitivity "adult" = 1.0 := by
  unfold stage_receptor_sensitivity
  rw [if_neg (by decide), if_neg (by decide), if_neg (by decide)]

theorem cexF_bounds (c L : ℝ) (h1 : 59 ≤ c) (h2 : c ≤ 60) :
    0.88 ≤ cexF c L ∧ cexF c L ≤ 1.01 := by
  obtain ⟨m1, m2, g1, g2⟩ := cex_occ c h1 h2
  unfold cexF total_feedback_simple
  simp only [cexState, sBasal, Qadult, stage_adult_maturity, stage_adult_sensitivity]
  constructor <;> nlinarith

theorem cexU1_crh (c L : ℝ) (h1 : 59 ≤ c) (h2 : c ≤ 60) : (cexU1 c L).crh = 0 := by
  have hfb := (cexF_bounds c L h1 h2).1
  have hmod : crh_mod_of 0 = -0.3 := by norm_num [crh_mod_of]
  rw [cexU1, s_update_crh_value, hmod]
  simp only [cexState, sBasal, Qadult]
  apply clip_of_le_lo
  nlinarith

theorem cexU2_acth (c L : ℝ) (h1 : 59 ≤ c) (h2 : c ≤ 60) : (cexU2 c L).acth = 0 := by
  have frsCrh := s_update_crh_frame
  have hfb := (cexF_bounds c L h1 h2).1
  have hcrh := cexU1_crh c L h1 h2
  have hmod : acth_mod_of 0 = -0.5 := by norm_num [acth_mod_of]
  rw [cexU2, s_update_acth_value, hmod]
  rw [hcrh]
  simp only [cexU1, frsCrh, cexState, sBasal, Qadult]
  apply clip_of_le_lo
  nlinarith

theorem k_cort_bounds : 0 ≤ k_cort ∧ k_cort ≤ 0.56 := by
  unfold k_cort HALFLIFE_CORTISOL
  constructor
  · have h := Real.log_nonneg (by norm_num : (1:ℝ) ≤ 2)
    positivity
  · rw [div_le_iff (by norm_num)]
    nlinarith [Real.log_two_lt_d9]

theorem cexU3_cortisol (c L : ℝ) (h1 : 59 ≤ c) (h2 : c ≤ 60) :
    (cexU3 c L).cortisol = 60 := by
  have frsActh := s_update_acth_frame
  have frsCrh := s_update_crh_frame
  have hacth := cexU2_acth c L h1 h2
  have hmod : cortisol_mod_of 0 = -0.8 := by norm_num [cortisol_mod_of]
  rw [cexU3, s_update_cortisol_value, hmod]
  rw [hacth]
  simp only [cexU2, frsActh, cexU1, frsCrh, cexState, sBasal,
    Qadult, σcex]
  norm_num
  have hsin := Real.neg_one_le_sin (2 * Real.pi * (1 / 10) / ultradian_period)
  obtain ⟨hk0, hk1⟩ := k_cort_bounds
  have hkc : k_cort * c ≤ 33.6 := by nlinarith
  apply clip_of_hi_le
  · nlinarith
  · norm_num

theorem cexU3_history (c L : ℝ) (h1 : 59 ≤ c) (h2 : c ≤ 60) :
    (cexU3 c L).cortisol_history = dequeAppend (List.replicate 50 12) 60 := by
  have frsActh := s_update_acth_frame
  have frsCrh := s_update_crh_frame
  have hc := cexU3_cortisol c L h1 h2
  simp only [cexU3] at hc
  rw [cexU3, s_update_cortisol_history_value, hc]
  simp only [cexU2, frsActh, cexU1, frsCrh, cexState, sBasal]

theorem cexU3_acth (c L : ℝ) (h1 : 59 ≤ c) (h2 : c ≤ 60) : (cexU3 c L).acth = 0 := by
  have frsCort := s_update_cortisol_frame
  simp only [cexU3, frsCort]
  exact cexU2_acth c L h1 h2

theorem cexU4_adrenal (c L : ℝ) (h1 : 59 ≤ c) (h2 : c ≤ 60) :
    (cexU4 c L).adrenal_mass = clip (1 - 0.0008 * 0.1) 0.5 2.0 := by
  have frsActh := s_update_acth_frame
  have frsCort := s_update_cortisol_frame
  have frsCrh := s_update_crh_frame
  have ha := cexU3_acth c L h1 h2
  rw [cexU4, s_update_glands_adrenal_value, ha]
  rw [if_neg (by norm_num), if_pos (by norm_num)]
  simp only [cexU3, frsCort, cexU2, frsActh, cexU1,
    frsCrh, cexState, sBasal, Qadult]

theorem cexU4_pituitary (c L : ℝ) (h1 : 59 ≤ c) (h2 : c ≤ 60) :
    (cexU4 c L).pituitary_mass = clip (1 - 0.0008 * 0.1) 0.5 2.0 := by
  have frsActh := s_update_acth_frame
  have frsCort := s_update_cortisol_frame
  have frsCrh := s_update_crh_frame
  have hc := cexU3_cortisol c L h1 h2
  rw [cexU4, s_update_glands_pituitary_value, hc]
  rw [if_pos (by norm_num)]
  simp only [cexU3, frsCort, cexU2, frsActh, cexU1,
    frsCrh, cexState, sBasal, Qadult]

theorem cexU4_gr (c L : ℝ) (h1 : 59 ≤ c) (h2 : c ≤ 60) :
    (cexU4 c L).gr_receptors = clip (1 * (1 - 0.0001 * 0.1)) 0.3 1.5 := by
  have frsActh := s_update_acth_frame
  have frsCort := s_update_cortisol_frame
  have frsCrh := s_update_crh_frame
  have hc := cexU3_cortisol c L h1 h2
  rw [cexU4, s_update_glands_gr_value, hc]
  rw [if_pos (by norm_num [cortisol_to_nmol, CORTISOL_TO_NM])]
  simp only [cexU3, frsCort, cexU2, frsActh, cexU1,
    frsCrh, cexState, sBasal, Qadult]

theorem cexU4_mr (c L : ℝ) (h1 : 59 ≤ c) (h2 : c ≤ 60) :
    (cexU4 c L).mr_receptors = clip (1 * (1 - 0.00005 * 0.1)) 0.5 1.2 := by
  have frsActh := s_update_acth_frame
  have frsCort := s_update_cortisol_frame
  have frsCrh := s_update_crh_frame
  have hc := cexU3_cortisol c L h1 h2
  rw [cexU4, s_update_glands_mr_value, hc]
  rw [if_pos (by norm_num [cortisol_to_nmol, CORTISOL_TO_NM])]
  simp only [cexU3, frsCort, cexU2, frsActh, cexU1,
    frsCrh, cexState, sBasal, Qadult]

theorem cexPost_crh (c L : ℝ) (h1 : 59 ≤ c) (h2 : c ≤ 60) : (cexU6 c L).crh = 0 := by
  have frsActh := s_update_acth_frame
  have frsCort := s_update_cortisol_frame
  have frsGlands := s_update_glands_frame
  have frsStress := s_update_stress_frame
  have frsTime := s_update_time_frame
  simp only [cexU6, cexU5, cexU4, cexU3, cexU2, frsStress, frsTime,
    frsGlands, frsCort, frsActh]
  exact cexU1_crh c L h1 h2

theorem cexPost_acth (c L : ℝ) (h1 : 59 ≤ c) (h2 : c ≤ 60) : (cexU6 c L).acth = 0 := by
  have frsCort := s_update_cortisol_frame
  have frsGlands := s_update_glands_frame
  have frsStress := s_update_stress_frame
  have frsTime := s_update_time_frame
  simp only [cexU6, cexU5, cexU4, cexU3, frsStress, frsTime,
    frsGlands, frsCort]
  exact cexU2_acth c L h1 h2

theorem cexPost_cortisol (c L : ℝ) (h1 : 59 ≤ c) (h2 : c ≤ 60) :
    (cexU6 c L).cortisol = 60 := by
  have frsGlands := s_update_glands_frame
  have frsStress := s_update_stress_frame
  have frsTime := s_update_time_frame
  simp only [cexU6, cexU5, cexU4, frsStress, frsTime,
    frsGlands]
  exact cexU3_cortisol c L h1 h2

theorem cexPost_history (c L : ℝ) (h1 : 59 ≤ c) (h2 : c ≤ 60) :
    (cexU6 c L).cortisol_history = dequeAppend (List.replicate 50 12) 60 := by
  have frsGlands := s_update_glands_frame
  have frsStress := s_update_stress_frame
  have frsTime := s_update_time_frame
  simp only [cexU6, cexU5, cexU4, frsStress, frsTime,
    frsGlands]
  exact cexU3_history c L h1 h2

theorem cexPost_adrenal (c L : ℝ) (h1 : 59 ≤ c) (h2 : c ≤ 60) :
    (cexU6 c L).adrenal_mass = clip (1 - 0.0008 * 0.1) 0.5 2.0 := by
  have frsStress := s_update_stress_frame
  have frsTime := s_update_time_frame
  simp only [cexU6, cexU5, frsStress, frsTime]
  exact cexU4_adrenal c L h1 h2

theorem cexPost_pituitary (c L : ℝ) (h1 : 59 ≤ c) (h2 : c ≤ 60) :
    (cexU6 c L).pituitary_mass = clip (1 - 0.0008 * 0.1) 0.5 2.0 := by
  have frsStress := s_update_stress_frame
  have frsTime := s_update_time_frame
  simp only [cexU6, cexU5, frsStress, frsTime]
  exact cexU4_pituitary c L h1 h2

theorem cexPost_gr (c L : ℝ) (h1 : 59 ≤ c) (h2 : c ≤ 60) :
    (cexU6 c L).gr_receptors = clip (1 * (1 - 0.0001 * 0.1)) 0.3 1.5 := by
  have frsStress := s_update_stress_frame
  have frsTime := s_update_time_frame
  simp only [cexU6, cexU5, frsStress, frsTime]
  exact cexU4_gr c L h1 h2

theorem cexPost_mr (c L : ℝ) (h1 : 59 ≤ c) (h2 : c ≤ 60) :
    (cexU6 c L).mr_receptors = clip (1 * (1 - 0.00005 * 0.1)) 0.5 1.2 := by
  have frsStress := s_update_stress_frame
  have frsTime := s_update_time_frame
  simp only [cexU6, cexU5, frsStress, frsTime]
  exact cexU4_mr c L h1 h2

theorem cexPost_stress (c L : ℝ) : (cexU6 c L).stress_level = 0 := by
  have frsActh := s_update_acth_frame
  have frsCort := s_update_cortisol_frame
  have frsCrh := s_update_crh_frame
  have frsGlands := s_update_glands_frame
  have frsTime := s_update_time_frame
  rw [cexU6, s_update_stress_value]
  simp only [σcex, cexU5, frsTime, cexU4, frsGlands, cexU3,
    frsCort, cexU2, frsActh, cexU1, frsCrh,
    cexState, sBasal]
  norm_num

theorem cex_load_value (c : ℝ) (h1 : 59 ≤ c) (h2 : c ≤ 60) :
    cexLoad c =
      (0.05 + deviation_cost 60 + tissue_damage 60 + acth_cost 0 + crh_cost 0
        + mr_cost (mr_occupancy (cortisol_to_nmol c))
        + gr_cost 0 (gr_occupancy (cortisol_to_nmol c))
        + receptor_cost (clip (1 * (1 - 0.00005 * 0.1)) 0.5 1.2)
            (clip (1 * (1 - 0.0001 * 0.1)) 0.3 1.5)
        + gland_cost (clip (1 - 0.0008 * 0.1) 0.5 2.0) (clip (1 - 0.0008 * 0.1) 0.5 2.0)
        + instability_cost (dequeAppend (List.replicate 50 12) 60)
        + stress_response_cost 0 60)
      * (2.0 - stage_stress_resilience "adult") := by
  unfold cexLoad sLoadVal
  rw [cex_sPost_eq]
  unfold allostatic_load_simple
  rw [cexPost_cortisol c 0 h1 h2, cexPost_acth c 0 h1 h2, cexPost_crh c 0 h1 h2,
    cexPost_stress c 0, cexPost_mr c 0 h1 h2, cexPost_gr c 0 h1 h2,
    cexPost_adrenal c 0 h1 h2, cexPost_pituitary c 0 h1 h2, cexPost_history c 0 h1 h2]
  simp only [cexState, sBasal, Qadult]

theorem cexLoad_lt : cexLoad 59 < cexLoad 60 := by
  rw [cex_load_value 59 (by norm_num) (by norm_num),
    cex_load_value 60 (by norm_num) (by norm_num), stage_adult_resilience]
  have h21 : (2.0 : ℝ) - 1.0 = 1 := by norm_num
  rw [h21, mul_one, mul_one]
  have hgr : ∀ g : ℝ, gr_cost 0 g = 0.3 * |g - 0.3| ^ 2 := by
    intro g
    unfold gr_cost
    rw [if_neg (by norm_num)]
  rw [hgr, hgr]
  simp only [mr_cost, sq_abs]
  have hmono_m : mr_occupancy (cortisol_to_nmol 59) < mr_occupancy (cortisol_to_nmol 60) :=
    occ_strictMono 0.5 (by norm_num) (by norm_num [cortisol_to_nmol, CORTISOL_TO_NM])
      (by norm_num [cortisol_to_nmol, CORTISOL_TO_NM])
  have hmono_g : gr_occupancy (cortisol_to_nmol 59) < gr_occupancy (cortisol_to_nmol 60) :=
    occ_strictMono 5.0 (by norm_num) (by norm_num [cortisol_to_nmol, CORTISOL_TO_NM])
      (by norm_num [cortisol_to_nmol, CORTISOL_TO_NM])
  obtain ⟨hm59a, hm59b, hg59a, hg59b⟩ := cex_occ 59 (by norm_num) (by norm_num)
  obtain ⟨hm60a, hm60b, hg60a, hg60b⟩ := cex_occ 60 (by norm_num) (by norm_num)
  nlinarith [mul_pos (sub_pos.mpr hmono_m)
      (show (0:ℝ) < mr_occupancy (cortisol_to_nmol 60) + mr_occupancy (cortisol_to_nmol 59) - 1.6
        by nlinarith),
    mul_pos (sub_pos.mpr hmono_g)
      (show (0:ℝ) < gr_occupancy (cortisol_to_nmol 60) + gr_occupancy (cortisol_to_nmol 59) - 0.6
        by nlinarith)]

theorem cexLoad_cum_indep (x : ℝ) :
    sLoadVal Qadult (cexState 60 x) 0 σcex = cexLoad 60 := by
  unfold cexLoad sLoadVal
  rw [cex_sPost_eq, cex_sPost_eq]
  have hcort : (cexState (60:ℝ) x).cortisol = (cexState (60:ℝ) 0).cortisol := rfl
  rw [hcort]
  refine allostatic_load_simple_congr _ _ _ _ _ ?_ ?_ ?_ ?_ ?_ ?_ ?_ ?_ ?_
  · rw [cexPost_cortisol 60 x (by norm_num) (by norm_num),
      cexPost_cortisol 60 0 (by norm_num) (by norm_num)]
  · rw [cexPost_acth 60 x (by norm_num) (by norm_num),
      cexPost_acth 60 0 (by norm_num) (by norm_num)]
  · rw [cexPost_crh 60 x (by norm_num) (by norm_num),
      cexPost_crh 60 0 (by norm_num) (by norm_num)]
  · rw [cexPost_stress 60 x, cexPost_stress 60 0]
  · rw [cexPost_mr 60 x (by norm_num) (by norm_num),
      cexPost_mr 60 0 (by norm_num) (by norm_num)]
  · rw [cexPost_gr 60 x (by norm_num) (by norm_num),
      cexPost_gr 60 0 (by norm_num) (by norm_num)]
  · rw [cexPost_adrenal 60 x (by norm_num) (by norm_num),
      cexPost_adrenal 60 0 (by norm_num) (by norm_num)]
  · rw [cexPost_pituitary 60 x (by norm_num) (by norm_num),
      cexPost_pituitary 60 0 (by norm_num) (by norm_num)]
  · rw [cexPost_history 60 x (by norm_num) (by norm_num),
      cexPost_history 60 0 (by norm_num) (by norm_num)]

/-- C2 (counterexample to the claim as stated): two executions of the
simple model's `step()` that end in identical full post-update states
(every field, including histories, counters and the cumulative-load
accumulator) whose computed allostatic loads differ.  The pre-states
differ in cortisol (59 vs 60), and the MR/GR receptor-occupancy cost
terms are evaluated at occupancies computed from the pre-update
cortisol, which the post-update state does not determine. -/
theorem step_load_not_function_of_post_state :
    (stepS Qadult (cexState 59 0) 0 σcex).1 =
      (stepS Qadult (cexState 60 (cexLoad 59 - cexLoad 60)) 0 σcex).1 ∧
    stepLoadS Qadult (cexState 59 0) 0 σcex ≠
      stepLoadS Qadult (cexState 60 (cexLoad 59 - cexLoad 60)) 0 σcex := by
  have frsActh := s_update_acth_frame
  have frsCort := s_update_cortisol_frame
  have frsCrh := s_update_crh_frame
  have frsGlands := s_update_glands_frame
  have frsStress := s_update_stress_frame
  have frsTime := s_update_time_frame
  have frProjS := stepS_state_proj
  have hind := cexLoad_cum_indep (cexLoad 59 - cexLoad 60)
  have hl59 : sLoadVal Qadult (cexState 59 0) 0 σcex = cexLoad 59 := rfl
  constructor
  · refine SState.ext ?_ ?_ ?_ ?_ ?_ ?_ ?_ ?_ ?_ ?_ ?_ ?_ ?_ ?_
    · simp only [frProjS]
      rw [cex_sPost_eq, cex_sPost_eq,
        cexPost_cortisol 59 0 (by norm_num) (by norm_num),
        cexPost_cortisol 60 _ (by norm_num) (by norm_num)]
    · simp only [frProjS]
      rw [cex_sPost_eq, cex_sPost_eq,
        cexPost_acth 59 0 (by norm_num) (by norm_num),
        cexPost_acth 60 _ (by norm_num) (by norm_num)]
    · simp only [frProjS]
      rw [cex_sPost_eq, cex_sPost_eq,
        cexPost_crh 59 0 (by norm_num) (by norm_num),
        cexPost_crh 60 _ (by norm_num) (by norm_num)]
    · simp only [frProjS]
      rw [cex_sPost_eq, cex_sPost_eq,
        cexPost_pituitary 59 0 (by norm_num) (by norm_num),
        cexPost_pituitary 60 _ (by norm_num) (by norm_num)]
    · simp only [frProjS]
      rw [cex_sPost_eq, cex_sPost_eq,
        cexPost_adrenal 59 0 (by norm_num) (by norm_num),
        cexPost_adrenal 60 _ (by norm_num) (by norm_num)]
    · simp only [frProjS]
      rw [cex_sPost_eq, cex_sPost_eq,
        cexPost_mr 59 0 (by norm_num) (by norm_num),
        cexPost_mr 60 _ (by norm_num) (by norm_num)]
    · simp only [frProjS]
      rw [cex_sPost_eq, cex_sPost_eq,
        cexPost_gr 59 0 (by norm_num) (by norm_num),
        cexPost_gr 60 _ (by norm_num) (by norm_num)]
    · simp only [frProjS]
      rw [cex_sPost_eq, cex_sPost_eq, cexPost_stress 59 0, cexPost_stress 60 _]
    · simp only [frProjS]
      rw [cex_sPost_eq, cex_sPost_eq]
      simp only [cexU6, cexU5, cexU4, cexU3, cexU2, cexU1, frsStress,
        s_update_time_th_value, frsGlands, frsCort,
        frsActh, frsCrh, cexState, sBasal, Qadult]
    · simp only [frProjS]
      rw [cex_sPost_eq, cex_sPost_eq]
      simp only [cexU6, cexU5, cexU4, cexU3, cexU2, cexU1, frsStress,
        s_update_time_day_value, frsGlands, frsCort,
        frsActh, frsCrh, cexState, sBasal, Qadult]
    · simp only [frProjS]
      rw [cex_sPost_eq, cex_sPost_eq]
      simp only [cexU6, cexU5, cexU4, cexU3, cexU2, cexU1, frsStress,
        frsTime, frsGlands, s_update_cortisol_phase_value,
        frsActh, frsCrh, cexState, sBasal, Qadult]
    · rw [stepS_counter, stepS_counter]
      simp only [cexState, sBasal]
    · rw [stepS_cum, stepS_cum, hind, hl59]
      simp only [cexState, sBasal]
      ring
    · simp only [frProjS]
      rw [cex_sPost_eq, cex_sPost_eq,
        cexPost_history 59 0 (by norm_num) (by norm_num),
        cexPost_history 60 _ (by norm_num) (by norm_num)]
  · rw [stepLoadS_eq_val, stepLoadS_eq_val, hind, hl59]
    exact ne_of_lt cexLoad_lt

end HPA

end
